import Mathlib

/-!
Verification of the core of the ls-qpack QPACK codec (src/src/lsqpack.c)
against its natural-language specification.

Modelling conventions:
* C byte buffers become `List Nat` with every element `< 256`.
* `uint64_t` arithmetic is `Nat` with explicit `% 2 ^ 64` where the C code
  can wrap.
* Pointer-and-length output buffers become returned `List Nat` values;
  where the C code checks for buffer exhaustion the model compares the
  produced length against an explicit capacity argument.
* Constants that live in the missing header `lsqpack.h` are modelled from
  the spec and are marked as such in their doc comments.
-/

namespace LsQpack

/-- Modelled from the spec: `lsqpack.h` (not under src/) defines
`LSQPACK_UINT64_ENC_SZ`, the maximum number of bytes a 64-bit prefix
integer can occupy.  The spec (§4.1) says the decoder overflows "if
`bytes_read` ≥ 10 without termination", so the constant is 10. -/
def LSQPACK_UINT64_ENC_SZ : Nat := 10

/-- `struct lsqpack_dec_int_state` from lsqpack.c: resumable integer-decoder
state `{resume, val, M, nread}`. -/
structure DecIntState where
  resume : Bool
  val : Nat
  M : Nat
  nread : Nat
deriving Repr, DecidableEq

/-- Result of `lsqpack_dec_int`: return value 0 carries the decoded value and
the unconsumed input suffix (the C function advances `*src_p`); -1 carries
the saved state; -2 is overflow. -/
inductive DecIntResult where
  | ok (value : Nat) (rest : List Nat)
  | needMore (st : DecIntState)
  | overflow
deriving Repr, DecidableEq

/-- The `do { ... } while (B & 0x80)` loop of `lsqpack_dec_int`, entered
with accumulator `val`, shift `M`, `consumed` bytes already read in this
call and `prevRead` bytes read in previous calls (the C code computes
`nread = (state->resume ? state->nread : 0) + (src - orig_src)` at input
exhaustion).  C shifts `(B & 0x7f) << M` are 64-bit and wrap, hence the
`% 2 ^ 64`; shifts with `M > 63` occur only on paths whose outcome does not
inspect the accumulator (they end in `.overflow`). -/
def decIntLoop (val M consumed prevRead : Nat) : List Nat → DecIntResult
  | [] =>
      if prevRead + consumed < LSQPACK_UINT64_ENC_SZ then
        .needMore ⟨true, val, M, prevRead + consumed⟩
      else
        .overflow
  | B :: rest =>
      let val' := (val + B % 128 * 2 ^ M) % 2 ^ 64
      let M' := M + 7
      if 128 ≤ B then
        decIntLoop val' M' (consumed + 1) prevRead rest
      else if M' ≤ 63 ∨ (M' = 70 ∧ B ≤ 1 ∧ Nat.testBit val' 63) then
        .ok val' rest
      else
        .overflow

/-- `lsqpack_dec_int` from lsqpack.c.  The first byte is masked with
`prefix_max = 2 ^ pb - 1` (the C `val &= prefix_max` is `% 2 ^ pb`); if the
prefix is not saturated the value is complete, otherwise the continuation
loop runs.  On `state->resume` the C code jumps straight into the loop body;
the caller guarantees at least one byte, so the `[]` case (which the C
function never sees) returns the state unchanged. -/
def lsqpack_dec_int (pb : Nat) (st : DecIntState) : List Nat → DecIntResult
  | [] => .needMore st
  | b :: rest =>
      if st.resume then
        decIntLoop st.val st.M 0 st.nread (b :: rest)
      else
        let prefix_max := 2 ^ pb - 1
        let val := b % 2 ^ pb
        if val < prefix_max then
          .ok val rest
        else
          decIntLoop val 0 1 0 rest

/-- The continuation-byte loop of `lsqpack_enc_int`: little-endian base-128
digits, each with the high bit set except the last (`*dst++ = 0x80 | value`
stores the low seven bits of `value` with bit 7 forced). -/
def encContinuation (v : Nat) : List Nat :=
  if h : 128 ≤ v then
    (128 + v % 128) :: encContinuation (v / 128)
  else
    [v]
termination_by v
decreasing_by
  exact Nat.div_lt_self (Nat.lt_of_lt_of_le (by norm_num) h) (by norm_num)

/-- `lsqpack_enc_int` from lsqpack.c, modelled with an unbounded output
buffer (the claim supplies "a sufficiently large buffer").  `firstByte` is
the prior content of `*dst`, into which the C code ORs the prefix
(`*dst++ |= value`). -/
def lsqpack_enc_int (firstByte value pb : Nat) : List Nat :=
  if value < 2 ^ pb - 1 then
    [firstByte ||| value]
  else
    (firstByte ||| (2 ^ pb - 1)) :: encContinuation (value - (2 ^ pb - 1))

/-- Feed single-byte chunks to `lsqpack_dec_int` one at a time, threading
the saved state; `some st` means every call so far returned -1 (NEED_MORE)
and `st` is the state saved by the last of them. -/
def statesBytewise (pb : Nat) (st : DecIntState) : List Nat → Option DecIntState
  | [] => some st
  | b :: rest =>
      match lsqpack_dec_int pb st [b] with
      | .needMore st' => statesBytewise pb st' rest
      | _ => none

/-- A well-formed continuation-byte sequence: nonempty, all bytes except the
last have the high (continuation) bit set, the last does not. -/
def properCont : List Nat → Bool
  | [] => false
  | [b] => b < 128
  | b :: rest => 128 ≤ b && properCont rest

/-- The exact (unwrapped) value accumulated by the decoder loop from a list
of continuation bytes starting at shift `M`. -/
def contVal (M : Nat) : List Nat → Nat
  | [] => 0
  | b :: rest => b % 128 * 2 ^ M + contVal (M + 7) rest

/-- Last element of a byte list (0 for the empty list). -/
def lastByte : List Nat → Nat
  | [] => 0
  | [b] => b
  | _ :: b₂ :: rest => lastByte (b₂ :: rest)

theorem encContinuation_eq_of_lt {v : Nat} (h : v < 128) :
    encContinuation v = [v] := by
  rw [encContinuation]
  simp [Nat.not_le.mpr h]

theorem encContinuation_eq_of_le {v : Nat} (h : 128 ≤ v) :
    encContinuation v = (128 + v % 128) :: encContinuation (v / 128) := by
  rw [encContinuation]
  simp [h]

theorem properCont_encContinuation (v : Nat) : properCont (encContinuation v) = true := by
  induction v using encContinuation.induct with
  | case1 v h ih =>
      rw [encContinuation_eq_of_le h]
      rcases hrec : encContinuation (v / 128) with _ | ⟨b, rest⟩
      · rw [hrec] at ih; simp [properCont] at ih
      · rw [hrec] at ih
        simp only [properCont, Bool.and_eq_true, decide_eq_true_eq]
        exact ⟨by omega, ih⟩
  | case2 v h =>
      rw [encContinuation_eq_of_lt (by omega)]
      simp only [properCont, decide_eq_true_eq]
      omega

theorem contVal_encContinuation (v : Nat) :
    ∀ M, contVal M (encContinuation v) = v * 2 ^ M := by
  induction v using encContinuation.induct with
  | case1 v h ih =>
      intro M
      rw [encContinuation_eq_of_le h]
      simp only [contVal, ih (M + 7)]
      have h128 : (128 + v % 128) % 128 = v % 128 := by omega
      have hpow : (2 : Nat) ^ (M + 7) = 2 ^ M * 128 := by rw [pow_add]; norm_num
      have hv : v % 128 + v / 128 * 128 = v := by omega
      calc (128 + v % 128) % 128 * 2 ^ M + v / 128 * 2 ^ (M + 7)
          = (v % 128 + v / 128 * 128) * 2 ^ M := by rw [h128, hpow]; ring
        _ = v * 2 ^ M := by rw [hv]
  | case2 v h =>
      intro M
      rw [encContinuation_eq_of_lt (by omega)]
      simp [contVal, Nat.mod_eq_of_lt (by omega : v < 128)]

theorem encContinuation_length_le (k : Nat) :
    ∀ v, v < 128 ^ (k + 1) → (encContinuation v).length ≤ k + 1 := by
  induction k with
  | zero =>
      intro v hv
      rw [encContinuation_eq_of_lt (by simpa using hv)]
      simp
  | succ k ih =>
      intro v hv
      by_cases h : 128 ≤ v
      · rw [encContinuation_eq_of_le h]
        simp only [List.length_cons]
        have : v / 128 < 128 ^ (k + 1) := by
          rw [Nat.div_lt_iff_lt_mul (by norm_num)]
          calc v < 128 ^ (k + 1 + 1) := hv
            _ = 128 ^ (k + 1) * 128 := by ring
        exact Nat.succ_le_succ (ih _ this)
      · rw [encContinuation_eq_of_lt (by omega)]
        simp

/-- The decoder loop on a proper continuation sequence: it consumes the
whole sequence and succeeds or overflows exactly according to the final
shift-count check of `lsqpack_dec_int`. -/
theorem decIntLoop_proper :
    ∀ (cs : List Nat) (val M consumed prevRead : Nat), properCont cs = true →
    decIntLoop val M consumed prevRead cs =
      if M + 7 * cs.length ≤ 63 ∨
          (M + 7 * cs.length = 70 ∧ lastByte cs ≤ 1 ∧
            Nat.testBit ((val + contVal M cs) % 2 ^ 64) 63) then
        .ok ((val + contVal M cs) % 2 ^ 64) []
      else
        .overflow := by
  intro cs
  induction cs with
  | nil => intro val M c p h; simp [properCont] at h
  | cons b rest ih =>
      intro val M c p h
      rcases rest with _ | ⟨b₂, rest₂⟩
      · simp only [properCont, decide_eq_true_eq] at h
        simp only [decIntLoop, contVal, lastByte, List.length_cons, List.length_nil,
          Nat.add_zero, Nat.mul_one, Nat.zero_add]
        rw [if_neg (by omega : ¬ 128 ≤ b)]
      · simp only [properCont, Bool.and_eq_true, decide_eq_true_eq] at h
        obtain ⟨hb, hrest⟩ := h
        rw [decIntLoop]
        rw [if_pos hb]
        rw [ih _ _ _ _ hrest]
        have hlen : M + 7 + 7 * (b₂ :: rest₂).length = M + 7 * (b :: b₂ :: rest₂).length := by
          simp only [List.length_cons]; ring
        have hval : ((val + b % 128 * 2 ^ M) % 2 ^ 64 + contVal (M + 7) (b₂ :: rest₂)) % 2 ^ 64
            = (val + contVal M (b :: b₂ :: rest₂)) % 2 ^ 64 := by
          simp only [contVal, Nat.mod_add_mod, Nat.add_assoc]
        have hlast : lastByte (b₂ :: rest₂) = lastByte (b :: b₂ :: rest₂) := by
          simp only [lastByte]
        rw [hlen, hval, hlast]

/-- ORing a value into a byte whose low `pb` bits are clear, then masking
with the `pb`-bit prefix, recovers the value (the C idiom
`*dst |= value` followed by the decoder's `val &= prefix_max`). -/
theorem lor_low {fb v pb : Nat} (hfb : fb % 2 ^ pb = 0) (hv : v < 2 ^ pb) :
    (fb ||| v) % 2 ^ pb = v := by
  have hfbbit : ∀ i, i < pb → fb.testBit i = false := by
    intro i hi
    have h0 : (fb % 2 ^ pb).testBit i = false := by rw [hfb]; simp
    rwa [Nat.testBit_mod_two_pow, decide_eq_true hi, Bool.true_and] at h0
  apply Nat.eq_of_testBit_eq
  intro i
  rw [Nat.testBit_mod_two_pow, Nat.testBit_or]
  by_cases hi : i < pb
  · rw [decide_eq_true hi, Bool.true_and, hfbbit i hi, Bool.false_or]
  · rw [decide_eq_false hi, Bool.false_and]
    have : v < 2 ^ i := lt_of_lt_of_le hv (Nat.pow_le_pow_right (by norm_num) (by omega))
    rw [Nat.testBit_lt_two_pow this]

/-- Upper bound on the value accumulated from `L` continuation bytes. -/
theorem contVal_le (cs : List Nat) :
    ∀ M, contVal M cs ≤ 2 ^ (M + 7 * cs.length) - 2 ^ M := by
  induction cs with
  | nil => intro M; simp [contVal]
  | cons b rest ih =>
      intro M
      simp only [contVal, List.length_cons]
      have h1 : b % 128 * 2 ^ M ≤ 127 * 2 ^ M :=
        Nat.mul_le_mul_right _ (by omega)
      have h2 : contVal (M + 7) rest ≤ 2 ^ (M + 7 + 7 * rest.length) - 2 ^ (M + 7) := ih (M + 7)
      have hexp : M + 7 + 7 * rest.length = M + 7 * (rest.length + 1) := by ring
      have hpow7 : (2 : Nat) ^ (M + 7) = 2 ^ M * 128 := by rw [pow_add]; norm_num
      rw [hexp, hpow7] at h2
      have hle2 : 2 ^ M * 128 ≤ 2 ^ (M + 7 * (rest.length + 1)) := by
        rw [← hpow7]
        exact Nat.pow_le_pow_right (by norm_num) (by omega)
      omega

theorem contVal_append_singleton (cs : List Nat) (b : Nat) :
    ∀ M, contVal M (cs ++ [b]) = contVal M cs + b % 128 * 2 ^ (M + 7 * cs.length) := by
  induction cs with
  | nil => intro M; simp [contVal]
  | cons c rest ih =>
      intro M
      have h1 : contVal M ((c :: rest) ++ [b])
          = c % 128 * 2 ^ M + contVal (M + 7) (rest ++ [b]) := rfl
      have h2 : contVal M (c :: rest) = c % 128 * 2 ^ M + contVal (M + 7) rest := rfl
      rw [h1, h2, ih (M + 7)]
      simp only [List.length_cons]
      have hexp : M + 7 + 7 * rest.length = M + 7 * (rest.length + 1) := by ring
      rw [hexp]
      ring

theorem lastByte_append_singleton (cs : List Nat) (b : Nat) :
    lastByte (cs ++ [b]) = b := by
  induction cs with
  | nil => rfl
  | cons c rest ih =>
      rcases rest with _ | ⟨c₂, rest₂⟩
      · rfl
      · simpa only [List.cons_append, lastByte] using ih

theorem properCont_append_singleton {cs : List Nat} {b : Nat}
    (h : properCont (cs ++ [b]) = true) : b < 128 := by
  induction cs with
  | nil => simpa [properCont] using h
  | cons c rest ih =>
      rcases rest with _ | ⟨c₂, rest₂⟩
      · have h' : 128 ≤ c ∧ b < 128 := by simpa [properCont] using h
        exact h'.2
      · apply ih
        have h' : 128 ≤ c ∧ properCont ((c₂ :: rest₂) ++ [b]) = true := by
          simpa [properCont] using h
        exact h'.2

/-- `lsqpack_dec_int` on a resumed state jumps straight into the loop. -/
theorem dec_int_cons_resume (pb val M nread b : Nat) (rest : List Nat) :
    lsqpack_dec_int pb ⟨true, val, M, nread⟩ (b :: rest) =
      decIntLoop val M 0 nread (b :: rest) := rfl

/-- `lsqpack_dec_int` on a fresh state masks the first byte and either
finishes (unsaturated prefix) or enters the loop. -/
theorem dec_int_cons_fresh (pb b : Nat) (rest : List Nat) :
    lsqpack_dec_int pb ⟨false, 0, 0, 0⟩ (b :: rest) =
      if b % 2 ^ pb < 2 ^ pb - 1 then .ok (b % 2 ^ pb) rest
      else decIntLoop (b % 2 ^ pb) 0 1 0 rest := rfl

theorem decIntLoop_single_cont (val M c p b : Nat) (hb : 128 ≤ b)
    (h10 : p + (c + 1) < 10) :
    decIntLoop val M c p [b] =
      .needMore ⟨true, (val + b % 128 * 2 ^ M) % 2 ^ 64, M + 7, p + (c + 1)⟩ := by
  rw [decIntLoop]
  rw [if_pos hb]
  rw [decIntLoop]
  rw [if_pos (by simpa [LSQPACK_UINT64_ENC_SZ] using h10)]

theorem decIntLoop_single_term (val M c p b : Nat) (hb : b < 128)
    (h63 : M + 7 ≤ 63) :
    decIntLoop val M c p [b] = .ok ((val + b % 128 * 2 ^ M) % 2 ^ 64) [] := by
  rw [decIntLoop]
  rw [if_neg (by omega : ¬ 128 ≤ b)]
  rw [if_pos (Or.inl h63)]

/-- If every input byte has the continuation bit set, the loop runs off the
end of the input; having read ten or more bytes in total, it overflows. -/
theorem decIntLoop_allCont_overflow :
    ∀ (cs : List Nat) (val M c p : Nat), (∀ b ∈ cs, 128 ≤ b) →
    10 ≤ p + c + cs.length →
    decIntLoop val M c p cs = .overflow := by
  intro cs
  induction cs with
  | nil =>
      intro val M c p _ hlen
      simp only [decIntLoop, LSQPACK_UINT64_ENC_SZ]
      rw [if_neg (by simp at hlen; omega)]
  | cons b rest ih =>
      intro val M c p hall hlen
      rw [decIntLoop]
      rw [if_pos (hall b (by simp))]
      exact ih _ _ _ _ (fun x hx => hall x (by simp [hx]))
        (by simp only [List.length_cons] at hlen ⊢; omega)

/-- Byte-at-a-time decoding of a proper continuation sequence that fits in
63 bits of shift and ten total bytes: every single-byte call before the last
byte saves state and returns NEED_MORE, and the call with the last byte
completes with the accumulated value. -/
theorem statesBytewise_proper (pb : Nat) :
    ∀ (cs init : List Nat) (last val M nread : Nat),
    properCont cs = true → cs = init ++ [last] →
    M + 7 * cs.length ≤ 63 → val + contVal M cs < 2 ^ 64 →
    nread + cs.length ≤ 10 →
    ∃ stF, statesBytewise pb ⟨true, val, M, nread⟩ init = some stF ∧
      lsqpack_dec_int pb stF [last] = .ok (val + contVal M cs) [] := by
  intro cs
  induction cs with
  | nil => intro init last val M nread h; simp [properCont] at h
  | cons b rest ih =>
      intro init last val M nread hproper hsplit hM hval hnread
      rcases rest with _ | ⟨b₂, rest₂⟩
      · simp only [properCont, decide_eq_true_eq] at hproper
        have hinit : init = [] ∧ b = last := by
          rcases init with _ | ⟨c, t⟩
          · exact ⟨rfl, by simpa using hsplit⟩
          · exfalso
            have := congrArg List.length hsplit
            simp at this
        obtain ⟨hinit0, hlast⟩ := hinit
        subst hinit0; subst hlast
        refine ⟨⟨true, val, M, nread⟩, rfl, ?_⟩
        rw [dec_int_cons_resume]
        rw [decIntLoop_single_term _ _ _ _ _ hproper
          (by simp only [List.length_cons, List.length_nil] at hM; omega)]
        have hcv : contVal M [b] = b % 128 * 2 ^ M := by simp [contVal]
        rw [← hcv]
        rw [Nat.mod_eq_of_lt hval]
      · simp only [properCont, Bool.and_eq_true, decide_eq_true_eq] at hproper
        obtain ⟨hb, hrest⟩ := hproper
        rcases init with _ | ⟨c, t⟩
        · exfalso
          have := congrArg List.length hsplit
          simp at this
        have hbc : b = c := (List.cons_eq_cons.mp (by simpa using hsplit)).1
        subst hbc
        have hsplit' : b₂ :: rest₂ = t ++ [last] := by simpa using hsplit
        have hterm : b % 128 * 2 ^ M + contVal (M + 7) (b₂ :: rest₂)
            = contVal M (b :: b₂ :: rest₂) := by
          simp [contVal]
        have hval' : val + b % 128 * 2 ^ M + contVal (M + 7) (b₂ :: rest₂) < 2 ^ 64 := by
          rw [Nat.add_assoc, hterm]; exact hval
        have hstep : lsqpack_dec_int pb ⟨true, val, M, nread⟩ [b] =
            .needMore ⟨true, (val + b % 128 * 2 ^ M) % 2 ^ 64, M + 7, nread + 1⟩ := by
          rw [dec_int_cons_resume]
          exact decIntLoop_single_cont _ _ _ _ _ hb
            (by simp only [List.length_cons] at hnread; omega)
        have hmod : (val + b % 128 * 2 ^ M) % 2 ^ 64 = val + b % 128 * 2 ^ M := by
          apply Nat.mod_eq_of_lt
          omega
        obtain ⟨stF, hsb, hfin⟩ := ih t last (val + b % 128 * 2 ^ M) (M + 7) (nread + 1)
          hrest hsplit'
          (by simp only [List.length_cons] at hM ⊢; omega)
          (by omega)
          (by simp only [List.length_cons] at hnread ⊢; omega)
        refine ⟨stF, ?_, ?_⟩
        · rw [statesBytewise, hstep]
          rw [hmod]
          exact hsb
        · rw [hfin]
          rw [Nat.add_assoc, hterm]

theorem decIntLoop_nil (val M c p : Nat) (h : p + c < 10) :
    decIntLoop val M c p [] = .needMore ⟨true, val, M, p + c⟩ := by
  rw [decIntLoop]
  rw [if_pos (by simpa [LSQPACK_UINT64_ENC_SZ] using h)]

theorem encContinuation_ne_nil (v : Nat) : encContinuation v ≠ [] := by
  intro h
  have := properCont_encContinuation v
  rw [h] at this
  simp [properCont] at this

/-- Claim C1: integer codec round trip with resumability.  For every
`prefix_bits ∈ 1..8` and value `< 2 ^ 62`, writing the value with
`lsqpack_enc_int` into a buffer whose first byte has its prefix bits
cleared and reading the bytes back with `lsqpack_dec_int` yields the same
value; moreover, feeding one byte at a time, every call before the final
byte returns NEED_MORE and the call with the final byte returns OK with
the value. -/
theorem enc_dec_int_roundtrip (pb value fb : Nat)
    (hpb1 : 1 ≤ pb) (hpb8 : pb ≤ 8) (hval : value < 2 ^ 62)
    (hfb : fb % 2 ^ pb = 0) :
    lsqpack_dec_int pb ⟨false, 0, 0, 0⟩ (lsqpack_enc_int fb value pb) = .ok value []
    ∧ ∀ init last, lsqpack_enc_int fb value pb = init ++ [last] →
        ∃ stF, statesBytewise pb ⟨false, 0, 0, 0⟩ init = some stF ∧
          lsqpack_dec_int pb stF [last] = .ok value [] := by
  have hp1 : 1 ≤ 2 ^ pb := Nat.one_le_two_pow
  have hv64 : value < 2 ^ 64 := lt_of_lt_of_le hval (by norm_num)
  by_cases hlt : value < 2 ^ pb - 1
  · have henc : lsqpack_enc_int fb value pb = [fb ||| value] := by
      rw [lsqpack_enc_int]
      rw [if_pos hlt]
    have hdec1 : lsqpack_dec_int pb ⟨false, 0, 0, 0⟩ [fb ||| value] = .ok value [] := by
      rw [dec_int_cons_fresh]
      rw [lor_low hfb (by omega : value < 2 ^ pb)]
      rw [if_pos hlt]
    constructor
    · rw [henc]; exact hdec1
    · intro init last hsp
      rw [henc] at hsp
      have hinit : init = [] ∧ fb ||| value = last := by
        rcases init with _ | ⟨c, t⟩
        · exact ⟨rfl, by simpa using hsp⟩
        · exfalso
          have := congrArg List.length hsp
          simp at this
      obtain ⟨h0, hl⟩ := hinit
      subst h0; subst hl
      exact ⟨⟨false, 0, 0, 0⟩, rfl, hdec1⟩
  · have hsum : 2 ^ pb - 1 + (value - (2 ^ pb - 1)) = value := by omega
    have hproper := properCont_encContinuation (value - (2 ^ pb - 1))
    have hlen : (encContinuation (value - (2 ^ pb - 1))).length ≤ 9 := by
      apply encContinuation_length_le 8
      calc value - (2 ^ pb - 1) ≤ value := Nat.sub_le _ _
        _ < 2 ^ 62 := hval
        _ < 128 ^ (8 + 1) := by norm_num
    have hcv : contVal 0 (encContinuation (value - (2 ^ pb - 1))) = value - (2 ^ pb - 1) := by
      have := contVal_encContinuation (value - (2 ^ pb - 1)) 0
      simpa using this
    have hb0 : (fb ||| (2 ^ pb - 1)) % 2 ^ pb = 2 ^ pb - 1 :=
      lor_low hfb (by omega)
    have henc : lsqpack_enc_int fb value pb
        = (fb ||| (2 ^ pb - 1)) :: encContinuation (value - (2 ^ pb - 1)) := by
      rw [lsqpack_enc_int]
      rw [if_neg hlt]
    constructor
    · rw [henc, dec_int_cons_fresh, hb0]
      rw [if_neg (lt_irrefl _)]
      rw [decIntLoop_proper _ _ _ _ _ hproper]
      rw [if_pos (Or.inl (by omega : 0 + 7 * (encContinuation (value - (2 ^ pb - 1))).length ≤ 63))]
      rw [hcv, hsum, Nat.mod_eq_of_lt hv64]
    · intro init last hsp
      rw [henc] at hsp
      rcases init with _ | ⟨c, t⟩
      · exfalso
        have hl := congrArg List.length hsp
        simp only [List.length_cons, List.length_nil, List.nil_append] at hl
        have h0 : (encContinuation (value - (2 ^ pb - 1))).length = 0 := by omega
        exact encContinuation_ne_nil _ (List.length_eq_zero.mp h0)
      · have hcb : fb ||| (2 ^ pb - 1) = c := (List.cons_eq_cons.mp (by simpa using hsp)).1
        have hsp' : encContinuation (value - (2 ^ pb - 1)) = t ++ [last] :=
          (List.cons_eq_cons.mp (by simpa using hsp)).2
        have hfirst : lsqpack_dec_int pb ⟨false, 0, 0, 0⟩ [c] =
            .needMore ⟨true, 2 ^ pb - 1, 0, 1⟩ := by
          rw [dec_int_cons_fresh, ← hcb, hb0]
          rw [if_neg (lt_irrefl _)]
          exact decIntLoop_nil _ _ _ _ (by norm_num)
        obtain ⟨stF, hsb, hfin⟩ := statesBytewise_proper pb
          (encContinuation (value - (2 ^ pb - 1))) t last (2 ^ pb - 1) 0 1
          hproper hsp' (by omega) (by rw [hcv, hsum]; exact hv64) (by omega)
        refine ⟨stF, ?_, ?_⟩
        · rw [statesBytewise, hfirst]
          exact hsb
        · rw [hfin, hcv, hsum]

/-- Closed witness for `enc_dec_int_roundtrip` at `prefix_bits = 5`,
`value = 1000`, first byte `0x60`. -/
theorem enc_dec_int_roundtrip_witness :
    (1 ≤ 5 ∧ 5 ≤ 8 ∧ 1000 < 2 ^ 62 ∧ 96 % 2 ^ 5 = 0)
    ∧ (lsqpack_dec_int 5 ⟨false, 0, 0, 0⟩ (lsqpack_enc_int 96 1000 5) = .ok 1000 []
      ∧ ∀ init last, lsqpack_enc_int 96 1000 5 = init ++ [last] →
          ∃ stF, statesBytewise 5 ⟨false, 0, 0, 0⟩ init = some stF ∧
            lsqpack_dec_int 5 stF [last] = .ok 1000 []) :=
  ⟨⟨by norm_num, by norm_num, by norm_num, by norm_num⟩,
    enc_dec_int_roundtrip 5 1000 96 (by norm_num) (by norm_num) (by norm_num) (by norm_num)⟩

/-- Claim C7: `lsqpack_dec_int` returns OVERFLOW (-2) when the accumulated
value of a terminated continuation sequence exceeds `2 ^ 64 - 1`, and when
ten or more bytes have been read without reaching a byte whose continuation
bit is clear; in particular a 10-byte continuation whose accumulated value
exceeds `2 ^ 64 - 1` overflows rather than wrapping. -/
theorem dec_int_overflow (pb b0 : Nat) (cs : List Nat)
    (hpb1 : 1 ≤ pb) (hpb8 : pb ≤ 8) (hb0 : b0 % 2 ^ pb = 2 ^ pb - 1) :
    (properCont cs = true → 2 ^ 64 ≤ 2 ^ pb - 1 + contVal 0 cs →
      lsqpack_dec_int pb ⟨false, 0, 0, 0⟩ (b0 :: cs) = .overflow)
    ∧ ((∀ b ∈ cs, 128 ≤ b) → 9 ≤ cs.length →
      lsqpack_dec_int pb ⟨false, 0, 0, 0⟩ (b0 :: cs) = .overflow)
    ∧ (properCont cs = true → cs.length = 10 → 2 ^ 64 ≤ 2 ^ pb - 1 + contVal 0 cs →
      lsqpack_dec_int pb ⟨false, 0, 0, 0⟩ (b0 :: cs) = .overflow) := by
  have hp1 : 1 ≤ 2 ^ pb := Nat.one_le_two_pow
  have h256 : 2 ^ pb ≤ 256 := by
    calc (2 : Nat) ^ pb ≤ 2 ^ 8 := Nat.pow_le_pow_right (by norm_num) hpb8
      _ = 256 := by norm_num
  have hentry : lsqpack_dec_int pb ⟨false, 0, 0, 0⟩ (b0 :: cs)
      = decIntLoop (2 ^ pb - 1) 0 1 0 cs := by
    rw [dec_int_cons_fresh, hb0]
    rw [if_neg (lt_irrefl _)]
  have partA : properCont cs = true → 2 ^ 64 ≤ 2 ^ pb - 1 + contVal 0 cs →
      lsqpack_dec_int pb ⟨false, 0, 0, 0⟩ (b0 :: cs) = .overflow := by
    intro hproper hbig
    rw [hentry, decIntLoop_proper _ _ _ _ _ hproper]
    rw [if_neg ?hcond]
    case hcond =>
      rintro (hle | ⟨h70, hlast, hbit⟩)
      · have hlen : cs.length ≤ 9 := by omega
        have hbound := contVal_le cs 0
        have hpow : (2 : Nat) ^ (0 + 7 * cs.length) ≤ 2 ^ 63 :=
          Nat.pow_le_pow_right (by norm_num) (by omega)
        have h63 : (2 : Nat) ^ 63 = 9223372036854775808 := by norm_num
        have h64 : (2 : Nat) ^ 64 = 18446744073709551616 := by norm_num
        omega
      · have hlen : cs.length = 10 := by omega
        have hne : cs ≠ [] := by intro h; rw [h] at hlen; simp at hlen
        have hds : cs.dropLast ++ [cs.getLast hne] = cs := List.dropLast_append_getLast hne
        have hdl : cs.dropLast.length = 9 := by
          have := List.length_dropLast cs
          omega
        have hsplit := hds.symm
        have hcv : contVal 0 cs
            = contVal 0 cs.dropLast + cs.getLast hne % 128 * 2 ^ (0 + 7 * cs.dropLast.length) := by
          conv_lhs => rw [hsplit]
          exact contVal_append_singleton _ _ 0
        rw [hdl] at hcv
        have hlb : lastByte cs = cs.getLast hne := by
          conv_lhs => rw [hsplit]
          exact lastByte_append_singleton _ _
        rw [hlb] at hlast
        have hlow := contVal_le cs.dropLast 0
        rw [hdl] at hlow
        have h63 : (2 : Nat) ^ 63 = 9223372036854775808 := by norm_num
        have h64 : (2 : Nat) ^ 64 = 18446744073709551616 := by norm_num
        have hlbm : cs.getLast hne % 128 = cs.getLast hne := Nat.mod_eq_of_lt (by omega)
        rw [hlbm] at hcv
        have hone : cs.getLast hne = 1 := by
          rcases Nat.le_one_iff_eq_zero_or_eq_one.mp hlast with h | h
          · exfalso
            rw [h] at hcv
            simp at hcv
            omega
          · exact h
        rw [hone] at hcv
        have hmod : (2 ^ pb - 1 + contVal 0 cs) % 2 ^ 64
            = 2 ^ pb - 1 + contVal 0 cs.dropLast - 2 ^ 63 := by
          rw [hcv]
          rw [Nat.mod_eq_sub_mod (by simp only [zero_add]; omega)]
          rw [Nat.mod_eq_of_lt (by simp only [zero_add]; omega)]
          simp only [zero_add]
          omega
        rw [hmod] at hbit
        have : Nat.testBit (2 ^ pb - 1 + contVal 0 cs.dropLast - 2 ^ 63) 63 = false :=
          Nat.testBit_lt_two_pow (by omega)
        rw [this] at hbit
        exact Bool.false_ne_true hbit
  refine ⟨partA, ?_, fun hproper _ hbig => partA hproper hbig⟩
  intro hall hlen
  rw [hentry]
  exact decIntLoop_allCont_overflow cs _ _ _ _ hall (by omega)

/-- Closed witness for `dec_int_overflow`: prefix 8, first byte 255,
ten continuation bytes accumulating `255 + 2 ^ 64`. -/
theorem dec_int_overflow_witness :
    (1 ≤ 8 ∧ 8 ≤ 8 ∧ 255 % 2 ^ 8 = 2 ^ 8 - 1
      ∧ properCont [128, 128, 128, 128, 128, 128, 128, 128, 128, 2] = true
      ∧ 2 ^ 64 ≤ 2 ^ 8 - 1 + contVal 0 [128, 128, 128, 128, 128, 128, 128, 128, 128, 2])
    ∧ lsqpack_dec_int 8 ⟨false, 0, 0, 0⟩
        (255 :: [128, 128, 128, 128, 128, 128, 128, 128, 128, 2]) = .overflow :=
  ⟨⟨by norm_num, by norm_num, by norm_num, by decide, by decide⟩,
    (dec_int_overflow 8 255 [128, 128, 128, 128, 128, 128, 128, 128, 128, 2]
      (by norm_num) (by norm_num) (by norm_num)).1 (by decide) (by decide)⟩


/-- `static_table` from lsqpack.c: the 61 (name, value) pairs, as byte
(character) lists. -/
def static_table : List (List Char × List Char) := [
  (":authority".toList, "".toList),
  (":method".toList, "GET".toList),
  (":method".toList, "POST".toList),
  (":path".toList, "/".toList),
  (":path".toList, "/index.html".toList),
  (":scheme".toList, "http".toList),
  (":scheme".toList, "https".toList),
  (":status".toList, "200".toList),
  (":status".toList, "204".toList),
  (":status".toList, "206".toList),
  (":status".toList, "304".toList),
  (":status".toList, "400".toList),
  (":status".toList, "404".toList),
  (":status".toList, "500".toList),
  ("accept-charset".toList, "".toList),
  ("accept-encoding".toList, "gzip, deflate".toList),
  ("accept-language".toList, "".toList),
  ("accept-ranges".toList, "".toList),
  ("accept".toList, "".toList),
  ("access-control-allow-origin".toList, "".toList),
  ("age".toList, "".toList),
  ("allow".toList, "".toList),
  ("authorization".toList, "".toList),
  ("cache-control".toList, "".toList),
  ("content-disposition".toList, "".toList),
  ("content-encoding".toList, "".toList),
  ("content-language".toList, "".toList),
  ("content-length".toList, "".toList),
  ("content-location".toList, "".toList),
  ("content-range".toList, "".toList),
  ("content-type".toList, "".toList),
  ("cookie".toList, "".toList),
  ("date".toList, "".toList),
  ("etag".toList, "".toList),
  ("expect".toList, "".toList),
  ("expires".toList, "".toList),
  ("from".toList, "".toList),
  ("host".toList, "".toList),
  ("if-match".toList, "".toList),
  ("if-modified-since".toList, "".toList),
  ("if-none-match".toList, "".toList),
  ("if-range".toList, "".toList),
  ("if-unmodified-since".toList, "".toList),
  ("last-modified".toList, "".toList),
  ("link".toList, "".toList),
  ("location".toList, "".toList),
  ("max-forwards".toList, "".toList),
  ("proxy-authenticate".toList, "".toList),
  ("proxy-authorization".toList, "".toList),
  ("range".toList, "".toList),
  ("referer".toList, "".toList),
  ("refresh".toList, "".toList),
  ("retry-after".toList, "".toList),
  ("server".toList, "".toList),
  ("set-cookie".toList, "".toList),
  ("strict-transport-security".toList, "".toList),
  ("transfer-encoding".toList, "".toList),
  ("user-agent".toList, "".toList),
  ("vary".toList, "".toList),
  ("via".toList, "".toList),
  ("www-authenticate".toList, "".toList)
]

/-- `encode_table` from lsqpack.c: the 257 HPACK Huffman codes
`{code, bits}` (256 symbols + EOS). -/
def encode_table : List (Nat × Nat) := [
  (8184, 13), (8388568, 23), (268435426, 28), (268435427, 28),
  (268435428, 28), (268435429, 28), (268435430, 28), (268435431, 28),
  (268435432, 28), (16777194, 24), (1073741820, 30), (268435433, 28),
  (268435434, 28), (1073741821, 30), (268435435, 28), (268435436, 28),
  (268435437, 28), (268435438, 28), (268435439, 28), (268435440, 28),
  (268435441, 28), (268435442, 28), (1073741822, 30), (268435443, 28),
  (268435444, 28), (268435445, 28), (268435446, 28), (268435447, 28),
  (268435448, 28), (268435449, 28), (268435450, 28), (268435451, 28),
  (20, 6), (1016, 10), (1017, 10), (4090, 12),
  (8185, 13), (21, 6), (248, 8), (2042, 11),
  (1018, 10), (1019, 10), (249, 8), (2043, 11),
  (250, 8), (22, 6), (23, 6), (24, 6),
  (0, 5), (1, 5), (2, 5), (25, 6),
  (26, 6), (27, 6), (28, 6), (29, 6),
  (30, 6), (31, 6), (92, 7), (251, 8),
  (32764, 15), (32, 6), (4091, 12), (1020, 10),
  (8186, 13), (33, 6), (93, 7), (94, 7),
  (95, 7), (96, 7), (97, 7), (98, 7),
  (99, 7), (100, 7), (101, 7), (102, 7),
  (103, 7), (104, 7), (105, 7), (106, 7),
  (107, 7), (108, 7), (109, 7), (110, 7),
  (111, 7), (112, 7), (113, 7), (114, 7),
  (252, 8), (115, 7), (253, 8), (8187, 13),
  (524272, 19), (8188, 13), (16380, 14), (34, 6),
  (32765, 15), (3, 5), (35, 6), (4, 5),
  (36, 6), (5, 5), (37, 6), (38, 6),
  (39, 6), (6, 5), (116, 7), (117, 7),
  (40, 6), (41, 6), (42, 6), (7, 5),
  (43, 6), (118, 7), (44, 6), (8, 5),
  (9, 5), (45, 6), (119, 7), (120, 7),
  (121, 7), (122, 7), (123, 7), (32766, 15),
  (2044, 11), (16381, 14), (8189, 13), (268435452, 28),
  (1048550, 20), (4194258, 22), (1048551, 20), (1048552, 20),
  (4194259, 22), (4194260, 22), (4194261, 22), (8388569, 23),
  (4194262, 22), (8388570, 23), (8388571, 23), (8388572, 23),
  (8388573, 23), (8388574, 23), (16777195, 24), (8388575, 23),
  (16777196, 24), (16777197, 24), (4194263, 22), (8388576, 23),
  (16777198, 24), (8388577, 23), (8388578, 23), (8388579, 23),
  (8388580, 23), (2097116, 21), (4194264, 22), (8388581, 23),
  (4194265, 22), (8388582, 23), (8388583, 23), (16777199, 24),
  (4194266, 22), (2097117, 21), (1048553, 20), (4194267, 22),
  (4194268, 22), (8388584, 23), (8388585, 23), (2097118, 21),
  (8388586, 23), (4194269, 22), (4194270, 22), (16777200, 24),
  (2097119, 21), (4194271, 22), (8388587, 23), (8388588, 23),
  (2097120, 21), (2097121, 21), (4194272, 22), (2097122, 21),
  (8388589, 23), (4194273, 22), (8388590, 23), (8388591, 23),
  (1048554, 20), (4194274, 22), (4194275, 22), (4194276, 22),
  (8388592, 23), (4194277, 22), (4194278, 22), (8388593, 23),
  (67108832, 26), (67108833, 26), (1048555, 20), (524273, 19),
  (4194279, 22), (8388594, 23), (4194280, 22), (33554412, 25),
  (67108834, 26), (67108835, 26), (67108836, 26), (134217694, 27),
  (134217695, 27), (67108837, 26), (16777201, 24), (33554413, 25),
  (524274, 19), (2097123, 21), (67108838, 26), (134217696, 27),
  (134217697, 27), (67108839, 26), (134217698, 27), (16777202, 24),
  (2097124, 21), (2097125, 21), (67108840, 26), (67108841, 26),
  (268435453, 28), (134217699, 27), (134217700, 27), (134217701, 27),
  (1048556, 20), (16777203, 24), (1048557, 20), (2097126, 21),
  (4194281, 22), (2097127, 21), (2097128, 21), (8388595, 23),
  (4194282, 22), (4194283, 22), (33554414, 25), (33554415, 25),
  (16777204, 24), (16777205, 24), (67108842, 26), (8388596, 23),
  (67108843, 26), (134217702, 27), (67108844, 26), (67108845, 26),
  (134217703, 27), (134217704, 27), (134217705, 27), (134217706, 27),
  (134217707, 27), (268435454, 28), (134217708, 27), (134217709, 27),
  (134217710, 27), (134217711, 27), (134217712, 27), (67108846, 26),
  (1073741823, 30)
]


/-- `MAX_QUIC_STREAM_ID` from lsqpack.c: `(1ull << 62) - 1`. -/
def MAX_QUIC_STREAM_ID : Nat := 2 ^ 62 - 1

/-- Modelled from the spec: `lsqpack.h` (not under src/) defines
`LSQPACK_MAX_ABS_ID`.  The spec (§3) says absolute ids are a 62-bit
counter, so the maximum is `2 ^ 62 - 1`. -/
def LSQPACK_MAX_ABS_ID : Nat := 2 ^ 62 - 1

/-- `DYNAMIC_ENTRY_OVERHEAD` and `ENTRY_COST` from lsqpack.c. -/
def ENTRY_COST (name_len value_len : Nat) : Nat := 32 + name_len + value_len

/-- `struct lsqpack_enc_table_entry`: absolute id, reference count, name and
value.  The two hash values (`ete_name_hash`, `ete_nameval_hash`) are
computed by the external XXH32 function and exist only to speed up bucket
lookup; the model replaces the bucket chains by the insertion-ordered entry
list itself (every name/nameval match necessarily lives in the bucket its
hash selects, and bucket chains preserve insertion order, so first-match
searches coincide). -/
structure EncTableEntry where
  ete_id : Nat
  ete_n_reffd : Nat
  ete_name : List Char
  ete_val : List Char
deriving Repr, DecidableEq

def ETE_SIZE (e : EncTableEntry) : Nat := ENTRY_COST e.ete_name.length e.ete_val.length

def sumSizes (entries : List EncTableEntry) : Nat := (entries.map ETE_SIZE).sum

/-- `struct lsqpack_header_info`. -/
structure HeaderInfo where
  qhi_stream_id : Nat
  qhi_seqno : Nat
  qhi_min_id : Nat
  qhi_max_id : Nat
  qhi_at_risk : Bool
deriving Repr, DecidableEq

/-- The anonymous `qpe_cur_header` struct of `struct lsqpack_enc`. -/
structure CurHeader where
  hinfo : HeaderInfo
  n_risked : Nat
  base_idx : Nat
  search_cutoff : Nat
  use_dynamic_table : Bool
  others_at_risk : Bool
deriving Repr, DecidableEq

/-- `struct lsqpack_enc` (the fields the core algorithms read or write).
`qpe_nelem` is the length of `qpe_all_entries`; the bucket array and its
bit count are memory-management detail of the hash indices, abstracted as
described at `EncTableEntry`.  `qpe_header_opened` is the
`LSQPACK_ENC_HEADER` bit of `qpe_flags`. -/
structure Enc where
  qpe_cur_capacity : Nat
  qpe_max_capacity : Nat
  qpe_ins_count : Nat
  qpe_max_acked_id : Nat
  qpe_cur_streams_at_risk : Nat
  qpe_max_risked_streams : Nat
  qpe_all_entries : List EncTableEntry
  qpe_hinfos : List HeaderInfo
  qpe_header_opened : Bool
  qpe_cur_header : CurHeader
deriving Repr, DecidableEq

def emptyCurHeader : CurHeader :=
  ⟨⟨0, 0, 0, 0, false⟩, 0, 0, 0, false, false⟩

/-- `lsqpack_enc_init` from lsqpack.c.  The two limits live in the missing
header `lsqpack.h`, so they are passed as parameters; allocation of the
bucket array is abstracted (it always succeeds).  On out-of-range arguments
the C function returns -1 with `errno = EINVAL` and the encoder struct
untouched; the model returns `none`. -/
def lsqpack_enc_init (maxDynTableSize maxMaxRiskedStreams : Nat)
    (dyn_table_size max_risked_streams : Nat) : Option Enc :=
  if dyn_table_size > maxDynTableSize ∨ max_risked_streams > maxMaxRiskedStreams then
    none
  else
    some {
      qpe_cur_capacity := 0
      qpe_max_capacity := dyn_table_size
      qpe_ins_count := 0
      qpe_max_acked_id := 0
      qpe_cur_streams_at_risk := 0
      qpe_max_risked_streams := max_risked_streams
      qpe_all_entries := []
      qpe_hinfos := []
      qpe_header_opened := false
      qpe_cur_header := emptyCurHeader }

/-- `lsqpack_enc_get_stx_tab_id` from lsqpack.c: the hand-rolled decision
tree over the first characters of value and name.  The C variable
`i = -1` is `none`; the C function returns `(0, unset)` when nothing
matches (the model returns `(0, false)`; the C caller only reads
`val_matched` when the returned id is positive). -/
def lsqpack_enc_get_stx_tab_id (name va : List Char) : Nat × Bool :=
  if name.length < 3 then (0, false)
  else
    let i1 : Option Nat :=
      match va.head? with
      | some 'G' => some 1
      | some 'P' => some 2
      | some '/' =>
          if va.length = 1 then some 3
          else if va.length = 11 then some 4
          else none
      | some 'h' =>
          if va.length = 4 then some 5
          else if va.length = 5 then some 6
          else none
      | some '2' =>
          if va.length = 3 then
            match va.get? 2 with
            | some '0' => some 7
            | some '4' => some 8
            | some '6' => some 9
            | _ => none
          else none
      | some '3' => some 10
      | some '4' =>
          if va.length = 3 then
            match va.get? 2 with
            | some '0' => some 11
            | some '4' => some 12
            | _ => none
          else none
      | some '5' => some 13
      | some 'g' => some 15
      | _ => none
    let nameOnly : Nat × Bool :=
      let i2 : Option Nat :=
        match name.head? with
        | some ':' =>
            match name.get? 1 with
            | some 'a' => some 0
            | some 'm' => some 1
            | some 'p' => some 3
            | some 's' => if name.get? 2 = some 'c' then some 5 else some 7
            | _ => none
        | some 'a' =>
            match name.length with
            | 3 => some 20
            | 5 => some 21
            | 6 => some 18
            | 13 => if name.get? 1 = some 'u' then some 22 else some 17
            | 14 => some 14
            | 15 => if name.get? 7 = some 'l' then some 16 else some 15
            | 27 => some 19
            | _ => none
        | some 'c' =>
            match name.length with
            | 6 => some 31
            | 12 => some 30
            | 13 => if name.get? 1 = some 'a' then some 23 else some 29
            | 14 => some 27
            | 16 =>
                match name.get? 9 with
                | some 'n' => some 25
                | some 'a' => some 26
                | some 'o' => some 28
                | _ => none
            | 19 => some 24
            | _ => none
        | some 'd' => some 32
        | some 'e' =>
            match name.length with
            | 4 => some 33
            | 6 => some 34
            | 7 => some 35
            | _ => none
        | some 'f' => some 36
        | some 'h' => some 37
        | some 'i' =>
            match name.length with
            | 8 => if name.get? 3 = some 'm' then some 38 else some 41
            | 13 => some 40
            | 17 => some 39
            | 19 => some 42
            | _ => none
        | some 'l' =>
            match name.length with
            | 4 => some 44
            | 8 => some 45
            | 13 => some 43
            | _ => none
        | some 'm' => some 46
        | some 'p' => if name.length = 18 then some 47 else some 48
        | some 'r' =>
            if 5 ≤ name.length then
              match name.get? 4 with
              | some 'e' => if name.length = 5 then some 49 else some 51
              | some 'r' => some 50
              | some 'y' => some 52
              | _ => none
            else none
        | some 's' =>
            match name.length with
            | 6 => some 53
            | 10 => some 54
            | 25 => some 55
            | _ => none
        | some 't' => some 56
        | some 'u' => some 57
        | some 'v' => if name.length = 4 then some 58 else some 59
        | some 'w' => some 60
        | _ => none
      match i2 with
      | some i =>
          if (static_table.getD i ([], [])).1.length = name.length
              ∧ (static_table.getD i ([], [])).1 = name then
            (i + 1, false)
          else (0, false)
      | none => (0, false)
    match i1 with
    | some i =>
        if 0 < i ∧ (static_table.getD i ([], [])).2.length = va.length
            ∧ (static_table.getD i ([], [])).1.length = name.length
            ∧ (static_table.getD i ([], [])).2 = va
            ∧ (static_table.getD i ([], [])).1 = name then
          (i + 1, true)
        else nameOnly
    | none => nameOnly

/-- `struct enc_search_result`; `esr_table_type` is `false` for TT_STATIC
and `true` for TT_DYNAMIC; the `esr_entry` pointer is recovered from
`esr_entry_id` when needed. -/
structure EncSearchResult where
  esr_found : Bool
  esr_table_type : Bool
  esr_entry_id : Nat
  esr_value_match : Bool
deriving Repr, DecidableEq

def qenc_find_entry_in_static_table (name va : List Char) : EncSearchResult :=
  let r := lsqpack_enc_get_stx_tab_id name va
  if r.1 > 0 then ⟨true, false, r.1, r.2⟩
  else ⟨false, false, 0, false⟩

/-- `qenc_find_entry_in_either_table` from lsqpack.c.  The two hash-bucket
scans become first-match scans of the insertion-ordered entry list with the
same filter conditions (see `EncTableEntry` for why this is the same
search). -/
def qenc_find_entry_in_either_table (enc : Enc) (risk : Bool)
    (name va : List Char) : EncSearchResult :=
  let r := lsqpack_enc_get_stx_tab_id name va
  if r.1 > 0 ∧ r.2 then ⟨true, false, r.1, true⟩
  else
    match enc.qpe_all_entries.find? (fun e =>
        e.ete_name.length = name.length ∧ e.ete_val.length = va.length
        ∧ (risk ∨ e.ete_id ≤ enc.qpe_max_acked_id)
        ∧ (enc.qpe_cur_header.search_cutoff = 0
            ∨ e.ete_id > enc.qpe_cur_header.search_cutoff)
        ∧ e.ete_name = name ∧ e.ete_val = va) with
    | some e => ⟨true, true, e.ete_id, true⟩
    | none =>
        if r.1 > 0 then ⟨true, false, r.1, false⟩
        else
          match enc.qpe_all_entries.find? (fun e =>
              e.ete_name.length = name.length
              ∧ (risk ∨ e.ete_id ≤ enc.qpe_max_acked_id)
              ∧ (enc.qpe_cur_header.search_cutoff = 0
                  ∨ e.ete_id > enc.qpe_cur_header.search_cutoff)
              ∧ e.ete_name = name) with
          | some e => ⟨true, true, e.ete_id, false⟩
          | none => ⟨false, false, 0, false⟩

def qenc_find_entry (enc : Enc) (risk : Bool) (name va : List Char) :
    EncSearchResult :=
  if enc.qpe_cur_header.use_dynamic_table then
    qenc_find_entry_in_either_table enc risk name va
  else
    qenc_find_entry_in_static_table name va

/-- `lsqpack_val2len` from lsqpack.c. -/
def lsqpack_val2len (value : Nat) (pb : Nat) : Nat :=
  let mask := 2 ^ pb - 1
  1 + (if value ≥ mask then 1 else 0)
    + (if value ≥ 2 ^ 7 + mask then 1 else 0)
    + (if value ≥ 2 ^ 14 + mask then 1 else 0)
    + (if value ≥ 2 ^ 21 + mask then 1 else 0)
    + (if value ≥ 2 ^ 28 + mask then 1 else 0)
    + (if value ≥ 2 ^ 35 + mask then 1 else 0)
    + (if value ≥ 2 ^ 42 + mask then 1 else 0)
    + (if value ≥ 2 ^ 49 + mask then 1 else 0)
    + (if value ≥ 2 ^ 56 + mask then 1 else 0)
    + (if value ≥ 2 ^ 63 + mask then 1 else 0)

/-- The `while (bits_left <= 32)` flush loop of `qenc_huffman_enc`: emit the
byte at bit positions 39..32 of the accumulator, shift left by 8 (64-bit
wrap) and free eight more bits.  `bits_left` grows by 8 per iteration, so
for any start value the loop runs at most five times; a structural fuel of
5 therefore simulates the `while` exactly (and keeps the definition
kernel-computable). -/
def huffFlushGo : Nat → Nat → Nat → List Nat × Nat × Nat
  | 0, bits, bl => ([], bits, bl)
  | fuel + 1, bits, bl =>
      if bl ≤ 32 then
        let byte := bits >>> 32 % 256
        let r := huffFlushGo fuel (bits <<< 8 % 2 ^ 64) (bl + 8)
        (byte :: r.1, r.2)
      else ([], bits, bl)

def huffFlushLoop (bits bl : Nat) : List Nat × Nat × Nat := huffFlushGo 5 bits bl

/-- `qenc_huffman_enc` from lsqpack.c: 64-bit accumulator `bits` with
`bits_left` free bits counted down from 40; each symbol's code is ORed in
at `bits_left - code.bits`, full bytes are flushed from bit 32, and the
final partial byte is padded with low-order one bits. -/
def qenc_huffman_enc_go : List Nat → Nat → Nat → List Nat
  | [], bits, bl =>
      if bl ≠ 40 then
        [((bits ||| (2 ^ bl - 1)) >>> 32) % 256]
      else []
  | b :: rest, bits, bl =>
      let ce := encode_table.getD b (0, 0)
      let bits := bits ||| (ce.1 <<< (bl - ce.2))
      let bl := bl - ce.2
      let r := huffFlushLoop bits bl
      r.1 ++ qenc_huffman_enc_go rest r.2.1 r.2.2

def qenc_huffman_enc (src : List Nat) : List Nat := qenc_huffman_enc_go src 0 40

/-- `lsqpack_enc_enc_str` from lsqpack.c: pick the shorter of the Huffman
and plain encodings, masking the low `prefix_bits + 1` bits of the current
first byte and setting the H bit for Huffman.  `none` is the -1
(out-of-buffer) return. -/
def lsqpack_enc_enc_str (pb : Nat) (firstByte dst_len : Nat) (str : List Char) :
    Option (List Nat) :=
  let bytes := str.map Char.toNat
  let enc_size_bits := (bytes.map (fun b => (encode_table.getD b (0, 0)).2)).sum
  let enc_size_bytes := enc_size_bits / 8 + (if enc_size_bits % 8 ≠ 0 then 1 else 0)
  let cleared := firstByte / 2 ^ (pb + 1) * 2 ^ (pb + 1)
  if enc_size_bytes < str.length then
    let len_size := lsqpack_val2len enc_size_bytes pb
    if len_size + enc_size_bytes ≤ dst_len then
      some (lsqpack_enc_int (cleared ||| 2 ^ pb) enc_size_bytes pb ++ qenc_huffman_enc bytes)
    else none
  else
    let len_size := lsqpack_val2len str.length pb
    if len_size + str.length ≤ dst_len then
      some (lsqpack_enc_int cleared str.length pb ++ bytes)
    else none

/-- `qenc_drop_oldest_entry` from lsqpack.c: unlink the head of
`qpe_all_entries` (and of its two bucket chains) and subtract its size.
The C function asserts the list is nonempty; the model leaves the state
unchanged in that (unreachable) case. -/
def qenc_drop_oldest_entry (enc : Enc) : Enc :=
  match enc.qpe_all_entries with
  | [] => enc
  | e :: rest =>
      { enc with
        qpe_all_entries := rest
        qpe_cur_capacity := enc.qpe_cur_capacity - ETE_SIZE e }

/-- The `while (qpe_cur_capacity > qpe_max_capacity)` loop of
`qenc_remove_overflow_entries`, with the entry count as fuel: under the
size invariant the capacity reaches 0 (≤ max) once all entries are
dropped, so the fuel never runs out where the C loop would continue. -/
def removeOverflowGo : Nat → Enc → Enc
  | 0, enc => enc
  | fuel + 1, enc =>
      if enc.qpe_cur_capacity > enc.qpe_max_capacity then
        removeOverflowGo fuel (qenc_drop_oldest_entry enc)
      else enc

def qenc_remove_overflow_entries (enc : Enc) : Enc :=
  removeOverflowGo enc.qpe_all_entries.length enc

/-- `lsqpack_enc_push_entry` from lsqpack.c: build the entry with the next
absolute id, append it to the entry list (and both hash chains), account
its cost, then evict overflow.  Hash-table growth and allocation are
abstracted (they always succeed). -/
def lsqpack_enc_push_entry (enc : Enc) (name va : List Char) : Enc × EncTableEntry :=
  let entry : EncTableEntry := ⟨enc.qpe_ins_count + 1, 0, name, va⟩
  let enc :=
    { enc with
      qpe_all_entries := enc.qpe_all_entries ++ [entry]
      qpe_ins_count := enc.qpe_ins_count + 1
      qpe_cur_capacity := enc.qpe_cur_capacity + ENTRY_COST name.length va.length }
  (qenc_remove_overflow_entries enc, entry)

/-- `lsqpack_enc_start_header` from lsqpack.c (`-1` is `none`).  The
header-info array reallocation is abstracted (it succeeds, so
`use_dynamic_table` is 1). -/
def lsqpack_enc_start_header (enc : Enc) (stream_id seqno : Nat) : Option Enc :=
  if enc.qpe_header_opened then none
  else
    let at_risk :=
      if seqno ≠ 0 then
        enc.qpe_hinfos.any (fun hi =>
          hi.qhi_stream_id = stream_id && hi.qhi_at_risk)
      else false
    some { enc with
      qpe_cur_header := {
        hinfo := ⟨stream_id, seqno, 0, 0, false⟩
        n_risked := 0
        base_idx := enc.qpe_ins_count
        search_cutoff := 0
        use_dynamic_table := true
        others_at_risk := at_risk }
      qpe_header_opened := true }

/-- `lsqpack_enc_end_header` from lsqpack.c.  Result `-1` is a usage error,
`0` means the buffer was too small, a positive value is the number of
prefix bytes written (returned here together with the bytes themselves). -/
def lsqpack_enc_end_header (enc : Enc) (sz : Nat) : Int × List Nat × Enc :=
  if ¬ enc.qpe_header_opened then (-1, [], enc)
  else if enc.qpe_cur_header.hinfo.qhi_max_id ≠ 0 then
    let bytes1 := lsqpack_enc_int 0 enc.qpe_cur_header.hinfo.qhi_max_id 8
    if bytes1.length > sz then (0, [], enc)
    else if bytes1.length ≥ sz then (0, [], enc)
    else
      let sign : Nat :=
        if enc.qpe_cur_header.base_idx ≥ enc.qpe_cur_header.hinfo.qhi_max_id
        then 0 else 1
      let diff :=
        if sign = 0 then
          enc.qpe_cur_header.base_idx - enc.qpe_cur_header.hinfo.qhi_max_id
        else
          enc.qpe_cur_header.hinfo.qhi_max_id - enc.qpe_cur_header.base_idx
      let bytes2 := lsqpack_enc_int (sign <<< 7) diff 7
      if bytes1.length + bytes2.length > sz then (0, [], enc)
      else
        (((bytes1.length + bytes2.length : Nat) : Int), bytes1 ++ bytes2,
          { enc with qpe_header_opened := false })
  else if sz ≥ 2 then
    (2, [0, 0], { enc with qpe_header_opened := false })
  else
    (0, [], enc)

/-- The three enum fields of `struct encode_program`. -/
inductive EncAction where
  | eea_none
  | eea_ins_nameref
  | eea_ins_lit
deriving Repr, DecidableEq

inductive HeaAction where
  | eha_indexed_new
  | eha_indexed_stat
  | eha_indexed_dyn
  | eha_lit_with_name_stat
  | eha_lit_with_name_dyn
  | eha_lit_with_name_new
  | eha_lit
deriving Repr, DecidableEq

structure EncodeProgram where
  ep_enc_action : EncAction
  ep_hea_action : HeaAction
  ep_tab_new : Bool
  ep_ref_found : Bool
  ep_ref_new : Bool
deriving Repr, DecidableEq

/-- The `encode_programs[2][2][2][2][2]` table from lsqpack.c, indexed by
(found, table-type, value-match, index, risk). -/
def encode_programs (found tt vm ix risk : Bool) : EncodeProgram :=
  match found, tt, vm, ix, risk with
  | false, _, _, false, _ => ⟨.eea_none, .eha_lit, false, false, false⟩
  | false, _, _, true, false => ⟨.eea_ins_lit, .eha_lit, true, false, false⟩
  | false, _, _, true, true => ⟨.eea_ins_lit, .eha_indexed_new, true, false, true⟩
  | true, false, false, false, _ => ⟨.eea_none, .eha_lit_with_name_stat, false, false, false⟩
  | true, false, false, true, false => ⟨.eea_ins_nameref, .eha_lit_with_name_stat, true, false, false⟩
  | true, false, false, true, true => ⟨.eea_ins_nameref, .eha_indexed_new, true, false, true⟩
  | true, false, true, _, _ => ⟨.eea_none, .eha_indexed_stat, false, false, false⟩
  | true, true, false, false, _ => ⟨.eea_none, .eha_lit_with_name_dyn, false, true, false⟩
  | true, true, false, true, _ => ⟨.eea_ins_nameref, .eha_lit_with_name_new, true, true, true⟩
  | true, true, true, _, _ => ⟨.eea_none, .eha_indexed_dyn, false, true, false⟩

/-- `enc_has_or_can_evict_at_least` from lsqpack.c.  NOTE: the C source
initialises `min_id = 0 /* TODO */` and then walks the entry list counting
an entry as evictable only when `ete_id < min_id`; since ids are at least 1
(and `lsqpack_abs_id_t` is unsigned), no entry ever satisfies the test, so
the walk stops at the first entry.  The model translates the loop
literally. -/
def encCanEvictGo (min_id : Nat) (new_entry_size : Nat) :
    Nat → List EncTableEntry → Bool × Nat
  | _, [] => (false, 0)
  | avail, e :: rest =>
      if e.ete_id < min_id then
        let avail := avail + ETE_SIZE e
        if avail ≥ new_entry_size then (true, e.ete_id)
        else encCanEvictGo min_id new_entry_size avail rest
      else (false, 0)

/-- Returns the C function's boolean together with the
`qpe_cur_header.search_cutoff` it would store (0 when untouched). -/
def enc_has_or_can_evict_at_least (enc : Enc) (new_entry_size : Nat) : Bool × Nat :=
  let avail := enc.qpe_max_capacity - enc.qpe_cur_capacity
  if avail ≥ new_entry_size then (true, enc.qpe_cur_header.search_cutoff)
  else
    let min_id := 0
    let r := encCanEvictGo min_id new_entry_size avail enc.qpe_all_entries
    if r.1 then (true, r.2) else (false, enc.qpe_cur_header.search_cutoff)

/-- `enum lsqpack_enc_status` (from the missing header; names from the
return sites in lsqpack.c). -/
inductive EncStatus where
  | lqes_ok
  | lqes_nobuf_enc
  | lqes_nobuf_head
deriving Repr, DecidableEq

/-- Encoder-stream output of `lsqpack_enc_encode` (the
`switch (prog.ep_enc_action)` block); `none` is `LQES_NOBUF_ENC`. -/
def encodeEncOut (enc : Enc) (esr : EncSearchResult) (prog : EncodeProgram)
    (enc_buf_sz : Nat) (name va : List Char) : Option (List Nat) :=
  match prog.ep_enc_action with
  | .eea_ins_nameref =>
      let fb : Nat := if esr.esr_table_type = false then 0x80 ||| 0x40 else 0x80
      let id : Nat :=
        if esr.esr_table_type = false then esr.esr_entry_id
        else enc.qpe_ins_count - esr.esr_entry_id
      let bytes1 := lsqpack_enc_int fb id 6
      if bytes1.length > enc_buf_sz then none
      else
        match lsqpack_enc_enc_str 7 0 (enc_buf_sz - bytes1.length) va with
        | none => none
        | some s => some (bytes1 ++ s)
  | .eea_ins_lit =>
      match lsqpack_enc_enc_str 5 0x40 enc_buf_sz name with
      | none => none
      | some s1 =>
          match lsqpack_enc_enc_str 7 0 (enc_buf_sz - s1.length) va with
          | none => none
          | some s2 => some (s1 ++ s2)
  | .eea_none => some []

/-- Header-block output of `lsqpack_enc_encode` (the
`switch (prog.ep_hea_action)` block); `none` is `LQES_NOBUF_HEAD`. -/
def encodeHeaOut (enc : Enc) (esr : EncSearchResult) (prog : EncodeProgram)
    (hea_buf_sz : Nat) (name va : List Char) (noIndex : Bool) : Option (List Nat) :=
  match prog.ep_hea_action with
  | .eha_indexed_stat =>
      let bytes := lsqpack_enc_int (0x80 ||| 0x40) esr.esr_entry_id 6
      if bytes.length > hea_buf_sz then none else some bytes
  | .eha_indexed_new =>
      let id := enc.qpe_ins_count + 1
      let bytes := lsqpack_enc_int 0x10 (id - enc.qpe_cur_header.base_idx) 4
      if bytes.length > hea_buf_sz then none else some bytes
  | .eha_indexed_dyn =>
      if esr.esr_entry_id > enc.qpe_cur_header.base_idx then
        let bytes :=
          lsqpack_enc_int 0x10 (esr.esr_entry_id - enc.qpe_cur_header.base_idx) 4
        if bytes.length > hea_buf_sz then none else some bytes
      else
        let bytes := lsqpack_enc_int 0x80 esr.esr_entry_id 6
        if bytes.length > hea_buf_sz then none else some bytes
  | .eha_lit =>
      let fb : Nat := 0x20 ||| (if noIndex then 0x10 else 0)
      match lsqpack_enc_enc_str 3 fb hea_buf_sz name with
      | none => none
      | some s1 =>
          match lsqpack_enc_enc_str 7 0 (hea_buf_sz - s1.length) va with
          | none => none
          | some s2 => some (s1 ++ s2)
  | .eha_lit_with_name_new =>
      let fb : Nat := if noIndex then 0x8 else 0
      let bytes :=
        lsqpack_enc_int fb (esr.esr_entry_id - enc.qpe_cur_header.base_idx) 3
      if bytes.length > hea_buf_sz then none
      else
        match lsqpack_enc_enc_str 7 0 (hea_buf_sz - bytes.length) va with
        | none => none
        | some s => some (bytes ++ s)
  | .eha_lit_with_name_dyn =>
      if esr.esr_entry_id > enc.qpe_cur_header.base_idx then
        let fb : Nat := if noIndex then 0x8 else 0
        let bytes :=
          lsqpack_enc_int fb (esr.esr_entry_id - enc.qpe_cur_header.base_idx) 3
        if bytes.length > hea_buf_sz then none
        else
          match lsqpack_enc_enc_str 7 0 (hea_buf_sz - bytes.length) va with
          | none => none
          | some s => some (bytes ++ s)
      else
        let fb : Nat := 0x40 ||| (if noIndex then 0x20 else 0)
        let bytes :=
          lsqpack_enc_int fb (enc.qpe_cur_header.base_idx - esr.esr_entry_id) 4
        if bytes.length > hea_buf_sz then none
        else
          match lsqpack_enc_enc_str 7 0 (hea_buf_sz - bytes.length) va with
          | none => none
          | some s => some (bytes ++ s)
  | .eha_lit_with_name_stat =>
      let fb : Nat := 0x40 ||| (if noIndex then 0x20 else 0) ||| 0x10
      let bytes := lsqpack_enc_int fb esr.esr_entry_id 4
      if bytes.length > hea_buf_sz then none
      else
        match lsqpack_enc_enc_str 7 0 (hea_buf_sz - bytes.length) va with
        | none => none
        | some s => some (bytes ++ s)

/-- Increment `ete_n_reffd` of the entry with the given absolute id (the C
code does this through the entry pointer; ids are unique). -/
def bumpRef (entries : List EncTableEntry) (id : Nat) : List EncTableEntry :=
  entries.map fun e =>
    if e.ete_id = id then { e with ete_n_reffd := e.ete_n_reffd + 1 } else e

/-- The `switch (prog.ep_tab_action)` block and the `EPF_REF_FOUND` block
of `lsqpack_enc_encode`: push the new entry if requested, then update the
reference counters and the current header's min/max/risk bookkeeping. -/
def encodeTabAndRefs (enc : Enc) (esr : EncSearchResult) (prog : EncodeProgram)
    (name va : List Char) : Enc :=
  let enc :=
    if prog.ep_tab_new then
      let r := lsqpack_enc_push_entry enc name va
      let enc := r.1
      if prog.ep_ref_new then
        let enc := { enc with qpe_all_entries := bumpRef enc.qpe_all_entries r.2.ete_id }
        let ch := enc.qpe_cur_header
        let hi := ch.hinfo
        let hi := { hi with qhi_max_id := r.2.ete_id }
        let hi :=
          if hi.qhi_min_id = 0 ∨ hi.qhi_min_id > r.2.ete_id then
            { hi with qhi_min_id := r.2.ete_id }
          else hi
        { enc with qpe_cur_header := { ch with hinfo := hi, n_risked := ch.n_risked + 1 } }
      else enc
    else enc
  if prog.ep_ref_found then
    let enc := { enc with qpe_all_entries := bumpRef enc.qpe_all_entries esr.esr_entry_id }
    let ch := enc.qpe_cur_header
    let hi := ch.hinfo
    let hi :=
      if hi.qhi_min_id = 0 ∨ hi.qhi_min_id > esr.esr_entry_id then
        { hi with qhi_min_id := esr.esr_entry_id }
      else hi
    let hi :=
      if hi.qhi_max_id = 0 ∨ hi.qhi_max_id < esr.esr_entry_id then
        { hi with qhi_max_id := esr.esr_entry_id }
      else hi
    let n_risked :=
      ch.n_risked + (if enc.qpe_max_acked_id < esr.esr_entry_id then 1 else 0)
    { enc with qpe_cur_header := { ch with hinfo := hi, n_risked := n_risked } }
  else enc

/-- `lsqpack_enc_encode` from lsqpack.c.  Output buffers are passed as
capacities and the written bytes are returned.  The `goto restart` path is
taken only when pushing a table entry fails to allocate; allocation is
abstracted (it succeeds), so the model is single-pass.  On a `NOBUF_*`
return the C function leaves the encoder unmodified (the table action runs
only after both outputs succeed). -/
def lsqpack_enc_encode (enc : Enc) (enc_buf_sz hea_buf_sz : Nat)
    (name va : List Char) (flagNoIndex : Bool) :
    EncStatus × List Nat × List Nat × Enc :=
  if hea_buf_sz = 0 then (.lqes_nobuf_head, [], [], enc)
  else
    let index := ¬ flagNoIndex ∧ enc.qpe_cur_header.use_dynamic_table
      ∧ enc.qpe_ins_count < LSQPACK_MAX_ABS_ID
      ∧ (enc_has_or_can_evict_at_least enc (ENTRY_COST name.length va.length)).1
    let enc := { enc with qpe_cur_header :=
      { enc.qpe_cur_header with search_cutoff :=
          (enc_has_or_can_evict_at_least enc (ENTRY_COST name.length va.length)).2 } }
    let risk := enc.qpe_cur_header.n_risked > 0
      ∨ enc.qpe_cur_header.others_at_risk
      ∨ enc.qpe_cur_streams_at_risk < enc.qpe_max_risked_streams
    let esr := qenc_find_entry enc risk name va
    let prog := encode_programs esr.esr_found esr.esr_table_type
      esr.esr_value_match index risk
    match encodeEncOut enc esr prog enc_buf_sz name va with
    | none => (.lqes_nobuf_enc, [], [], enc)
    | some eout =>
        match encodeHeaOut enc esr prog hea_buf_sz name va flagNoIndex with
        | none => (.lqes_nobuf_head, [], [], enc)
        | some hout =>
            (.lqes_ok, eout, hout, encodeTabAndRefs enc esr prog name va)

/-- `lsqpack_enc_set_max_capacity` from lsqpack.c. -/
def lsqpack_enc_set_max_capacity (enc : Enc) (max_capacity : Nat) : Enc :=
  qenc_remove_overflow_entries { enc with qpe_max_capacity := max_capacity }

/-- `lsqpack_enc_decoder_in`'s three instruction handlers from lsqpack.c;
all are `/* TODO */` stubs returning -1 (after a range check whose two
branches also return -1), and none modifies the encoder. -/
inductive DecStreamHandler where
  | headerAck
  | tableSynch
  | streamCancel
deriving Repr, DecidableEq

def enc_proc_header_ack (_ : Enc) (stream_id : Nat) : Int :=
  if stream_id > MAX_QUIC_STREAM_ID then -1 else -1

def enc_proc_table_synch (_ : Enc) (abs_id : Nat) : Int :=
  if abs_id > LSQPACK_MAX_ABS_ID then -1 else -1

def enc_proc_stream_cancel (_ : Enc) (stream_id : Nat) : Int :=
  if stream_id > MAX_QUIC_STREAM_ID then -1 else -1

def runDecHandler : DecStreamHandler → Enc → Nat → Int
  | .headerAck, enc, v => enc_proc_header_ack enc v
  | .tableSynch, enc, v => enc_proc_table_synch enc v
  | .streamCancel, enc, v => enc_proc_stream_cancel enc v

/-- `qpe_dec_stream_state`: the resumable integer decoder plus the chosen
handler. -/
structure DecStreamState where
  dec_int_state : DecIntState
  handler : DecStreamHandler
deriving Repr, DecidableEq

/-- The `while (buf < end)` loop of `lsqpack_enc_decoder_in`.  Each
iteration consumes at least one byte, so the caller's fuel (the buffer
length) is never exhausted; the fuel-out arm is unreachable.  On a
completed instruction the C code clears `dec_int_state.resume` and leaves
the other state fields stale; the model clears the whole integer state
(the stale fields are never read while `resume` is clear). -/
def lsqpack_enc_decoder_in_go : Nat → Enc → DecStreamState → List Nat →
    Int × DecStreamState × Enc
  | _, enc, st, [] => (0, st, enc)
  | 0, enc, st, _ :: _ => (0, st, enc)
  | fuel + 1, enc, st, b :: rest =>
      let ph : Nat × DecStreamHandler :=
        if st.dec_int_state.resume then (0, st.handler)
        else if b &&& 0x80 ≠ 0 then (7, .headerAck)
        else if b &&& 0xC = 0 then (6, .tableSynch)
        else (6, .streamCancel)
      match lsqpack_dec_int ph.1 st.dec_int_state (b :: rest) with
      | .ok v rest' =>
          if runDecHandler ph.2 enc v ≠ 0 then (-1, ⟨st.dec_int_state, ph.2⟩, enc)
          else lsqpack_enc_decoder_in_go fuel enc ⟨⟨false, 0, 0, 0⟩, ph.2⟩ rest'
      | .needMore st' => (0, ⟨st', ph.2⟩, enc)
      | .overflow => (-1, ⟨st.dec_int_state, ph.2⟩, enc)

def lsqpack_enc_decoder_in (enc : Enc) (st : DecStreamState) (buf : List Nat) :
    Int × DecStreamState × Enc :=
  lsqpack_enc_decoder_in_go buf.length enc st buf

/-- Claim C10: `lsqpack_enc_init` rejects a dynamic-table size above
`LSQPACK_MAX_DYN_TABLE_SIZE` or a risked-streams bound above
`LSQPACK_MAX_MAX_RISKED_STREAMS` (both from the missing header, passed
here as parameters), constructing no encoder; for in-range arguments it
returns an encoder with an empty table, the requested max capacity and the
requested risked-streams limit.  (`errno = EINVAL` is an OS side channel
outside the model.) -/
theorem lsqpack_enc_init_spec (maxDts maxMrs dts mrs : Nat) :
    (lsqpack_enc_init maxDts maxMrs dts mrs = none ↔ dts > maxDts ∨ mrs > maxMrs)
    ∧ (dts ≤ maxDts → mrs ≤ maxMrs →
        lsqpack_enc_init maxDts maxMrs dts mrs = some {
          qpe_cur_capacity := 0
          qpe_max_capacity := dts
          qpe_ins_count := 0
          qpe_max_acked_id := 0
          qpe_cur_streams_at_risk := 0
          qpe_max_risked_streams := mrs
          qpe_all_entries := []
          qpe_hinfos := []
          qpe_header_opened := false
          qpe_cur_header := emptyCurHeader }) := by
  constructor
  · rw [lsqpack_enc_init]
    by_cases h : dts > maxDts ∨ mrs > maxMrs
    · rw [if_pos h]; simpa using h
    · rw [if_neg h]; simpa using h
  · intro h1 h2
    rw [lsqpack_enc_init]
    rw [if_neg (by omega)]

/-- Closed witness for `lsqpack_enc_init_spec` at limits (4096, 100) and
arguments (256, 10). -/
theorem lsqpack_enc_init_spec_witness :
    (256 ≤ 4096 ∧ 10 ≤ 100)
    ∧ lsqpack_enc_init 4096 100 256 10 = some {
        qpe_cur_capacity := 0
        qpe_max_capacity := 256
        qpe_ins_count := 0
        qpe_max_acked_id := 0
        qpe_cur_streams_at_risk := 0
        qpe_max_risked_streams := 10
        qpe_all_entries := []
        qpe_hinfos := []
        qpe_header_opened := false
        qpe_cur_header := emptyCurHeader } :=
  ⟨⟨by norm_num, by norm_num⟩,
    (lsqpack_enc_init_spec 4096 100 256 10).2 (by norm_num) (by norm_num)⟩

theorem sumSizes_append (l₁ l₂ : List EncTableEntry) :
    sumSizes (l₁ ++ l₂) = sumSizes l₁ + sumSizes l₂ := by
  simp [sumSizes]

theorem sumSizes_bumpRef (l : List EncTableEntry) (id : Nat) :
    sumSizes (bumpRef l id) = sumSizes l := by
  induction l with
  | nil => rfl
  | cons e rest ih =>
      simp only [bumpRef, List.map_cons, sumSizes, List.sum_cons] at *
      by_cases h : e.ete_id = id
      · rw [if_pos h]
        simp only [ETE_SIZE]
        omega
      · rw [if_neg h]
        omega

theorem qenc_drop_oldest_entry_fields (enc : Enc) :
    (qenc_drop_oldest_entry enc).qpe_max_capacity = enc.qpe_max_capacity := by
  rw [qenc_drop_oldest_entry]
  cases enc.qpe_all_entries <;> rfl

/-- Overflow removal preserves the size-sum invariant and, given enough
fuel (at least the entry count), leaves the capacity within the bound. -/
theorem removeOverflowGo_inv :
    ∀ (fuel : Nat) (enc : Enc),
    enc.qpe_cur_capacity = sumSizes enc.qpe_all_entries →
    enc.qpe_all_entries.length ≤ fuel →
    (removeOverflowGo fuel enc).qpe_cur_capacity
        = sumSizes (removeOverflowGo fuel enc).qpe_all_entries
      ∧ (removeOverflowGo fuel enc).qpe_cur_capacity
        ≤ (removeOverflowGo fuel enc).qpe_max_capacity
      ∧ (removeOverflowGo fuel enc).qpe_max_capacity = enc.qpe_max_capacity := by
  intro fuel
  induction fuel with
  | zero =>
      intro enc h1 h2
      have hnil : enc.qpe_all_entries = [] := List.length_eq_zero.mp (by omega)
      rw [removeOverflowGo]
      refine ⟨h1, ?_, rfl⟩
      rw [h1, hnil]
      simp [sumSizes]
  | succ fuel ih =>
      intro enc h1 h2
      rw [removeOverflowGo]
      by_cases hover : enc.qpe_cur_capacity > enc.qpe_max_capacity
      · rw [if_pos hover]
        rcases hents : enc.qpe_all_entries with _ | ⟨e, rest⟩
        · exfalso
          rw [hents] at h1
          simp [sumSizes] at h1
          omega
        · have hdrop : qenc_drop_oldest_entry enc =
              { enc with qpe_all_entries := rest,
                         qpe_cur_capacity := enc.qpe_cur_capacity - ETE_SIZE e } := by
            rw [qenc_drop_oldest_entry, hents]
          have h1' : (qenc_drop_oldest_entry enc).qpe_cur_capacity
              = sumSizes (qenc_drop_oldest_entry enc).qpe_all_entries := by
            rw [hdrop]
            simp only
            rw [h1, hents]
            simp [sumSizes]
          have h2' : (qenc_drop_oldest_entry enc).qpe_all_entries.length ≤ fuel := by
            rw [hdrop]
            simp only
            have := congrArg List.length hents
            simp at this
            omega
          obtain ⟨a, b, c⟩ := ih _ h1' h2'
          exact ⟨a, b, by rw [c, hdrop]⟩
      · rw [if_neg hover]
        exact ⟨h1, by omega, rfl⟩

theorem push_entry_inv (enc : Enc) (name va : List Char)
    (h1 : enc.qpe_cur_capacity = sumSizes enc.qpe_all_entries) :
    (lsqpack_enc_push_entry enc name va).1.qpe_cur_capacity
        = sumSizes (lsqpack_enc_push_entry enc name va).1.qpe_all_entries
      ∧ (lsqpack_enc_push_entry enc name va).1.qpe_cur_capacity
        ≤ (lsqpack_enc_push_entry enc name va).1.qpe_max_capacity
      ∧ (lsqpack_enc_push_entry enc name va).1.qpe_max_capacity
        = enc.qpe_max_capacity := by
  rw [lsqpack_enc_push_entry]
  simp only [qenc_remove_overflow_entries]
  apply removeOverflowGo_inv
  · simp only [sumSizes_append]
    rw [h1]
    simp [sumSizes, ETE_SIZE]
  · simp

theorem tabAndRefs_inv (enc : Enc) (esr : EncSearchResult)
    (prog : EncodeProgram) (name va : List Char)
    (h1 : enc.qpe_cur_capacity = sumSizes enc.qpe_all_entries)
    (h2 : enc.qpe_cur_capacity ≤ enc.qpe_max_capacity) :
    (encodeTabAndRefs enc esr prog name va).qpe_cur_capacity
        = sumSizes (encodeTabAndRefs enc esr prog name va).qpe_all_entries
      ∧ (encodeTabAndRefs enc esr prog name va).qpe_cur_capacity
        ≤ (encodeTabAndRefs enc esr prog name va).qpe_max_capacity := by
  rw [encodeTabAndRefs]
  obtain ⟨p1, p2, p3⟩ := push_entry_inv enc name va h1
  by_cases htab : prog.ep_tab_new
  · rw [if_pos htab]
    by_cases hrn : prog.ep_ref_new
    · rw [if_pos hrn]
      by_cases hrf : prog.ep_ref_found
      · rw [if_pos hrf]
        constructor
        · simp only [sumSizes_bumpRef]
          exact p1
        · exact le_trans (le_of_eq rfl) p2
      · rw [if_neg hrf]
        constructor
        · simp only [sumSizes_bumpRef]
          exact p1
        · exact p2
    · rw [if_neg hrn]
      by_cases hrf : prog.ep_ref_found
      · rw [if_pos hrf]
        constructor
        · simp only [sumSizes_bumpRef]
          exact p1
        · exact p2
      · rw [if_neg hrf]
        exact ⟨p1, p2⟩
  · rw [if_neg htab]
    by_cases hrf : prog.ep_ref_found
    · rw [if_pos hrf]
      constructor
      · simp only [sumSizes_bumpRef]
        exact h1
      · exact h2
    · rw [if_neg hrf]
      exact ⟨h1, h2⟩

/-- Claim C5: after every `lsqpack_enc_encode` call that returns `LQES_OK`
(and after every `lsqpack_enc_set_max_capacity` call), the encoder's
`qpe_cur_capacity` equals the sum of the stored entries' sizes and is at
most `qpe_max_capacity` — stated as preservation from any state already
satisfying the invariant. -/
theorem enc_capacity_invariant (enc : Enc) (ebs hbs : Nat)
    (name va : List Char) (noIndex : Bool) (m : Nat)
    (h1 : enc.qpe_cur_capacity = sumSizes enc.qpe_all_entries)
    (h2 : enc.qpe_cur_capacity ≤ enc.qpe_max_capacity) :
    (∀ st eout hout enc',
      lsqpack_enc_encode enc ebs hbs name va noIndex = (st, eout, hout, enc') →
      st = .lqes_ok →
      enc'.qpe_cur_capacity = sumSizes enc'.qpe_all_entries
        ∧ enc'.qpe_cur_capacity ≤ enc'.qpe_max_capacity)
    ∧ ((lsqpack_enc_set_max_capacity enc m).qpe_cur_capacity
        = sumSizes (lsqpack_enc_set_max_capacity enc m).qpe_all_entries
      ∧ (lsqpack_enc_set_max_capacity enc m).qpe_cur_capacity
        ≤ (lsqpack_enc_set_max_capacity enc m).qpe_max_capacity) := by
  constructor
  · intro st eout hout enc' heq hok
    rw [lsqpack_enc_encode] at heq
    by_cases hhb : hbs = 0
    · rw [if_pos hhb] at heq
      cases heq
      cases hok
    · rw [if_neg hhb] at heq
      dsimp only [] at heq
      split at heq
      · cases heq
        cases hok
      · split at heq
        · cases heq
          cases hok
        · cases heq
          exact tabAndRefs_inv _ _ _ _ _ h1 h2
  · rw [lsqpack_enc_set_max_capacity, qenc_remove_overflow_entries]
    obtain ⟨a, b, _⟩ := removeOverflowGo_inv
      ({ enc with qpe_max_capacity := m } : Enc).qpe_all_entries.length
      { enc with qpe_max_capacity := m } h1 (le_refl _)
    exact ⟨a, b⟩

/-- A concrete encoder state holding one entry of size 36, satisfying the
capacity invariant. -/
def encWitness : Enc := {
  qpe_cur_capacity := 36
  qpe_max_capacity := 100
  qpe_ins_count := 1
  qpe_max_acked_id := 0
  qpe_cur_streams_at_risk := 0
  qpe_max_risked_streams := 10
  qpe_all_entries := [⟨1, 0, "ab".toList, "cd".toList⟩]
  qpe_hinfos := []
  qpe_header_opened := true
  qpe_cur_header := {
    hinfo := ⟨7, 0, 0, 0, false⟩
    n_risked := 0
    base_idx := 1
    search_cutoff := 0
    use_dynamic_table := true
    others_at_risk := false } }

/-- Closed witness for `enc_capacity_invariant` at `encWitness`. -/
theorem enc_capacity_invariant_witness :
    (encWitness.qpe_cur_capacity = sumSizes encWitness.qpe_all_entries
      ∧ encWitness.qpe_cur_capacity ≤ encWitness.qpe_max_capacity)
    ∧ ((∀ st eout hout enc',
        lsqpack_enc_encode encWitness 64 64 "x".toList "y".toList false
          = (st, eout, hout, enc') →
        st = .lqes_ok →
        enc'.qpe_cur_capacity = sumSizes enc'.qpe_all_entries
          ∧ enc'.qpe_cur_capacity ≤ enc'.qpe_max_capacity)
      ∧ ((lsqpack_enc_set_max_capacity encWitness 50).qpe_cur_capacity
          = sumSizes (lsqpack_enc_set_max_capacity encWitness 50).qpe_all_entries
        ∧ (lsqpack_enc_set_max_capacity encWitness 50).qpe_cur_capacity
          ≤ (lsqpack_enc_set_max_capacity encWitness 50).qpe_max_capacity)) :=
  ⟨⟨by decide, by decide⟩,
    enc_capacity_invariant encWitness 64 64 "x".toList "y".toList false 50
      (by decide) (by decide)⟩

theorem encCanEvictGo_zero (s : Nat) :
    ∀ (avail : Nat) (l : List EncTableEntry),
    (encCanEvictGo 0 s avail l).1 = false := by
  intro avail l
  induction l generalizing avail with
  | nil => rfl
  | cons e rest ih =>
      rw [encCanEvictGo]
      rw [if_neg (Nat.not_lt_zero _)]

/-- Admission check as the spec (§4.6) words it: "max_capacity −
current_size + Σ(sizes of evictable prefix) ≥ s, where an entry is
evictable only if it has no live references".  This is the claim's side of
the comparison; `enc_has_or_can_evict_at_least` is the code's side. -/
def specEvictableCheck (enc : Enc) (s : Nat) : Bool :=
  decide (s ≤ enc.qpe_max_capacity - enc.qpe_cur_capacity
      + sumSizes (enc.qpe_all_entries.takeWhile (fun e => e.ete_n_reffd = 0)))

/-- A full-to-40-of-70 table whose single entry has no live references
(`ete_n_reffd = 0`, and its id 1 is acknowledged). -/
def c4EncUnref : Enc := {
  qpe_cur_capacity := 40
  qpe_max_capacity := 70
  qpe_ins_count := 1
  qpe_max_acked_id := 1
  qpe_cur_streams_at_risk := 0
  qpe_max_risked_streams := 0
  qpe_all_entries := [⟨1, 0, "aaaa".toList, "bbbb".toList⟩]
  qpe_hinfos := []
  qpe_header_opened := true
  qpe_cur_header := {
    hinfo := ⟨9, 0, 0, 0, false⟩
    n_risked := 0
    base_idx := 1
    search_cutoff := 0
    use_dynamic_table := true
    others_at_risk := false } }

/-- A table filled to capacity whose single entry is referenced by an
unacked header block (`ete_n_reffd = 1`, nothing acknowledged yet). -/
def c4EncReffd : Enc := {
  qpe_cur_capacity := 40
  qpe_max_capacity := 40
  qpe_ins_count := 1
  qpe_max_acked_id := 0
  qpe_cur_streams_at_risk := 0
  qpe_max_risked_streams := 1
  qpe_all_entries := [⟨1, 1, "aaaa".toList, "bbbb".toList⟩]
  qpe_hinfos := []
  qpe_header_opened := true
  qpe_cur_header := {
    hinfo := ⟨9, 0, 0, 0, false⟩
    n_risked := 0
    base_idx := 1
    search_cutoff := 0
    use_dynamic_table := true
    others_at_risk := false } }

/-- Claim C4 is false as stated: `c4EncUnref` holds one entry with no live
references, so the spec-side admission formula accepts a new entry of size
40 (70 − 40 + 40 ≥ 40), yet the code's check
`enc_has_or_can_evict_at_least` rejects it (its `min_id` is the TODO value
0, so its evictable prefix is empty) and `lsqpack_enc_encode` falls back to
a non-indexing literal, inserting nothing. -/
theorem c4_eviction_admission_counterexample :
    specEvictableCheck c4EncUnref (ENTRY_COST 4 4) = true
    ∧ (enc_has_or_can_evict_at_least c4EncUnref (ENTRY_COST 4 4)).1 = false
    ∧ (lsqpack_enc_encode c4EncUnref 128 128 "cccc".toList "dddd".toList false).1
        = .lqes_ok
    ∧ (lsqpack_enc_encode c4EncUnref 128 128 "cccc".toList "dddd".toList false).2.2.2.qpe_all_entries
        = c4EncUnref.qpe_all_entries := by
  refine ⟨by decide, by decide, by decide, by decide⟩

/-- Claim C4 as amended: the code's admission check is simply
`max_capacity − current_size ≥ s` (the evictable prefix it scans is always
empty because `min_id` is the TODO value 0); when the check fails the
encoder emits a non-indexing representation, and in particular on a table
full of entries referenced by an unacked header block it returns OK with a
literal (no encoder-stream output) and leaves the entry list unchanged. -/
theorem c4_eviction_admission :
    (∀ (enc : Enc) (s : Nat),
      (enc_has_or_can_evict_at_least enc s).1
        = decide (s ≤ enc.qpe_max_capacity - enc.qpe_cur_capacity))
    ∧ (lsqpack_enc_encode c4EncReffd 128 128 "cccc".toList "dddd".toList false).1
        = .lqes_ok
    ∧ (lsqpack_enc_encode c4EncReffd 128 128 "cccc".toList "dddd".toList false).2.1 = []
    ∧ (lsqpack_enc_encode c4EncReffd 128 128 "cccc".toList "dddd".toList false).2.2.2.qpe_all_entries
        = c4EncReffd.qpe_all_entries := by
  refine ⟨?_, by decide, by decide, by decide⟩
  intro enc s
  rw [enc_has_or_can_evict_at_least]
  by_cases h : enc.qpe_max_capacity - enc.qpe_cur_capacity ≥ s
  · rw [if_pos h]
    simp [h]
  · rw [if_neg h]
    dsimp only []
    rw [encCanEvictGo_zero]
    simp [h]

/-- The concrete C3 scenario: a fresh encoder with the dynamic table
disabled (size 0), one header block containing only `(":path", "/")`,
ended immediately.  Produces prefix bytes followed by header-block
bytes. -/
def c3Block : List Nat :=
  match lsqpack_enc_init 4096 100 0 100 with
  | none => []
  | some e =>
      match lsqpack_enc_start_header e 0 0 with
      | none => []
      | some e =>
          let r := lsqpack_enc_encode e 128 128 ":path".toList "/".toList false
          let p := lsqpack_enc_end_header r.2.2.2 128
          p.2.1 ++ r.2.2.1

/-- Claim C3 is false as stated: the header block for `[(":path", "/")]`
is not `00 00 C1`.  (`lsqpack_enc_get_stx_tab_id` numbers the static table
from 1, so `:path /` is entry 4, and `EHA_INDEXED_STAT` emits the id with
a 6-bit prefix under pattern `11`, giving `0xC4`.) -/
theorem c3_single_static_hit_counterexample :
    c3Block ≠ [0x00, 0x00, 0xC1] := by
  decide

/-- Claim C3 as amended: the block is `00 00 C4` — the two-byte prefix
`00 00` followed by one indexed-static-header byte with a 6-bit prefix
carrying the 1-based static-table id 4 of `(":path", "/")`. -/
theorem c3_single_static_hit :
    c3Block = [0x00, 0x00, 0xC4] := by
  decide

/-- Claim C8 is contradicted by the code: `enc_proc_stream_cancel` is a
`/* TODO */` stub returning -1, so a complete stream-cancellation
instruction (byte `0x44`, cancelling stream 4) makes
`lsqpack_enc_decoder_in` fail with -1 and release nothing — the encoder
comes back unchanged. -/
theorem enc_decoder_in_stream_cancel_stub (enc : Enc) :
    lsqpack_enc_decoder_in enc ⟨⟨false, 0, 0, 0⟩, .headerAck⟩ [0x44]
      = (-1, ⟨⟨false, 0, 0, 0⟩, .streamCancel⟩, enc) := by
  rfl

/-- `struct lsqpack_dec_table_entry`: name, value and reference count
(the name/value bytes live in one buffer in C). -/
structure DecTableEntry where
  dte_name : List Char
  dte_val : List Char
  dte_refcnt : Nat
deriving Repr, DecidableEq

def DTE_SIZE (e : DecTableEntry) : Nat := ENTRY_COST e.dte_name.length e.dte_val.length

def decSumSizes (l : List DecTableEntry) : Nat := (l.map DTE_SIZE).sum

/-- One element of the blocked-header min-heap
(`struct lsqpack_min_heap_elem`): the read context is identified by its
stream, and `mhe_max_id` is the header block's largest reference. -/
structure BlockedHeader where
  mhe_stream : Nat
  mhe_max_id : Nat
deriving Repr, DecidableEq

/-- `struct lsqpack_dec` (the fields the table and blocked-stream logic
read or write).  `qpd_dyn_table` is the `lsqpack_arr` ring in insertion
order (oldest first); the blocked-header min-heap is the list of elements
in array order, index 0 the root. -/
structure Dec where
  qpd_max_capacity : Nat
  qpd_cur_max_capacity : Nat
  qpd_cur_capacity : Nat
  qpd_ins_count : Nat
  qpd_del_count : Nat
  qpd_max_risked_streams : Nat
  qpd_dyn_table : List DecTableEntry
  qpd_blocked_headers : List BlockedHeader
deriving Repr, DecidableEq

/-- `lsqpack_dec_init` (the table/blocked-stream fields; callbacks are
externel collaborators). -/
def lsqpack_dec_init (dyn_table_size max_risked_streams : Nat) : Dec := {
  qpd_max_capacity := dyn_table_size
  qpd_cur_max_capacity := dyn_table_size
  qpd_cur_capacity := 0
  qpd_ins_count := 0
  qpd_del_count := 0
  qpd_max_risked_streams := max_risked_streams
  qpd_dyn_table := []
  qpd_blocked_headers := [] }

/-- `qdec_drop_oldest_entry` from lsqpack.c: shift the oldest entry off the
ring, subtract its size, count a deletion.  (`qdec_decref_entry`'s free is
memory management; `lsqpack_arr_shift` asserts nonemptiness, so the `[]`
arm is unreachable.) -/
def qdec_drop_oldest_entry (dec : Dec) : Dec :=
  match dec.qpd_dyn_table with
  | [] => dec
  | e :: rest =>
      { dec with
        qpd_dyn_table := rest
        qpd_cur_capacity := dec.qpd_cur_capacity - DTE_SIZE e
        qpd_del_count := dec.qpd_del_count + 1 }

/-- The `while (qpd_cur_capacity > qpd_cur_max_capacity)` loop of
`qdec_remove_overflow_entries`, fuelled by the entry count as for the
encoder. -/
def decRemoveOverflowGo : Nat → Dec → Dec
  | 0, dec => dec
  | fuel + 1, dec =>
      if dec.qpd_cur_capacity > dec.qpd_cur_max_capacity then
        decRemoveOverflowGo fuel (qdec_drop_oldest_entry dec)
      else dec

def qdec_remove_overflow_entries (dec : Dec) : Dec :=
  decRemoveOverflowGo dec.qpd_dyn_table.length dec

/-- `qdec_update_max_capacity` from lsqpack.c. -/
def qdec_update_max_capacity (dec : Dec) (new_capacity : Nat) : Dec :=
  qdec_remove_overflow_entries { dec with qpd_cur_max_capacity := new_capacity }

/-- `lsqpack_dec_set_max_capacity` from lsqpack.c. -/
def lsqpack_dec_set_max_capacity (dec : Dec) (max_capacity : Nat) : Dec :=
  qdec_update_max_capacity { dec with qpd_max_capacity := max_capacity } max_capacity

def MHE_PARENT (i : Nat) : Nat := (i - 1) / 2

def heapGet (h : List BlockedHeader) (i : Nat) : BlockedHeader := h.getD i ⟨0, 0⟩

/-- Exchange the elements at positions `i` and `j`. -/
def heapSwap (h : List BlockedHeader) (i j : Nat) : List BlockedHeader :=
  (h.set i (heapGet h j)).set j (heapGet h i)

/-- `mh_heapify` from lsqpack.c, sifting position `i` down.  Each
recursive call moves to a child index, so the list length bounds the
number of steps; structural fuel (installed by `mh_heapify`) stands in for
that measure and keeps the definition kernel-computable. -/
def mh_heapify_go : Nat → List BlockedHeader → Nat → List BlockedHeader
  | 0, h, _ => h
  | fuel + 1, h, i =>
      let smallest :=
        if 2 * i + 1 < h.length then
          let s :=
            if (heapGet h (2 * i + 1)).mhe_max_id < (heapGet h i).mhe_max_id
            then 2 * i + 1 else i
          if 2 * i + 2 < h.length ∧
              (heapGet h (2 * i + 2)).mhe_max_id < (heapGet h s).mhe_max_id
          then 2 * i + 2 else s
        else i
      if smallest ≠ i then
        mh_heapify_go fuel (heapSwap h smallest i) smallest
      else h

def mh_heapify (h : List BlockedHeader) (i : Nat) : List BlockedHeader :=
  mh_heapify_go h.length h i

/-- The sift-up loop of `mh_insert`, with the index bounding the step
count as fuel. -/
def mh_sift_up : Nat → List BlockedHeader → Nat → List BlockedHeader
  | 0, h, _ => h
  | fuel + 1, h, i =>
      if 0 < i ∧ (heapGet h (MHE_PARENT i)).mhe_max_id > (heapGet h i).mhe_max_id then
        mh_sift_up fuel (heapSwap h (MHE_PARENT i) i) (MHE_PARENT i)
      else h

/-- `mh_insert` from lsqpack.c: append at the end and sift up (array
growth is abstracted; it succeeds). -/
def mh_insert (h : List BlockedHeader) (stream val : Nat) : List BlockedHeader :=
  let h := h ++ [⟨stream, val⟩]
  mh_sift_up h.length h (h.length - 1)

/-- `mh_pop` from lsqpack.c: return the root if its key is at most
`largest_id`, moving the last element to the root and sifting it down. -/
def mh_pop (h : List BlockedHeader) (largest_id : Nat) :
    Option (BlockedHeader × List BlockedHeader) :=
  if h.length = 0 ∨ (heapGet h 0).mhe_max_id > largest_id then none
  else
    let root := heapGet h 0
    if h.length - 1 > 0 then
      some (root, mh_heapify ((h.dropLast).set 0 (heapGet h (h.length - 1))) 0)
    else
      some (root, [])

/-- `stash_blocked_header` from lsqpack.c: refuse when the heap already
holds `qpd_max_risked_streams` blocked headers, otherwise insert.  (The
HBRC_BLOCKED flag lives in the read context, abstracted away;
`mh_insert`'s allocation failure is abstracted.) -/
def stash_blocked_header (dec : Dec) (stream required : Nat) : Int × Dec :=
  if dec.qpd_blocked_headers.length ≥ dec.qpd_max_risked_streams then (-1, dec)
  else
    (0, { dec with qpd_blocked_headers :=
            mh_insert dec.qpd_blocked_headers stream required })

/-- The `while (mh_pop ...)` loop of `qdec_process_blocked_headers`: pop
every blocked header whose largest reference is at most the insert count
and return them (each popped header gets a `wantread(stream, 1)` wake-up
callback).  Each pop shrinks the heap, so its length serves as fuel. -/
def processBlockedGo : Nat → List BlockedHeader → Nat →
    List BlockedHeader × List BlockedHeader
  | 0, h, _ => (h, [])
  | fuel + 1, h, insCount =>
      match mh_pop h insCount with
      | none => (h, [])
      | some (popped, h') =>
          let r := processBlockedGo fuel h' insCount
          (r.1, popped :: r.2)

def qdec_process_blocked_headers (dec : Dec) : Dec × List BlockedHeader :=
  let r := processBlockedGo dec.qpd_blocked_headers.length
    dec.qpd_blocked_headers dec.qpd_ins_count
  ({ dec with qpd_blocked_headers := r.1 }, r.2)

/-- `lsqpack_dec_push_entry` from lsqpack.c: append the entry, account its
size, advance the insert count, evict overflow, then wake the no-longer-
blocked headers (returned in order; each gets `wantread(stream, 1)`).
The `lsqpack_arr_push` allocation failure is abstracted. -/
def lsqpack_dec_push_entry (dec : Dec) (entry : DecTableEntry) :
    Dec × List BlockedHeader :=
  let dec :=
    { dec with
      qpd_dyn_table := dec.qpd_dyn_table ++ [entry]
      qpd_cur_capacity := dec.qpd_cur_capacity + DTE_SIZE entry
      qpd_ins_count := dec.qpd_ins_count + 1 }
  qdec_process_blocked_headers (qdec_remove_overflow_entries dec)

/-- `enum read_header_status` from lsqpack.c. -/
inductive ReadHeaderStatus where
  | rhs_done
  | rhs_blocked
  | rhs_need
  | rhs_error
deriving Repr, DecidableEq

/-- The status dispatch of `lsqpack_dec_header_read` from lsqpack.c.  The
call to `qdec_read_header` pulls bytes through caller callbacks and runs
the header-block parser; its outcome is passed in as `st`, and
`required` is the block's parsed largest reference.  Returned alongside
the status code and new state are the `wantread(stream, on)` callback
events the function issues. -/
def lsqpack_dec_header_read_dispatch (dec : Dec) (stream required : Nat)
    (st : ReadHeaderStatus) : Int × Dec × List (Nat × Bool) :=
  match st with
  | .rhs_done => (0, dec, [])
  | .rhs_need => (0, dec, [(stream, true)])
  | .rhs_blocked =>
      let r := stash_blocked_header dec stream required
      if r.1 = 0 then (0, r.2, [(stream, false)])
      else (-1, r.2, [])
  | .rhs_error => (-1, dec, [])

/-- The status dispatch of `lsqpack_dec_header_in` from lsqpack.c (the
read-context bookkeeping is abstracted; on RHS_NEED and RHS_BLOCKED the
context is saved and `wantread(stream, st == RHS_NEED)` is issued). -/
def lsqpack_dec_header_in_dispatch (dec : Dec) (stream required : Nat)
    (st : ReadHeaderStatus) : Int × Dec × List (Nat × Bool) :=
  match st with
  | .rhs_done => (0, dec, [])
  | .rhs_need => (0, dec, [(stream, true)])
  | .rhs_blocked =>
      let r := stash_blocked_header dec stream required
      if r.1 = 0 then (0, r.2, [(stream, false)])
      else (-1, r.2, [])
  | .rhs_error => (-1, dec, [])

theorem decSumSizes_append (l₁ l₂ : List DecTableEntry) :
    decSumSizes (l₁ ++ l₂) = decSumSizes l₁ + decSumSizes l₂ := by
  simp [decSumSizes]

/-- Decoder overflow removal preserves the size-sum and insert/delete
accounting and, given fuel at least the entry count, restores the
capacity bound; it leaves `qpd_cur_max_capacity` alone. -/
theorem decRemoveOverflowGo_inv :
    ∀ (fuel : Nat) (dec : Dec),
    dec.qpd_cur_capacity = decSumSizes dec.qpd_dyn_table →
    dec.qpd_ins_count = dec.qpd_del_count + dec.qpd_dyn_table.length →
    dec.qpd_dyn_table.length ≤ fuel →
    (decRemoveOverflowGo fuel dec).qpd_cur_capacity
        = decSumSizes (decRemoveOverflowGo fuel dec).qpd_dyn_table
      ∧ (decRemoveOverflowGo fuel dec).qpd_cur_capacity
        ≤ (decRemoveOverflowGo fuel dec).qpd_cur_max_capacity
      ∧ (decRemoveOverflowGo fuel dec).qpd_ins_count
        = (decRemoveOverflowGo fuel dec).qpd_del_count
          + (decRemoveOverflowGo fuel dec).qpd_dyn_table.length
      ∧ (decRemoveOverflowGo fuel dec).qpd_cur_max_capacity
        = dec.qpd_cur_max_capacity := by
  intro fuel
  induction fuel with
  | zero =>
      intro dec h1 h3 hlen
      have hnil : dec.qpd_dyn_table = [] := List.length_eq_zero.mp (by omega)
      rw [decRemoveOverflowGo]
      refine ⟨h1, ?_, h3, rfl⟩
      rw [h1, hnil]
      simp [decSumSizes]
  | succ fuel ih =>
      intro dec h1 h3 hlen
      rw [decRemoveOverflowGo]
      by_cases hover : dec.qpd_cur_capacity > dec.qpd_cur_max_capacity
      · rw [if_pos hover]
        rcases hents : dec.qpd_dyn_table with _ | ⟨e, rest⟩
        · exfalso
          rw [hents] at h1
          simp [decSumSizes] at h1
          omega
        · have hdrop : qdec_drop_oldest_entry dec =
              { dec with qpd_dyn_table := rest,
                         qpd_cur_capacity := dec.qpd_cur_capacity - DTE_SIZE e,
                         qpd_del_count := dec.qpd_del_count + 1 } := by
            rw [qdec_drop_oldest_entry, hents]
          have h1' : (qdec_drop_oldest_entry dec).qpd_cur_capacity
              = decSumSizes (qdec_drop_oldest_entry dec).qpd_dyn_table := by
            rw [hdrop]
            simp only
            rw [h1, hents]
            simp [decSumSizes]
          have h3' : (qdec_drop_oldest_entry dec).qpd_ins_count
              = (qdec_drop_oldest_entry dec).qpd_del_count
                + (qdec_drop_oldest_entry dec).qpd_dyn_table.length := by
            rw [hdrop]
            simp only
            rw [h3, hents]
            simp
            omega
          have hlen' : (qdec_drop_oldest_entry dec).qpd_dyn_table.length ≤ fuel := by
            rw [hdrop]
            simp only
            have := congrArg List.length hents
            simp at this
            omega
          obtain ⟨a, b, c, d⟩ := ih _ h1' h3' hlen'
          exact ⟨a, b, c, by rw [d, hdrop]⟩
      · rw [if_neg hover]
        exact ⟨h1, by omega, h3, rfl⟩

theorem process_blocked_table_fields (dec : Dec) :
    (qdec_process_blocked_headers dec).1.qpd_cur_capacity = dec.qpd_cur_capacity
    ∧ (qdec_process_blocked_headers dec).1.qpd_cur_max_capacity = dec.qpd_cur_max_capacity
    ∧ (qdec_process_blocked_headers dec).1.qpd_dyn_table = dec.qpd_dyn_table
    ∧ (qdec_process_blocked_headers dec).1.qpd_ins_count = dec.qpd_ins_count
    ∧ (qdec_process_blocked_headers dec).1.qpd_del_count = dec.qpd_del_count := by
  rw [qdec_process_blocked_headers]
  exact ⟨rfl, rfl, rfl, rfl, rfl⟩

/-- Claim C9: every decoder operation that touches the dynamic table
(entry insertion — with or without name reference, or duplication — all
via `lsqpack_dec_push_entry`; set-max-capacity via the encoder stream,
i.e. `qdec_update_max_capacity`; and `lsqpack_dec_set_max_capacity`)
preserves: `qpd_cur_capacity` equals the sum of the stored entries' sizes,
`qpd_cur_capacity ≤ qpd_cur_max_capacity`, and `qpd_ins_count` equals
`qpd_del_count` plus the number of stored entries. -/
theorem dec_table_accounting (dec : Dec) (entry : DecTableEntry) (newCap m : Nat)
    (h1 : dec.qpd_cur_capacity = decSumSizes dec.qpd_dyn_table)
    (h3 : dec.qpd_ins_count = dec.qpd_del_count + dec.qpd_dyn_table.length) :
    ((lsqpack_dec_push_entry dec entry).1.qpd_cur_capacity
        = decSumSizes (lsqpack_dec_push_entry dec entry).1.qpd_dyn_table
      ∧ (lsqpack_dec_push_entry dec entry).1.qpd_cur_capacity
        ≤ (lsqpack_dec_push_entry dec entry).1.qpd_cur_max_capacity
      ∧ (lsqpack_dec_push_entry dec entry).1.qpd_ins_count
        = (lsqpack_dec_push_entry dec entry).1.qpd_del_count
          + (lsqpack_dec_push_entry dec entry).1.qpd_dyn_table.length)
    ∧ ((qdec_update_max_capacity dec newCap).qpd_cur_capacity
        = decSumSizes (qdec_update_max_capacity dec newCap).qpd_dyn_table
      ∧ (qdec_update_max_capacity dec newCap).qpd_cur_capacity
        ≤ (qdec_update_max_capacity dec newCap).qpd_cur_max_capacity
      ∧ (qdec_update_max_capacity dec newCap).qpd_ins_count
        = (qdec_update_max_capacity dec newCap).qpd_del_count
          + (qdec_update_max_capacity dec newCap).qpd_dyn_table.length)
    ∧ ((lsqpack_dec_set_max_capacity dec m).qpd_cur_capacity
        = decSumSizes (lsqpack_dec_set_max_capacity dec m).qpd_dyn_table
      ∧ (lsqpack_dec_set_max_capacity dec m).qpd_cur_capacity
        ≤ (lsqpack_dec_set_max_capacity dec m).qpd_cur_max_capacity
      ∧ (lsqpack_dec_set_max_capacity dec m).qpd_ins_count
        = (lsqpack_dec_set_max_capacity dec m).qpd_del_count
          + (lsqpack_dec_set_max_capacity dec m).qpd_dyn_table.length) := by
  refine ⟨?_, ?_, ?_⟩
  · rw [lsqpack_dec_push_entry]
    obtain ⟨p1, p2, p3, p4, p5⟩ := process_blocked_table_fields
      (qdec_remove_overflow_entries
        { dec with
          qpd_dyn_table := dec.qpd_dyn_table ++ [entry]
          qpd_cur_capacity := dec.qpd_cur_capacity + DTE_SIZE entry
          qpd_ins_count := dec.qpd_ins_count + 1 })
    rw [p1, p2, p3, p4, p5]
    rw [qdec_remove_overflow_entries]
    obtain ⟨a, b, c, _⟩ := decRemoveOverflowGo_inv
      ({ dec with
          qpd_dyn_table := dec.qpd_dyn_table ++ [entry]
          qpd_cur_capacity := dec.qpd_cur_capacity + DTE_SIZE entry
          qpd_ins_count := dec.qpd_ins_count + 1 } : Dec).qpd_dyn_table.length
      { dec with
          qpd_dyn_table := dec.qpd_dyn_table ++ [entry]
          qpd_cur_capacity := dec.qpd_cur_capacity + DTE_SIZE entry
          qpd_ins_count := dec.qpd_ins_count + 1 }
      (by simp only [decSumSizes_append]; rw [h1]; simp [decSumSizes])
      (by simp only [List.length_append, List.length_cons, List.length_nil]; omega)
      (le_refl _)
    exact ⟨a, b, c⟩
  · rw [qdec_update_max_capacity, qdec_remove_overflow_entries]
    obtain ⟨a, b, c, _⟩ := decRemoveOverflowGo_inv
      ({ dec with qpd_cur_max_capacity := newCap } : Dec).qpd_dyn_table.length
      { dec with qpd_cur_max_capacity := newCap } h1 h3 (le_refl _)
    exact ⟨a, b, c⟩
  · rw [lsqpack_dec_set_max_capacity, qdec_update_max_capacity, qdec_remove_overflow_entries]
    obtain ⟨a, b, c, _⟩ := decRemoveOverflowGo_inv
      ({ { dec with qpd_max_capacity := m }
          with qpd_cur_max_capacity := m } : Dec).qpd_dyn_table.length
      { { dec with qpd_max_capacity := m } with qpd_cur_max_capacity := m }
      h1 h3 (le_refl _)
    exact ⟨a, b, c⟩

/-- A concrete decoder state: one stored entry of size 36, three inserts,
two deletions, one blocked header. -/
def decWitness : Dec := {
  qpd_max_capacity := 100
  qpd_cur_max_capacity := 100
  qpd_cur_capacity := 36
  qpd_ins_count := 3
  qpd_del_count := 2
  qpd_max_risked_streams := 5
  qpd_dyn_table := [⟨"ab".toList, "cd".toList, 1⟩]
  qpd_blocked_headers := [⟨7, 9⟩] }

/-- Closed witness for `dec_table_accounting` at `decWitness`. -/
theorem dec_table_accounting_witness :
    (decWitness.qpd_cur_capacity = decSumSizes decWitness.qpd_dyn_table
      ∧ decWitness.qpd_ins_count
        = decWitness.qpd_del_count + decWitness.qpd_dyn_table.length)
    ∧ (((lsqpack_dec_push_entry decWitness ⟨"x".toList, "y".toList, 1⟩).1.qpd_cur_capacity
        = decSumSizes (lsqpack_dec_push_entry decWitness ⟨"x".toList, "y".toList, 1⟩).1.qpd_dyn_table
      ∧ (lsqpack_dec_push_entry decWitness ⟨"x".toList, "y".toList, 1⟩).1.qpd_cur_capacity
        ≤ (lsqpack_dec_push_entry decWitness ⟨"x".toList, "y".toList, 1⟩).1.qpd_cur_max_capacity
      ∧ (lsqpack_dec_push_entry decWitness ⟨"x".toList, "y".toList, 1⟩).1.qpd_ins_count
        = (lsqpack_dec_push_entry decWitness ⟨"x".toList, "y".toList, 1⟩).1.qpd_del_count
          + (lsqpack_dec_push_entry decWitness ⟨"x".toList, "y".toList, 1⟩).1.qpd_dyn_table.length)
    ∧ ((qdec_update_max_capacity decWitness 50).qpd_cur_capacity
        = decSumSizes (qdec_update_max_capacity decWitness 50).qpd_dyn_table
      ∧ (qdec_update_max_capacity decWitness 50).qpd_cur_capacity
        ≤ (qdec_update_max_capacity decWitness 50).qpd_cur_max_capacity
      ∧ (qdec_update_max_capacity decWitness 50).qpd_ins_count
        = (qdec_update_max_capacity decWitness 50).qpd_del_count
          + (qdec_update_max_capacity decWitness 50).qpd_dyn_table.length)
    ∧ ((lsqpack_dec_set_max_capacity decWitness 20).qpd_cur_capacity
        = decSumSizes (lsqpack_dec_set_max_capacity decWitness 20).qpd_dyn_table
      ∧ (lsqpack_dec_set_max_capacity decWitness 20).qpd_cur_capacity
        ≤ (lsqpack_dec_set_max_capacity decWitness 20).qpd_cur_max_capacity
      ∧ (lsqpack_dec_set_max_capacity decWitness 20).qpd_ins_count
        = (lsqpack_dec_set_max_capacity decWitness 20).qpd_del_count
          + (lsqpack_dec_set_max_capacity decWitness 20).qpd_dyn_table.length)) :=
  ⟨⟨by decide, by decide⟩,
    dec_table_accounting decWitness ⟨"x".toList, "y".toList, 1⟩ 50 20
      (by decide) (by decide)⟩

/-! ### Min-heap verification for the blocked-header queue -/

/-- Key of a heap slot. -/
def kAt (h : List BlockedHeader) (x : Nat) : Nat := (heapGet h x).mhe_max_id

theorem length_heapSwap (h : List BlockedHeader) (i j : Nat) :
    (heapSwap h i j).length = h.length := by
  simp [heapSwap]

theorem heapGet_set (h : List BlockedHeader) (i j : Nat) (a : BlockedHeader) :
    heapGet (h.set i a) j = if i = j ∧ i < h.length then a else heapGet h j := by
  by_cases hij : i = j
  · subst hij
    by_cases hi : i < h.length
    · rw [if_pos ⟨rfl, hi⟩]
      simp [heapGet, List.getD_eq_getElem?_getD, List.getElem?_set_self hi]
    · rw [if_neg (by tauto)]
      rw [List.set_eq_of_length_le (by omega)]
  · rw [if_neg (by tauto)]
    simp [heapGet, List.getD_eq_getElem?_getD, List.getElem?_set_ne hij]

theorem heapGet_heapSwap (h : List BlockedHeader) (i j x : Nat)
    (hi : i < h.length) (hj : j < h.length) :
    heapGet (heapSwap h i j) x =
      if x = j then heapGet h i
      else if x = i then heapGet h j
      else heapGet h x := by
  rw [heapSwap, heapGet_set, heapGet_set]
  by_cases hxj : x = j
  · subst hxj
    rw [if_pos ⟨rfl, by simpa using hj⟩, if_pos rfl]
  · rw [if_neg (fun hcon => hxj hcon.1.symm), if_neg hxj]
    by_cases hxi : x = i
    · subst hxi
      rw [if_pos ⟨rfl, hi⟩, if_pos rfl]
    · rw [if_neg (fun hcon => hxi hcon.1.symm), if_neg hxi]

theorem cons_set_perm :
    ∀ (t : List BlockedHeader) (j : Nat) (a : BlockedHeader), j < t.length →
    List.Perm (t.getD j ⟨0, 0⟩ :: t.set j a) (a :: t) := by
  intro t
  induction t with
  | nil => intro j a h; simp at h
  | cons b t' ih =>
      intro j a hj
      match j with
      | 0 =>
          simp only [List.getD_cons_zero, List.set_cons_zero]
          exact List.Perm.swap a b t'
      | Nat.succ j' =>
          simp only [List.getD_cons_succ, List.set_cons_succ]
          exact ((List.Perm.swap b _ _).trans
            ((ih j' a (by simpa using hj)).cons b)).trans (List.Perm.swap a b t')

theorem set_getD_self :
    ∀ (h : List BlockedHeader) (i : Nat), h.set i (h.getD i ⟨0, 0⟩) = h := by
  intro h
  induction h with
  | nil => intro i; simp
  | cons b t ih =>
      intro i
      match i with
      | 0 => simp
      | Nat.succ i' =>
          simp only [List.getD_cons_succ, List.set_cons_succ]
          rw [ih i']

theorem heapSwap_perm :
    ∀ (h : List BlockedHeader) (i j : Nat), i < h.length → j < h.length →
    List.Perm (heapSwap h i j) h := by
  intro h
  induction h with
  | nil => intro i j hi; simp at hi
  | cons b t ih =>
      intro i j hi hj
      match i, j with
      | 0, 0 =>
          rw [heapSwap]
          simp only [heapGet, List.getD_cons_zero]
          rw [List.set_set]
          simp
      | 0, Nat.succ j' =>
          rw [heapSwap]
          simp only [heapGet, List.getD_cons_succ, List.getD_cons_zero,
            List.set_cons_zero, List.set_cons_succ]
          exact cons_set_perm t j' b (by simpa using hj)
      | Nat.succ i', 0 =>
          rw [heapSwap]
          simp only [heapGet, List.getD_cons_succ, List.getD_cons_zero,
            List.set_cons_zero, List.set_cons_succ]
          exact cons_set_perm t i' b (by simpa using hi)
      | Nat.succ i', Nat.succ j' =>
          rw [heapSwap]
          simp only [heapGet, List.getD_cons_succ, List.set_cons_succ]
          exact List.Perm.cons b (ih i' j' (by simpa using hi) (by simpa using hj))

/-- The min-heap property: every non-root slot is at least its parent. -/
def IsMinHeap (h : List BlockedHeader) : Prop :=
  ∀ i, i < h.length → 0 < i → kAt h (MHE_PARENT i) ≤ kAt h i

/-- Children of `i` are exactly the indices whose parent is `i`. -/
theorem parent_eq_iff (i c : Nat) (hc : 0 < c) :
    MHE_PARENT c = i ↔ c = 2 * i + 1 ∨ c = 2 * i + 2 := by
  rw [MHE_PARENT]
  omega

theorem parent_lt {c : Nat} (hc : 0 < c) : MHE_PARENT c < c := by
  rw [MHE_PARENT]
  omega

/-- The root of a min-heap is minimal. -/
theorem isMinHeap_root_le (h : List BlockedHeader) (hmh : IsMinHeap h) :
    ∀ i, i < h.length → kAt h 0 ≤ kAt h i := by
  intro i
  induction i using Nat.strong_induction_on with
  | _ i ih =>
      intro hi
      match i with
      | 0 => exact le_refl _
      | Nat.succ n =>
          have hp := hmh (n + 1) hi (by omega)
          have hplt : MHE_PARENT (n + 1) < n + 1 := parent_lt (by omega)
          exact le_trans (ih _ hplt (by omega)) hp

theorem kAt_heapSwap (h : List BlockedHeader) (i j x : Nat)
    (hi : i < h.length) (hj : j < h.length) :
    kAt (heapSwap h i j) x =
      if x = j then kAt h i else if x = i then kAt h j else kAt h x := by
  rw [kAt, heapGet_heapSwap h i j x hi hj]
  by_cases hxj : x = j
  · rw [if_pos hxj, if_pos hxj]
    rfl
  · rw [if_neg hxj, if_neg hxj]
    by_cases hxi : x = i
    · rw [if_pos hxi, if_pos hxi]
      rfl
    · rw [if_neg hxi, if_neg hxi]
      rfl

/-- The local invariant of sift-down: the heap property may fail only on
the pairs whose parent is `r`, and (when `r` is not the root) `r`'s parent
dominates `r`'s children. -/
def HeapExceptAt (h : List BlockedHeader) (r : Nat) : Prop :=
  (∀ c, c < h.length → 0 < c → MHE_PARENT c ≠ r → kAt h (MHE_PARENT c) ≤ kAt h c)
  ∧ (0 < r → ∀ c, c < h.length → MHE_PARENT c = r → kAt h (MHE_PARENT r) ≤ kAt h c)

theorem heapExceptAt_swap_child (h : List BlockedHeader) (i s : Nat)
    (hi : i < h.length) (hs : s < h.length)
    (hchild : s = 2 * i + 1 ∨ s = 2 * i + 2)
    (hex : HeapExceptAt h i)
    (hlt : kAt h s < kAt h i)
    (hoth : ∀ c, c < h.length → (c = 2 * i + 1 ∨ c = 2 * i + 2) → c ≠ s →
        kAt h s ≤ kAt h c) :
    HeapExceptAt (heapSwap h s i) s := by
  have hsi : s ≠ i := by omega
  have hps : MHE_PARENT s = i := by rw [MHE_PARENT]; omega
  have hlen : (heapSwap h s i).length = h.length := length_heapSwap h s i
  constructor
  · intro c hc h0c hpc
    rw [hlen] at hc
    rw [kAt_heapSwap h s i _ hs hi, kAt_heapSwap h s i _ hs hi]
    by_cases hci : c = i
    · have h0i : 0 < i := by omega
      have hpilt : MHE_PARENT i < i := parent_lt h0i
      have hpii : MHE_PARENT c ≠ i := by rw [hci]; omega
      have hpis : MHE_PARENT c ≠ s := hpc
      rw [if_neg hpis, if_neg hpii, if_neg (by omega : c ≠ s), if_pos hci]
      have hbase := hex.2 h0i s hs hps
      rw [hci]
      exact hbase
    · by_cases hcs : c = s
      · have hpci : MHE_PARENT c = i := by rw [hcs]; exact hps
        rw [if_pos hpci, if_neg hci, if_pos hcs]
        exact le_of_lt hlt
      · by_cases hpi : MHE_PARENT c = i
        · have hcch : c = 2 * i + 1 ∨ c = 2 * i + 2 := (parent_eq_iff i c h0c).mp hpi
          rw [if_neg hpc, if_pos hpi, if_neg hcs, if_neg hci]
          exact hoth c hc hcch hcs
        · rw [if_neg hpc, if_neg hpi, if_neg hcs, if_neg hci]
          exact hex.1 c hc h0c hpi
  · intro _ c hc hpc
    rw [hlen] at hc
    rw [hps]
    rw [kAt_heapSwap h s i _ hs hi, kAt_heapSwap h s i _ hs hi]
    have h0c : 0 < c := by
      rw [MHE_PARENT] at hpc
      omega
    have hcch : c = 2 * s + 1 ∨ c = 2 * s + 2 := (parent_eq_iff s c h0c).mp hpc
    have hci : c ≠ i := by omega
    have hcs : c ≠ s := by omega
    rw [if_pos rfl, if_neg hci, if_neg hcs]
    have hfin := hex.1 c hc h0c (by omega : MHE_PARENT c ≠ i)
    rw [hpc] at hfin
    exact hfin

theorem heapify_go_spec :
    ∀ (fuel : Nat) (h : List BlockedHeader) (i : Nat),
    i < h.length → h.length ≤ fuel + i → HeapExceptAt h i →
    IsMinHeap (mh_heapify_go fuel h i)
      ∧ List.Perm (mh_heapify_go fuel h i) h := by
  intro fuel
  induction fuel with
  | zero => intro h i hi hlen hex; omega
  | succ fuel ih =>
      intro h i hi hlen hex
      rw [mh_heapify_go]
      by_cases hL : 2 * i + 1 < h.length
      · rw [if_pos hL]
        by_cases hs1 : (heapGet h (2 * i + 1)).mhe_max_id < (heapGet h i).mhe_max_id
        · rw [if_pos hs1]
          by_cases hR : 2 * i + 2 < h.length ∧
              (heapGet h (2 * i + 2)).mhe_max_id < (heapGet h (2 * i + 1)).mhe_max_id
          · rw [if_pos hR]
            rw [if_pos (by omega : (2 * i + 2 : Nat) ≠ i)]
            have hex' := heapExceptAt_swap_child h i (2 * i + 2) hi hR.1
              (Or.inr rfl) hex
              (lt_trans hR.2 hs1)
              (by
                intro c hc hcch hcs
                have hc1 : c = 2 * i + 1 := by omega
                subst hc1
                exact le_of_lt hR.2)
            obtain ⟨a, b⟩ := ih (heapSwap h (2 * i + 2) i) (2 * i + 2)
              (by rw [length_heapSwap]; exact hR.1)
              (by rw [length_heapSwap]; omega)
              hex'
            exact ⟨a, b.trans (heapSwap_perm h (2 * i + 2) i hR.1 hi)⟩
          · rw [if_neg hR]
            rw [if_pos (by omega : (2 * i + 1 : Nat) ≠ i)]
            have hex' := heapExceptAt_swap_child h i (2 * i + 1) hi hL
              (Or.inl rfl) hex hs1
              (by
                intro c hc hcch hcs
                have hc2 : c = 2 * i + 2 := by omega
                subst hc2
                rw [kAt, kAt]
                push_neg at hR
                exact hR hc)
            obtain ⟨a, b⟩ := ih (heapSwap h (2 * i + 1) i) (2 * i + 1)
              (by rw [length_heapSwap]; exact hL)
              (by rw [length_heapSwap]; omega)
              hex'
            exact ⟨a, b.trans (heapSwap_perm h (2 * i + 1) i hL hi)⟩
        · rw [if_neg hs1]
          by_cases hR : 2 * i + 2 < h.length ∧
              (heapGet h (2 * i + 2)).mhe_max_id < (heapGet h i).mhe_max_id
          · rw [if_pos hR]
            rw [if_pos (by omega : (2 * i + 2 : Nat) ≠ i)]
            have hex' := heapExceptAt_swap_child h i (2 * i + 2) hi hR.1
              (Or.inr rfl) hex hR.2
              (by
                intro c hc hcch hcs
                have hc1 : c = 2 * i + 1 := by omega
                subst hc1
                rw [kAt, kAt]
                omega)
            obtain ⟨a, b⟩ := ih (heapSwap h (2 * i + 2) i) (2 * i + 2)
              (by rw [length_heapSwap]; exact hR.1)
              (by rw [length_heapSwap]; omega)
              hex'
            exact ⟨a, b.trans (heapSwap_perm h (2 * i + 2) i hR.1 hi)⟩
          · rw [if_neg hR]
            rw [if_neg (by omega : ¬ (i ≠ i))]
            refine ⟨?_, List.Perm.refl h⟩
            intro c hc h0c
            by_cases hpc : MHE_PARENT c = i
            · have hcch : c = 2 * i + 1 ∨ c = 2 * i + 2 := (parent_eq_iff i c h0c).mp hpc
              rw [hpc]
              rcases hcch with hc1 | hc2
              · subst hc1
                rw [kAt, kAt]
                omega
              · subst hc2
                rw [kAt, kAt]
                push_neg at hR
                exact hR hc
            · exact hex.1 c hc h0c hpc
      · rw [if_neg hL]
        rw [if_neg (by omega : ¬ (i ≠ i))]
        refine ⟨?_, List.Perm.refl h⟩
        intro c hc h0c
        by_cases hpc : MHE_PARENT c = i
        · exfalso
          have hcch : c = 2 * i + 1 ∨ c = 2 * i + 2 := (parent_eq_iff i c h0c).mp hpc
          omega
        · exact hex.1 c hc h0c hpc

theorem heapGet_eq_getElem (h : List BlockedHeader) (i : Nat) (hi : i < h.length) :
    heapGet h i = h[i] := List.getD_eq_getElem h ⟨0, 0⟩ hi

theorem heapGet_append (h e : List BlockedHeader) (x : Nat) (hx : x < h.length) :
    heapGet (h ++ e) x = heapGet h x := by
  rw [heapGet_eq_getElem _ _ (by simp; omega), heapGet_eq_getElem _ _ hx]
  exact List.getElem_append_left hx

theorem heapGet_dropLast (h : List BlockedHeader) (x : Nat) (hx : x < h.length - 1) :
    heapGet h.dropLast x = heapGet h x := by
  rw [heapGet_eq_getElem _ _ (by simp [List.length_dropLast]; omega),
    heapGet_eq_getElem _ _ (by omega)]
  exact List.getElem_dropLast h x _

theorem mh_pop_none_spec (h : List BlockedHeader) (N : Nat) (hmh : IsMinHeap h)
    (hnone : mh_pop h N = none) : ∀ b ∈ h, N < b.mhe_max_id := by
  by_cases hcond : h.length = 0 ∨ (heapGet h 0).mhe_max_id > N
  · intro b hb
    rcases hcond with h0 | hroot
    · exfalso
      rw [List.length_eq_zero.mp h0] at hb
      simp at hb
    · obtain ⟨i, hi, hbi⟩ := List.mem_iff_getElem.mp hb
      have hle := isMinHeap_root_le h hmh i hi
      rw [kAt, kAt, heapGet_eq_getElem _ _ hi, hbi] at hle
      omega
  · exfalso
    rw [mh_pop, if_neg hcond] at hnone
    by_cases h1 : h.length - 1 > 0
    · rw [if_pos h1] at hnone
      cases hnone
    · rw [if_neg h1] at hnone
      cases hnone

theorem mh_pop_some_spec (h : List BlockedHeader) (N : Nat) (hmh : IsMinHeap h)
    (p : BlockedHeader) (h' : List BlockedHeader)
    (hsome : mh_pop h N = some (p, h')) :
    p.mhe_max_id ≤ N ∧ IsMinHeap h' ∧ List.Perm (p :: h') h := by
  by_cases hcond : h.length = 0 ∨ (heapGet h 0).mhe_max_id > N
  · rw [mh_pop, if_pos hcond] at hsome
    cases hsome
  · push_neg at hcond
    obtain ⟨hne, hroot⟩ := hcond
    rw [mh_pop, if_neg (by push_neg; exact ⟨hne, hroot⟩)] at hsome
    dsimp only [] at hsome
    have hne' : h ≠ [] := by
      intro hnil
      rw [hnil] at hne
      simp at hne
    by_cases h1 : h.length - 1 > 0
    · rw [if_pos h1] at hsome
      cases hsome
      have hlen2 : 2 ≤ h.length := by omega
      rcases hdl : h.dropLast with _ | ⟨r, mid⟩
      · exfalso
        have hld := List.length_dropLast h
        rw [hdl] at hld
        simp at hld
        omega
      · have hmidlen : mid.length + 1 = h.length - 1 := by
          have hld := List.length_dropLast h
          rw [hdl] at hld
          simpa using hld
        have hr : r = heapGet h 0 := by
          have hgd := heapGet_dropLast h 0 (by omega)
          rw [hdl] at hgd
          have hrr : heapGet (r :: mid) 0 = r := rfl
          rw [hrr] at hgd
          exact hgd
        have hset : (r :: mid).set 0 (heapGet h (h.length - 1))
            = heapGet h (h.length - 1) :: mid := rfl
        rw [hset]
        have hbridge : ∀ x, 0 < x → x < h.length - 1 →
            heapGet (heapGet h (h.length - 1) :: mid) x = heapGet h x := by
          intro x h0x hx
          have e1 : heapGet (heapGet h (h.length - 1) :: mid) x
              = heapGet (r :: mid) x := by
            match x, h0x with
            | Nat.succ n, _ => rfl
          rw [e1, ← hdl, heapGet_dropLast h x hx]
        have hexd : HeapExceptAt (heapGet h (h.length - 1) :: mid) 0 := by
          constructor
          · intro c hc h0c hpc
            have hclen : c < h.length - 1 := by
              simp only [List.length_cons] at hc
              omega
            have h0p : 0 < MHE_PARENT c := Nat.pos_of_ne_zero hpc
            have hpar : MHE_PARENT c < h.length - 1 :=
              lt_trans (parent_lt h0c) hclen
            rw [kAt, kAt, hbridge _ h0p hpar, hbridge _ h0c hclen]
            exact hmh c (by omega) h0c
          · intro h00
            exact absurd h00 (lt_irrefl 0)
        have hspec := heapify_go_spec (heapGet h (h.length - 1) :: mid).length
          (heapGet h (h.length - 1) :: mid) 0 (by simp) (by omega) hexd
        refine ⟨hroot, hspec.1, ?_⟩
        refine List.Perm.trans (List.Perm.cons _ hspec.2) ?_
        have hgl : h.getLast hne' = heapGet h (h.length - 1) := by
          rw [List.getLast_eq_getElem, heapGet_eq_getElem _ _ (by omega)]
        have hfin : h = (heapGet h 0 :: mid) ++ [heapGet h (h.length - 1)] := by
          conv_lhs => rw [← List.dropLast_append_getLast hne']
          rw [hdl, hgl, hr]
        conv_rhs => rw [hfin]
        exact List.Perm.cons _
          (List.perm_append_singleton (heapGet h (h.length - 1)) mid).symm
    · rw [if_neg h1] at hsome
      cases hsome
      have hlen1 : h.length = 1 := by omega
      have hh : h = [heapGet h 0] := by
        rcases h with _ | ⟨a, t⟩
        · simp at hlen1
        · rcases t with _ | ⟨b, t'⟩
          · rfl
          · simp at hlen1
      refine ⟨hroot, ?_, ?_⟩
      · intro i hi h0i
        simp at hi
      · conv_rhs => rw [hh]

/-- Sift-up invariant: the heap property holds at every pair except that
the entry at index `i` may be smaller than its parent; furthermore the
grandparent of `i` already dominates `i`'s children (needed after each
swap). -/
def SiftUpInv (h : List BlockedHeader) (i : Nat) : Prop :=
  (∀ c, c < h.length → 0 < c → c ≠ i → kAt h (MHE_PARENT c) ≤ kAt h c)
  ∧ (0 < i → ∀ c, c < h.length → 0 < c → MHE_PARENT c = i →
      kAt h (MHE_PARENT i) ≤ kAt h c)

theorem sift_up_spec :
    ∀ (fuel : Nat) (h : List BlockedHeader) (i : Nat),
    i < h.length → i < fuel → SiftUpInv h i →
    IsMinHeap (mh_sift_up fuel h i) ∧ List.Perm (mh_sift_up fuel h i) h := by
  intro fuel
  induction fuel with
  | zero =>
      intro h i hi hif hinv
      exact absurd hif (Nat.not_lt_zero i)
  | succ fuel ih =>
      intro h i hi hif hinv
      rw [mh_sift_up]
      by_cases hcond :
          0 < i ∧ (heapGet h (MHE_PARENT i)).mhe_max_id > (heapGet h i).mhe_max_id
      · rw [if_pos hcond]
        obtain ⟨h0i, hgt⟩ := hcond
        have hplt : MHE_PARENT i < i := parent_lt h0i
        have hpl : MHE_PARENT i < h.length := lt_trans hplt hi
        have hinv' : SiftUpInv (heapSwap h (MHE_PARENT i) i) (MHE_PARENT i) := by
          constructor
          · intro c hc h0c hcp
            rw [length_heapSwap] at hc
            rw [kAt_heapSwap h _ _ _ hpl hi, kAt_heapSwap h _ _ _ hpl hi]
            by_cases hci : c = i
            · subst hci
              rw [if_neg (Nat.ne_of_lt hplt), if_pos rfl, if_pos rfl]
              exact le_of_lt hgt
            · by_cases hpci : MHE_PARENT c = i
              · rw [if_pos hpci, if_neg hci, if_neg hcp]
                exact hinv.2 h0i c hc h0c hpci
              · by_cases hpcp : MHE_PARENT c = MHE_PARENT i
                · rw [if_neg hpci, if_pos hpcp, if_neg hci, if_neg hcp]
                  have h1 : kAt h (MHE_PARENT c) ≤ kAt h c := hinv.1 c hc h0c hci
                  rw [hpcp] at h1
                  exact le_of_lt (lt_of_lt_of_le hgt h1)
                · rw [if_neg hpci, if_neg hpcp, if_neg hci, if_neg hcp]
                  exact hinv.1 c hc h0c hci
          · intro h0p c hc h0c hpcp
            rw [length_heapSwap] at hc
            have hpplt : MHE_PARENT (MHE_PARENT i) < MHE_PARENT i := parent_lt h0p
            rw [kAt_heapSwap h _ _ _ hpl hi, kAt_heapSwap h _ _ _ hpl hi]
            rw [if_neg (Nat.ne_of_lt (lt_trans hpplt hplt)),
                if_neg (Nat.ne_of_lt hpplt)]
            have hstep : kAt h (MHE_PARENT (MHE_PARENT i)) ≤ kAt h (MHE_PARENT i) :=
              hinv.1 (MHE_PARENT i) hpl h0p (Nat.ne_of_lt hplt)
            by_cases hci : c = i
            · rw [if_pos hci]
              exact hstep
            · by_cases hcp : c = MHE_PARENT i
              · exfalso
                rw [hcp] at hpcp
                exact Nat.ne_of_lt (parent_lt h0p) hpcp
              · rw [if_neg hci, if_neg hcp]
                have h2 : kAt h (MHE_PARENT c) ≤ kAt h c := hinv.1 c hc h0c hci
                rw [hpcp] at h2
                exact le_trans hstep h2
        have hres := ih (heapSwap h (MHE_PARENT i) i) (MHE_PARENT i)
          (by rw [length_heapSwap]; exact hpl) (by omega) hinv'
        exact ⟨hres.1, hres.2.trans (heapSwap_perm h _ _ hpl hi)⟩
      · rw [if_neg hcond]
        refine ⟨?_, List.Perm.refl _⟩
        intro c hc h0c
        by_cases hci : c = i
        · subst hci
          exact Nat.le_of_not_lt (fun hgt => hcond ⟨h0c, hgt⟩)
        · exact hinv.1 c hc h0c hci

theorem kAt_append (h e : List BlockedHeader) (x : Nat) (hx : x < h.length) :
    kAt (h ++ e) x = kAt h x := by
  rw [kAt, kAt, heapGet_append h e x hx]

/-- Inserting into a min-heap keeps it a min-heap; the result is a
permutation of the old heap plus the new element. -/
theorem mh_insert_spec (h : List BlockedHeader) (s v : Nat) (hmh : IsMinHeap h) :
    IsMinHeap (mh_insert h s v)
    ∧ List.Perm (mh_insert h s v) (h ++ [⟨s, v⟩]) := by
  simp only [mh_insert]
  have hlen : (h ++ [(⟨s, v⟩ : BlockedHeader)]).length = h.length + 1 := by simp
  have hinv : SiftUpInv (h ++ [⟨s, v⟩]) ((h ++ [(⟨s, v⟩ : BlockedHeader)]).length - 1) := by
    rw [hlen]
    constructor
    · intro c hc h0c hcn
      rw [hlen] at hc
      have hcl : c < h.length := by omega
      have hpcl : MHE_PARENT c < h.length := lt_trans (parent_lt h0c) hcl
      rw [kAt_append h _ _ hpcl, kAt_append h _ _ hcl]
      exact hmh c hcl h0c
    · intro h0n c hc h0c hpcn
      exfalso
      rw [hlen] at hc
      rw [MHE_PARENT] at hpcn
      omega
  exact sift_up_spec (h ++ [(⟨s, v⟩ : BlockedHeader)]).length
    (h ++ [(⟨s, v⟩ : BlockedHeader)])
    ((h ++ [(⟨s, v⟩ : BlockedHeader)]).length - 1) (by omega) (by omega) hinv

/-- The wake-up loop: starting from a min-heap with enough fuel, it
returns a min-heap of exactly the entries whose key exceeds the insert
count, and wakes exactly those with key at most the insert count. -/
theorem processBlockedGo_spec :
    ∀ (fuel : Nat) (h : List BlockedHeader) (N : Nat),
    IsMinHeap h → h.length ≤ fuel →
    IsMinHeap (processBlockedGo fuel h N).1
    ∧ List.Perm ((processBlockedGo fuel h N).2 ++ (processBlockedGo fuel h N).1) h
    ∧ (∀ b ∈ (processBlockedGo fuel h N).1, N < b.mhe_max_id)
    ∧ (∀ b ∈ (processBlockedGo fuel h N).2, b.mhe_max_id ≤ N) := by
  intro fuel
  induction fuel with
  | zero =>
      intro h N hmh hlen
      have hnil : h = [] := List.length_eq_zero.mp (by omega)
      subst hnil
      rw [processBlockedGo]
      exact ⟨hmh, by simp, fun b hb => by simp at hb, fun b hb => by simp at hb⟩
  | succ fuel ih =>
      intro h N hmh hlen
      rw [processBlockedGo]
      rcases hpop : mh_pop h N with _ | ⟨popped, h2⟩
      · have hall := mh_pop_none_spec h N hmh hpop
        exact ⟨hmh, List.Perm.refl h, fun b hb => hall b hb,
          fun b hb => absurd hb (List.not_mem_nil b)⟩
      · obtain ⟨hple, hmh', hperm⟩ := mh_pop_some_spec h N hmh popped h2 hpop
        have hlen' : h2.length ≤ fuel := by
          have hpe := hperm.length_eq
          simp at hpe
          omega
        have ihh := ih h2 N hmh' hlen'
        refine ⟨ihh.1, ?_, ihh.2.2.1, ?_⟩
        · exact (List.Perm.cons popped ihh.2.1).trans hperm
        · intro b hb
          have hb' : b ∈ popped :: (processBlockedGo fuel h2 N).2 := hb
          rcases List.mem_cons.mp hb' with hb1 | hb2
          · rw [hb1]
            exact hple
          · exact ihh.2.2.2 b hb2

/-- Dropping the oldest entry touches neither the blocked-header heap nor
the insert count nor the risked-stream limit. -/
theorem qdec_drop_frame (dec : Dec) :
    (qdec_drop_oldest_entry dec).qpd_blocked_headers = dec.qpd_blocked_headers
    ∧ (qdec_drop_oldest_entry dec).qpd_ins_count = dec.qpd_ins_count
    ∧ (qdec_drop_oldest_entry dec).qpd_max_risked_streams
        = dec.qpd_max_risked_streams := by
  rw [qdec_drop_oldest_entry]
  rcases dec.qpd_dyn_table with _ | ⟨e, rest⟩
  · exact ⟨rfl, rfl, rfl⟩
  · exact ⟨rfl, rfl, rfl⟩

/-- Overflow removal touches neither the blocked-header heap nor the
insert count nor the risked-stream limit. -/
theorem decRemoveOverflowGo_frame :
    ∀ (fuel : Nat) (dec : Dec),
    (decRemoveOverflowGo fuel dec).qpd_blocked_headers = dec.qpd_blocked_headers
    ∧ (decRemoveOverflowGo fuel dec).qpd_ins_count = dec.qpd_ins_count
    ∧ (decRemoveOverflowGo fuel dec).qpd_max_risked_streams
        = dec.qpd_max_risked_streams := by
  intro fuel
  induction fuel with
  | zero =>
      intro dec
      rw [decRemoveOverflowGo]
      exact ⟨rfl, rfl, rfl⟩
  | succ fuel ih =>
      intro dec
      rw [decRemoveOverflowGo]
      by_cases hover : dec.qpd_cur_capacity > dec.qpd_cur_max_capacity
      · rw [if_pos hover]
        have hd := ih (qdec_drop_oldest_entry dec)
        have hfr := qdec_drop_frame dec
        exact ⟨hd.1.trans hfr.1, hd.2.1.trans hfr.2.1, hd.2.2.trans hfr.2.2⟩
      · rw [if_neg hover]
        exact ⟨rfl, rfl, rfl⟩

/-- `qdec_process_blocked_headers` keeps the insert count and risked-stream
limit, keeps the heap a min-heap, and splits the old heap exactly into the
still-blocked part (keys above the insert count) and the woken part (keys
at most the insert count). -/
theorem qdec_process_blocked_spec (d : Dec)
    (hmh : IsMinHeap d.qpd_blocked_headers) :
    (qdec_process_blocked_headers d).1.qpd_ins_count = d.qpd_ins_count
    ∧ (qdec_process_blocked_headers d).1.qpd_max_risked_streams
        = d.qpd_max_risked_streams
    ∧ IsMinHeap (qdec_process_blocked_headers d).1.qpd_blocked_headers
    ∧ List.Perm ((qdec_process_blocked_headers d).2
          ++ (qdec_process_blocked_headers d).1.qpd_blocked_headers)
        d.qpd_blocked_headers
    ∧ (∀ b ∈ (qdec_process_blocked_headers d).1.qpd_blocked_headers,
        d.qpd_ins_count < b.mhe_max_id)
    ∧ (∀ b ∈ (qdec_process_blocked_headers d).2,
        b.mhe_max_id ≤ d.qpd_ins_count) := by
  have hspec := processBlockedGo_spec d.qpd_blocked_headers.length
    d.qpd_blocked_headers d.qpd_ins_count hmh (le_refl _)
  exact ⟨rfl, rfl, hspec.1, hspec.2.1, hspec.2.2.1, hspec.2.2.2⟩

/-- C6: blocked-stream invariant and wake-up.  Starting from a decoder
whose blocked-header heap is a min-heap of at most
`qpd_max_risked_streams` elements: (a) whatever a header-block read
returns, both `lsqpack_dec_header_in` and `lsqpack_dec_header_read` leave
a min-heap of at most `qpd_max_risked_streams` blocked headers; (b) when
the heap is full, an attempt to block one more stream makes either call
return -1 with the decoder unchanged; (c) an encoder-stream insert via
`lsqpack_dec_push_entry` advances the insert count to
`N = qpd_ins_count + 1` and, before returning, removes from the heap and
wakes (`wantread(stream, 1)`) exactly the blocked headers whose required
insert count is at most `N`, the rest remaining a min-heap within the
limit. -/
theorem dec_blocked_streams (dec : Dec) (stream required : Nat)
    (entry : DecTableEntry) (st : ReadHeaderStatus)
    (hmh : IsMinHeap dec.qpd_blocked_headers)
    (hbound : dec.qpd_blocked_headers.length ≤ dec.qpd_max_risked_streams) :
    ((lsqpack_dec_header_in_dispatch dec stream required st).2.1.qpd_blocked_headers.length
        ≤ (lsqpack_dec_header_in_dispatch dec stream required st).2.1.qpd_max_risked_streams
      ∧ IsMinHeap (lsqpack_dec_header_in_dispatch dec stream required st).2.1.qpd_blocked_headers
      ∧ (lsqpack_dec_header_read_dispatch dec stream required st).2.1.qpd_blocked_headers.length
        ≤ (lsqpack_dec_header_read_dispatch dec stream required st).2.1.qpd_max_risked_streams
      ∧ IsMinHeap (lsqpack_dec_header_read_dispatch dec stream required st).2.1.qpd_blocked_headers)
    ∧ (dec.qpd_blocked_headers.length = dec.qpd_max_risked_streams →
        lsqpack_dec_header_in_dispatch dec stream required ReadHeaderStatus.rhs_blocked
          = (-1, dec, [])
        ∧ lsqpack_dec_header_read_dispatch dec stream required ReadHeaderStatus.rhs_blocked
          = (-1, dec, []))
    ∧ ((lsqpack_dec_push_entry dec entry).1.qpd_ins_count = dec.qpd_ins_count + 1
      ∧ IsMinHeap (lsqpack_dec_push_entry dec entry).1.qpd_blocked_headers
      ∧ (lsqpack_dec_push_entry dec entry).1.qpd_blocked_headers.length
          ≤ (lsqpack_dec_push_entry dec entry).1.qpd_max_risked_streams
      ∧ List.Perm ((lsqpack_dec_push_entry dec entry).2
            ++ (lsqpack_dec_push_entry dec entry).1.qpd_blocked_headers)
          dec.qpd_blocked_headers
      ∧ (∀ b ∈ (lsqpack_dec_push_entry dec entry).1.qpd_blocked_headers,
          dec.qpd_ins_count + 1 < b.mhe_max_id)
      ∧ (∀ b ∈ (lsqpack_dec_push_entry dec entry).2,
          b.mhe_max_id ≤ dec.qpd_ins_count + 1)) := by
  have hstash : (stash_blocked_header dec stream required).2.qpd_blocked_headers.length
      ≤ (stash_blocked_header dec stream required).2.qpd_max_risked_streams
      ∧ IsMinHeap (stash_blocked_header dec stream required).2.qpd_blocked_headers := by
    rw [stash_blocked_header]
    by_cases hfull : dec.qpd_blocked_headers.length ≥ dec.qpd_max_risked_streams
    · rw [if_pos hfull]
      exact ⟨hbound, hmh⟩
    · rw [if_neg hfull]
      have hins := mh_insert_spec dec.qpd_blocked_headers stream required hmh
      have hlen := hins.2.length_eq
      simp at hlen
      refine ⟨?_, ?_⟩
      · show (mh_insert dec.qpd_blocked_headers stream required).length
            ≤ dec.qpd_max_risked_streams
        omega
      · show IsMinHeap (mh_insert dec.qpd_blocked_headers stream required)
        exact hins.1
  have hblk : ∀ s r : Nat,
      (lsqpack_dec_header_in_dispatch dec s r ReadHeaderStatus.rhs_blocked).2.1
        = (stash_blocked_header dec s r).2 := by
    intro s r
    simp only [lsqpack_dec_header_in_dispatch]
    by_cases h0 : (stash_blocked_header dec s r).1 = 0
    · rw [if_pos h0]
    · rw [if_neg h0]
  have hblk' : ∀ s r : Nat,
      (lsqpack_dec_header_read_dispatch dec s r ReadHeaderStatus.rhs_blocked).2.1
        = (stash_blocked_header dec s r).2 := by
    intro s r
    simp only [lsqpack_dec_header_read_dispatch]
    by_cases h0 : (stash_blocked_header dec s r).1 = 0
    · rw [if_pos h0]
    · rw [if_neg h0]
  refine ⟨?_, ?_, ?_⟩
  · cases st with
    | rhs_done => exact ⟨hbound, hmh, hbound, hmh⟩
    | rhs_need => exact ⟨hbound, hmh, hbound, hmh⟩
    | rhs_error => exact ⟨hbound, hmh, hbound, hmh⟩
    | rhs_blocked =>
        rw [hblk stream required, hblk' stream required]
        exact ⟨hstash.1, hstash.2, hstash.1, hstash.2⟩
  · intro hfull
    have hsfull : stash_blocked_header dec stream required = (-1, dec) := by
      rw [stash_blocked_header, if_pos (by omega)]
    constructor
    · simp only [lsqpack_dec_header_in_dispatch, hsfull]
      rw [if_neg (by decide : ¬((-1 : Int) = 0))]
    · simp only [lsqpack_dec_header_read_dispatch, hsfull]
      rw [if_neg (by decide : ¬((-1 : Int) = 0))]
  · have hpe : lsqpack_dec_push_entry dec entry
        = qdec_process_blocked_headers
            (decRemoveOverflowGo ((dec.qpd_dyn_table ++ [entry]).length)
              { dec with
                qpd_dyn_table := dec.qpd_dyn_table ++ [entry]
                qpd_cur_capacity := dec.qpd_cur_capacity + DTE_SIZE entry
                qpd_ins_count := dec.qpd_ins_count + 1 }) := rfl
    have hfr := decRemoveOverflowGo_frame ((dec.qpd_dyn_table ++ [entry]).length)
      { dec with
        qpd_dyn_table := dec.qpd_dyn_table ++ [entry]
        qpd_cur_capacity := dec.qpd_cur_capacity + DTE_SIZE entry
        qpd_ins_count := dec.qpd_ins_count + 1 }
    have hmh2 : IsMinHeap (decRemoveOverflowGo ((dec.qpd_dyn_table ++ [entry]).length)
        { dec with
          qpd_dyn_table := dec.qpd_dyn_table ++ [entry]
          qpd_cur_capacity := dec.qpd_cur_capacity + DTE_SIZE entry
          qpd_ins_count := dec.qpd_ins_count + 1 }).qpd_blocked_headers := by
      rw [hfr.1]
      exact hmh
    have hproc := qdec_process_blocked_spec
      (decRemoveOverflowGo ((dec.qpd_dyn_table ++ [entry]).length)
        { dec with
          qpd_dyn_table := dec.qpd_dyn_table ++ [entry]
          qpd_cur_capacity := dec.qpd_cur_capacity + DTE_SIZE entry
          qpd_ins_count := dec.qpd_ins_count + 1 })
      hmh2
    rw [hpe]
    have hins2 : (decRemoveOverflowGo ((dec.qpd_dyn_table ++ [entry]).length)
        { dec with
          qpd_dyn_table := dec.qpd_dyn_table ++ [entry]
          qpd_cur_capacity := dec.qpd_cur_capacity + DTE_SIZE entry
          qpd_ins_count := dec.qpd_ins_count + 1 }).qpd_ins_count
        = dec.qpd_ins_count + 1 := hfr.2.1
    have hrsk2 : (decRemoveOverflowGo ((dec.qpd_dyn_table ++ [entry]).length)
        { dec with
          qpd_dyn_table := dec.qpd_dyn_table ++ [entry]
          qpd_cur_capacity := dec.qpd_cur_capacity + DTE_SIZE entry
          qpd_ins_count := dec.qpd_ins_count + 1 }).qpd_max_risked_streams
        = dec.qpd_max_risked_streams := hfr.2.2
    have hblocked2 : (decRemoveOverflowGo ((dec.qpd_dyn_table ++ [entry]).length)
        { dec with
          qpd_dyn_table := dec.qpd_dyn_table ++ [entry]
          qpd_cur_capacity := dec.qpd_cur_capacity + DTE_SIZE entry
          qpd_ins_count := dec.qpd_ins_count + 1 }).qpd_blocked_headers
        = dec.qpd_blocked_headers := hfr.1
    rw [hins2, hrsk2, hblocked2] at hproc
    obtain ⟨hi, hr, hm, hp, ha, hw⟩ := hproc
    refine ⟨hi, hm, ?_, hp, fun b hb => ha b hb, fun b hb => hw b hb⟩
    have hplen := hp.length_eq
    rw [List.length_append] at hplen
    rw [hr]
    omega

/-- A concrete decoder: two blocked headers (required ids 2 and 9), a
risked-stream limit of 2, and insert count 1. -/
def decBlockedW : Dec := {
  qpd_max_capacity := 4096
  qpd_cur_max_capacity := 4096
  qpd_cur_capacity := 0
  qpd_ins_count := 1
  qpd_del_count := 1
  qpd_max_risked_streams := 2
  qpd_dyn_table := []
  qpd_blocked_headers := [⟨5, 2⟩, ⟨6, 9⟩]
}

theorem dec_blocked_streams_witness :
    IsMinHeap decBlockedW.qpd_blocked_headers
    ∧ decBlockedW.qpd_blocked_headers.length ≤ decBlockedW.qpd_max_risked_streams
    ∧ (∀ b ∈ (lsqpack_dec_push_entry decBlockedW ⟨['a'], ['b'], 0⟩).2,
        b.mhe_max_id ≤ decBlockedW.qpd_ins_count + 1) := by
  have hmh : IsMinHeap decBlockedW.qpd_blocked_headers := by
    intro i hi h0i
    have hi2 : i < 2 := hi
    match i, h0i, hi2 with
    | 1, _, _ => decide
  exact ⟨hmh, by decide,
    (dec_blocked_streams decBlockedW 7 9 ⟨['a'], ['b'], 0⟩
      ReadHeaderStatus.rhs_blocked hmh (by decide)).2.2.2.2.2.2.2⟩

-- ===================== C2: Huffman codec =====================

/-- `decode_tables[256][16]` from lsqpack.c: for each DFA state and
4-bit input, the next state, the flags byte
(ACCEPTED=0x01, SYM=0x02, FAIL=0x04) and the emitted symbol.  The 256
rows are split into sixteen 16-row chunks. -/
def decode_tables_0 : List (List (Nat × Nat × Nat)) := [
  [(4,0,0),(5,0,0),(7,0,0),(8,0,0),(11,0,0),(12,0,0),(16,0,0),(19,0,0),(25,0,0),(28,0,0),(32,0,0),(35,0,0),(42,0,0),(49,0,0),(57,0,0),(64,1,0)],
  [(0,3,48),(0,3,49),(0,3,50),(0,3,97),(0,3,99),(0,3,101),(0,3,105),(0,3,111),(0,3,115),(0,3,116),(13,0,0),(14,0,0),(17,0,0),(18,0,0),(20,0,0),(21,0,0)],
  [(1,2,48),(22,3,48),(1,2,49),(22,3,49),(1,2,50),(22,3,50),(1,2,97),(22,3,97),(1,2,99),(22,3,99),(1,2,101),(22,3,101),(1,2,105),(22,3,105),(1,2,111),(22,3,111)],
  [(2,2,48),(9,2,48),(23,2,48),(40,3,48),(2,2,49),(9,2,49),(23,2,49),(40,3,49),(2,2,50),(9,2,50),(23,2,50),(40,3,50),(2,2,97),(9,2,97),(23,2,97),(40,3,97)],
  [(3,2,48),(6,2,48),(10,2,48),(15,2,48),(24,2,48),(31,2,48),(41,2,48),(56,3,48),(3,2,49),(6,2,49),(10,2,49),(15,2,49),(24,2,49),(31,2,49),(41,2,49),(56,3,49)],
  [(3,2,50),(6,2,50),(10,2,50),(15,2,50),(24,2,50),(31,2,50),(41,2,50),(56,3,50),(3,2,97),(6,2,97),(10,2,97),(15,2,97),(24,2,97),(31,2,97),(41,2,97),(56,3,97)],
  [(2,2,99),(9,2,99),(23,2,99),(40,3,99),(2,2,101),(9,2,101),(23,2,101),(40,3,101),(2,2,105),(9,2,105),(23,2,105),(40,3,105),(2,2,111),(9,2,111),(23,2,111),(40,3,111)],
  [(3,2,99),(6,2,99),(10,2,99),(15,2,99),(24,2,99),(31,2,99),(41,2,99),(56,3,99),(3,2,101),(6,2,101),(10,2,101),(15,2,101),(24,2,101),(31,2,101),(41,2,101),(56,3,101)],
  [(3,2,105),(6,2,105),(10,2,105),(15,2,105),(24,2,105),(31,2,105),(41,2,105),(56,3,105),(3,2,111),(6,2,111),(10,2,111),(15,2,111),(24,2,111),(31,2,111),(41,2,111),(56,3,111)],
  [(1,2,115),(22,3,115),(1,2,116),(22,3,116),(0,3,32),(0,3,37),(0,3,45),(0,3,46),(0,3,47),(0,3,51),(0,3,52),(0,3,53),(0,3,54),(0,3,55),(0,3,56),(0,3,57)],
  [(2,2,115),(9,2,115),(23,2,115),(40,3,115),(2,2,116),(9,2,116),(23,2,116),(40,3,116),(1,2,32),(22,3,32),(1,2,37),(22,3,37),(1,2,45),(22,3,45),(1,2,46),(22,3,46)],
  [(3,2,115),(6,2,115),(10,2,115),(15,2,115),(24,2,115),(31,2,115),(41,2,115),(56,3,115),(3,2,116),(6,2,116),(10,2,116),(15,2,116),(24,2,116),(31,2,116),(41,2,116),(56,3,116)],
  [(2,2,32),(9,2,32),(23,2,32),(40,3,32),(2,2,37),(9,2,37),(23,2,37),(40,3,37),(2,2,45),(9,2,45),(23,2,45),(40,3,45),(2,2,46),(9,2,46),(23,2,46),(40,3,46)],
  [(3,2,32),(6,2,32),(10,2,32),(15,2,32),(24,2,32),(31,2,32),(41,2,32),(56,3,32),(3,2,37),(6,2,37),(10,2,37),(15,2,37),(24,2,37),(31,2,37),(41,2,37),(56,3,37)],
  [(3,2,45),(6,2,45),(10,2,45),(15,2,45),(24,2,45),(31,2,45),(41,2,45),(56,3,45),(3,2,46),(6,2,46),(10,2,46),(15,2,46),(24,2,46),(31,2,46),(41,2,46),(56,3,46)],
  [(1,2,47),(22,3,47),(1,2,51),(22,3,51),(1,2,52),(22,3,52),(1,2,53),(22,3,53),(1,2,54),(22,3,54),(1,2,55),(22,3,55),(1,2,56),(22,3,56),(1,2,57),(22,3,57)]
]

def decode_tables_1 : List (List (Nat × Nat × Nat)) := [
  [(2,2,47),(9,2,47),(23,2,47),(40,3,47),(2,2,51),(9,2,51),(23,2,51),(40,3,51),(2,2,52),(9,2,52),(23,2,52),(40,3,52),(2,2,53),(9,2,53),(23,2,53),(40,3,53)],
  [(3,2,47),(6,2,47),(10,2,47),(15,2,47),(24,2,47),(31,2,47),(41,2,47),(56,3,47),(3,2,51),(6,2,51),(10,2,51),(15,2,51),(24,2,51),(31,2,51),(41,2,51),(56,3,51)],
  [(3,2,52),(6,2,52),(10,2,52),(15,2,52),(24,2,52),(31,2,52),(41,2,52),(56,3,52),(3,2,53),(6,2,53),(10,2,53),(15,2,53),(24,2,53),(31,2,53),(41,2,53),(56,3,53)],
  [(2,2,54),(9,2,54),(23,2,54),(40,3,54),(2,2,55),(9,2,55),(23,2,55),(40,3,55),(2,2,56),(9,2,56),(23,2,56),(40,3,56),(2,2,57),(9,2,57),(23,2,57),(40,3,57)],
  [(3,2,54),(6,2,54),(10,2,54),(15,2,54),(24,2,54),(31,2,54),(41,2,54),(56,3,54),(3,2,55),(6,2,55),(10,2,55),(15,2,55),(24,2,55),(31,2,55),(41,2,55),(56,3,55)],
  [(3,2,56),(6,2,56),(10,2,56),(15,2,56),(24,2,56),(31,2,56),(41,2,56),(56,3,56),(3,2,57),(6,2,57),(10,2,57),(15,2,57),(24,2,57),(31,2,57),(41,2,57),(56,3,57)],
  [(26,0,0),(27,0,0),(29,0,0),(30,0,0),(33,0,0),(34,0,0),(36,0,0),(37,0,0),(43,0,0),(46,0,0),(50,0,0),(53,0,0),(58,0,0),(61,0,0),(65,0,0),(68,1,0)],
  [(0,3,61),(0,3,65),(0,3,95),(0,3,98),(0,3,100),(0,3,102),(0,3,103),(0,3,104),(0,3,108),(0,3,109),(0,3,110),(0,3,112),(0,3,114),(0,3,117),(38,0,0),(39,0,0)],
  [(1,2,61),(22,3,61),(1,2,65),(22,3,65),(1,2,95),(22,3,95),(1,2,98),(22,3,98),(1,2,100),(22,3,100),(1,2,102),(22,3,102),(1,2,103),(22,3,103),(1,2,104),(22,3,104)],
  [(2,2,61),(9,2,61),(23,2,61),(40,3,61),(2,2,65),(9,2,65),(23,2,65),(40,3,65),(2,2,95),(9,2,95),(23,2,95),(40,3,95),(2,2,98),(9,2,98),(23,2,98),(40,3,98)],
  [(3,2,61),(6,2,61),(10,2,61),(15,2,61),(24,2,61),(31,2,61),(41,2,61),(56,3,61),(3,2,65),(6,2,65),(10,2,65),(15,2,65),(24,2,65),(31,2,65),(41,2,65),(56,3,65)],
  [(3,2,95),(6,2,95),(10,2,95),(15,2,95),(24,2,95),(31,2,95),(41,2,95),(56,3,95),(3,2,98),(6,2,98),(10,2,98),(15,2,98),(24,2,98),(31,2,98),(41,2,98),(56,3,98)],
  [(2,2,100),(9,2,100),(23,2,100),(40,3,100),(2,2,102),(9,2,102),(23,2,102),(40,3,102),(2,2,103),(9,2,103),(23,2,103),(40,3,103),(2,2,104),(9,2,104),(23,2,104),(40,3,104)],
  [(3,2,100),(6,2,100),(10,2,100),(15,2,100),(24,2,100),(31,2,100),(41,2,100),(56,3,100),(3,2,102),(6,2,102),(10,2,102),(15,2,102),(24,2,102),(31,2,102),(41,2,102),(56,3,102)],
  [(3,2,103),(6,2,103),(10,2,103),(15,2,103),(24,2,103),(31,2,103),(41,2,103),(56,3,103),(3,2,104),(6,2,104),(10,2,104),(15,2,104),(24,2,104),(31,2,104),(41,2,104),(56,3,104)],
  [(1,2,108),(22,3,108),(1,2,109),(22,3,109),(1,2,110),(22,3,110),(1,2,112),(22,3,112),(1,2,114),(22,3,114),(1,2,117),(22,3,117),(0,3,58),(0,3,66),(0,3,67),(0,3,68)]
]

def decode_tables_2 : List (List (Nat × Nat × Nat)) := [
  [(2,2,108),(9,2,108),(23,2,108),(40,3,108),(2,2,109),(9,2,109),(23,2,109),(40,3,109),(2,2,110),(9,2,110),(23,2,110),(40,3,110),(2,2,112),(9,2,112),(23,2,112),(40,3,112)],
  [(3,2,108),(6,2,108),(10,2,108),(15,2,108),(24,2,108),(31,2,108),(41,2,108),(56,3,108),(3,2,109),(6,2,109),(10,2,109),(15,2,109),(24,2,109),(31,2,109),(41,2,109),(56,3,109)],
  [(3,2,110),(6,2,110),(10,2,110),(15,2,110),(24,2,110),(31,2,110),(41,2,110),(56,3,110),(3,2,112),(6,2,112),(10,2,112),(15,2,112),(24,2,112),(31,2,112),(41,2,112),(56,3,112)],
  [(2,2,114),(9,2,114),(23,2,114),(40,3,114),(2,2,117),(9,2,117),(23,2,117),(40,3,117),(1,2,58),(22,3,58),(1,2,66),(22,3,66),(1,2,67),(22,3,67),(1,2,68),(22,3,68)],
  [(3,2,114),(6,2,114),(10,2,114),(15,2,114),(24,2,114),(31,2,114),(41,2,114),(56,3,114),(3,2,117),(6,2,117),(10,2,117),(15,2,117),(24,2,117),(31,2,117),(41,2,117),(56,3,117)],
  [(2,2,58),(9,2,58),(23,2,58),(40,3,58),(2,2,66),(9,2,66),(23,2,66),(40,3,66),(2,2,67),(9,2,67),(23,2,67),(40,3,67),(2,2,68),(9,2,68),(23,2,68),(40,3,68)],
  [(3,2,58),(6,2,58),(10,2,58),(15,2,58),(24,2,58),(31,2,58),(41,2,58),(56,3,58),(3,2,66),(6,2,66),(10,2,66),(15,2,66),(24,2,66),(31,2,66),(41,2,66),(56,3,66)],
  [(3,2,67),(6,2,67),(10,2,67),(15,2,67),(24,2,67),(31,2,67),(41,2,67),(56,3,67),(3,2,68),(6,2,68),(10,2,68),(15,2,68),(24,2,68),(31,2,68),(41,2,68),(56,3,68)],
  [(44,0,0),(45,0,0),(47,0,0),(48,0,0),(51,0,0),(52,0,0),(54,0,0),(55,0,0),(59,0,0),(60,0,0),(62,0,0),(63,0,0),(66,0,0),(67,0,0),(69,0,0),(72,1,0)],
  [(0,3,69),(0,3,70),(0,3,71),(0,3,72),(0,3,73),(0,3,74),(0,3,75),(0,3,76),(0,3,77),(0,3,78),(0,3,79),(0,3,80),(0,3,81),(0,3,82),(0,3,83),(0,3,84)],
  [(1,2,69),(22,3,69),(1,2,70),(22,3,70),(1,2,71),(22,3,71),(1,2,72),(22,3,72),(1,2,73),(22,3,73),(1,2,74),(22,3,74),(1,2,75),(22,3,75),(1,2,76),(22,3,76)],
  [(2,2,69),(9,2,69),(23,2,69),(40,3,69),(2,2,70),(9,2,70),(23,2,70),(40,3,70),(2,2,71),(9,2,71),(23,2,71),(40,3,71),(2,2,72),(9,2,72),(23,2,72),(40,3,72)],
  [(3,2,69),(6,2,69),(10,2,69),(15,2,69),(24,2,69),(31,2,69),(41,2,69),(56,3,69),(3,2,70),(6,2,70),(10,2,70),(15,2,70),(24,2,70),(31,2,70),(41,2,70),(56,3,70)],
  [(3,2,71),(6,2,71),(10,2,71),(15,2,71),(24,2,71),(31,2,71),(41,2,71),(56,3,71),(3,2,72),(6,2,72),(10,2,72),(15,2,72),(24,2,72),(31,2,72),(41,2,72),(56,3,72)],
  [(2,2,73),(9,2,73),(23,2,73),(40,3,73),(2,2,74),(9,2,74),(23,2,74),(40,3,74),(2,2,75),(9,2,75),(23,2,75),(40,3,75),(2,2,76),(9,2,76),(23,2,76),(40,3,76)],
  [(3,2,73),(6,2,73),(10,2,73),(15,2,73),(24,2,73),(31,2,73),(41,2,73),(56,3,73),(3,2,74),(6,2,74),(10,2,74),(15,2,74),(24,2,74),(31,2,74),(41,2,74),(56,3,74)]
]

def decode_tables_3 : List (List (Nat × Nat × Nat)) := [
  [(3,2,75),(6,2,75),(10,2,75),(15,2,75),(24,2,75),(31,2,75),(41,2,75),(56,3,75),(3,2,76),(6,2,76),(10,2,76),(15,2,76),(24,2,76),(31,2,76),(41,2,76),(56,3,76)],
  [(1,2,77),(22,3,77),(1,2,78),(22,3,78),(1,2,79),(22,3,79),(1,2,80),(22,3,80),(1,2,81),(22,3,81),(1,2,82),(22,3,82),(1,2,83),(22,3,83),(1,2,84),(22,3,84)],
  [(2,2,77),(9,2,77),(23,2,77),(40,3,77),(2,2,78),(9,2,78),(23,2,78),(40,3,78),(2,2,79),(9,2,79),(23,2,79),(40,3,79),(2,2,80),(9,2,80),(23,2,80),(40,3,80)],
  [(3,2,77),(6,2,77),(10,2,77),(15,2,77),(24,2,77),(31,2,77),(41,2,77),(56,3,77),(3,2,78),(6,2,78),(10,2,78),(15,2,78),(24,2,78),(31,2,78),(41,2,78),(56,3,78)],
  [(3,2,79),(6,2,79),(10,2,79),(15,2,79),(24,2,79),(31,2,79),(41,2,79),(56,3,79),(3,2,80),(6,2,80),(10,2,80),(15,2,80),(24,2,80),(31,2,80),(41,2,80),(56,3,80)],
  [(2,2,81),(9,2,81),(23,2,81),(40,3,81),(2,2,82),(9,2,82),(23,2,82),(40,3,82),(2,2,83),(9,2,83),(23,2,83),(40,3,83),(2,2,84),(9,2,84),(23,2,84),(40,3,84)],
  [(3,2,81),(6,2,81),(10,2,81),(15,2,81),(24,2,81),(31,2,81),(41,2,81),(56,3,81),(3,2,82),(6,2,82),(10,2,82),(15,2,82),(24,2,82),(31,2,82),(41,2,82),(56,3,82)],
  [(3,2,83),(6,2,83),(10,2,83),(15,2,83),(24,2,83),(31,2,83),(41,2,83),(56,3,83),(3,2,84),(6,2,84),(10,2,84),(15,2,84),(24,2,84),(31,2,84),(41,2,84),(56,3,84)],
  [(0,3,85),(0,3,86),(0,3,87),(0,3,89),(0,3,106),(0,3,107),(0,3,113),(0,3,118),(0,3,119),(0,3,120),(0,3,121),(0,3,122),(70,0,0),(71,0,0),(73,0,0),(74,1,0)],
  [(1,2,85),(22,3,85),(1,2,86),(22,3,86),(1,2,87),(22,3,87),(1,2,89),(22,3,89),(1,2,106),(22,3,106),(1,2,107),(22,3,107),(1,2,113),(22,3,113),(1,2,118),(22,3,118)],
  [(2,2,85),(9,2,85),(23,2,85),(40,3,85),(2,2,86),(9,2,86),(23,2,86),(40,3,86),(2,2,87),(9,2,87),(23,2,87),(40,3,87),(2,2,89),(9,2,89),(23,2,89),(40,3,89)],
  [(3,2,85),(6,2,85),(10,2,85),(15,2,85),(24,2,85),(31,2,85),(41,2,85),(56,3,85),(3,2,86),(6,2,86),(10,2,86),(15,2,86),(24,2,86),(31,2,86),(41,2,86),(56,3,86)],
  [(3,2,87),(6,2,87),(10,2,87),(15,2,87),(24,2,87),(31,2,87),(41,2,87),(56,3,87),(3,2,89),(6,2,89),(10,2,89),(15,2,89),(24,2,89),(31,2,89),(41,2,89),(56,3,89)],
  [(2,2,106),(9,2,106),(23,2,106),(40,3,106),(2,2,107),(9,2,107),(23,2,107),(40,3,107),(2,2,113),(9,2,113),(23,2,113),(40,3,113),(2,2,118),(9,2,118),(23,2,118),(40,3,118)],
  [(3,2,106),(6,2,106),(10,2,106),(15,2,106),(24,2,106),(31,2,106),(41,2,106),(56,3,106),(3,2,107),(6,2,107),(10,2,107),(15,2,107),(24,2,107),(31,2,107),(41,2,107),(56,3,107)],
  [(3,2,113),(6,2,113),(10,2,113),(15,2,113),(24,2,113),(31,2,113),(41,2,113),(56,3,113),(3,2,118),(6,2,118),(10,2,118),(15,2,118),(24,2,118),(31,2,118),(41,2,118),(56,3,118)]
]

def decode_tables_4 : List (List (Nat × Nat × Nat)) := [
  [(1,2,119),(22,3,119),(1,2,120),(22,3,120),(1,2,121),(22,3,121),(1,2,122),(22,3,122),(0,3,38),(0,3,42),(0,3,44),(0,3,59),(0,3,88),(0,3,90),(75,0,0),(78,0,0)],
  [(2,2,119),(9,2,119),(23,2,119),(40,3,119),(2,2,120),(9,2,120),(23,2,120),(40,3,120),(2,2,121),(9,2,121),(23,2,121),(40,3,121),(2,2,122),(9,2,122),(23,2,122),(40,3,122)],
  [(3,2,119),(6,2,119),(10,2,119),(15,2,119),(24,2,119),(31,2,119),(41,2,119),(56,3,119),(3,2,120),(6,2,120),(10,2,120),(15,2,120),(24,2,120),(31,2,120),(41,2,120),(56,3,120)],
  [(3,2,121),(6,2,121),(10,2,121),(15,2,121),(24,2,121),(31,2,121),(41,2,121),(56,3,121),(3,2,122),(6,2,122),(10,2,122),(15,2,122),(24,2,122),(31,2,122),(41,2,122),(56,3,122)],
  [(1,2,38),(22,3,38),(1,2,42),(22,3,42),(1,2,44),(22,3,44),(1,2,59),(22,3,59),(1,2,88),(22,3,88),(1,2,90),(22,3,90),(76,0,0),(77,0,0),(79,0,0),(81,0,0)],
  [(2,2,38),(9,2,38),(23,2,38),(40,3,38),(2,2,42),(9,2,42),(23,2,42),(40,3,42),(2,2,44),(9,2,44),(23,2,44),(40,3,44),(2,2,59),(9,2,59),(23,2,59),(40,3,59)],
  [(3,2,38),(6,2,38),(10,2,38),(15,2,38),(24,2,38),(31,2,38),(41,2,38),(56,3,38),(3,2,42),(6,2,42),(10,2,42),(15,2,42),(24,2,42),(31,2,42),(41,2,42),(56,3,42)],
  [(3,2,44),(6,2,44),(10,2,44),(15,2,44),(24,2,44),(31,2,44),(41,2,44),(56,3,44),(3,2,59),(6,2,59),(10,2,59),(15,2,59),(24,2,59),(31,2,59),(41,2,59),(56,3,59)],
  [(2,2,88),(9,2,88),(23,2,88),(40,3,88),(2,2,90),(9,2,90),(23,2,90),(40,3,90),(0,3,33),(0,3,34),(0,3,40),(0,3,41),(0,3,63),(80,0,0),(82,0,0),(84,0,0)],
  [(3,2,88),(6,2,88),(10,2,88),(15,2,88),(24,2,88),(31,2,88),(41,2,88),(56,3,88),(3,2,90),(6,2,90),(10,2,90),(15,2,90),(24,2,90),(31,2,90),(41,2,90),(56,3,90)],
  [(1,2,33),(22,3,33),(1,2,34),(22,3,34),(1,2,40),(22,3,40),(1,2,41),(22,3,41),(1,2,63),(22,3,63),(0,3,39),(0,3,43),(0,3,124),(83,0,0),(85,0,0),(88,0,0)],
  [(2,2,33),(9,2,33),(23,2,33),(40,3,33),(2,2,34),(9,2,34),(23,2,34),(40,3,34),(2,2,40),(9,2,40),(23,2,40),(40,3,40),(2,2,41),(9,2,41),(23,2,41),(40,3,41)],
  [(3,2,33),(6,2,33),(10,2,33),(15,2,33),(24,2,33),(31,2,33),(41,2,33),(56,3,33),(3,2,34),(6,2,34),(10,2,34),(15,2,34),(24,2,34),(31,2,34),(41,2,34),(56,3,34)],
  [(3,2,40),(6,2,40),(10,2,40),(15,2,40),(24,2,40),(31,2,40),(41,2,40),(56,3,40),(3,2,41),(6,2,41),(10,2,41),(15,2,41),(24,2,41),(31,2,41),(41,2,41),(56,3,41)],
  [(2,2,63),(9,2,63),(23,2,63),(40,3,63),(1,2,39),(22,3,39),(1,2,43),(22,3,43),(1,2,124),(22,3,124),(0,3,35),(0,3,62),(86,0,0),(87,0,0),(89,0,0),(90,0,0)],
  [(3,2,63),(6,2,63),(10,2,63),(15,2,63),(24,2,63),(31,2,63),(41,2,63),(56,3,63),(2,2,39),(9,2,39),(23,2,39),(40,3,39),(2,2,43),(9,2,43),(23,2,43),(40,3,43)]
]

def decode_tables_5 : List (List (Nat × Nat × Nat)) := [
  [(3,2,39),(6,2,39),(10,2,39),(15,2,39),(24,2,39),(31,2,39),(41,2,39),(56,3,39),(3,2,43),(6,2,43),(10,2,43),(15,2,43),(24,2,43),(31,2,43),(41,2,43),(56,3,43)],
  [(2,2,124),(9,2,124),(23,2,124),(40,3,124),(1,2,35),(22,3,35),(1,2,62),(22,3,62),(0,3,0),(0,3,36),(0,3,64),(0,3,91),(0,3,93),(0,3,126),(91,0,0),(92,0,0)],
  [(3,2,124),(6,2,124),(10,2,124),(15,2,124),(24,2,124),(31,2,124),(41,2,124),(56,3,124),(2,2,35),(9,2,35),(23,2,35),(40,3,35),(2,2,62),(9,2,62),(23,2,62),(40,3,62)],
  [(3,2,35),(6,2,35),(10,2,35),(15,2,35),(24,2,35),(31,2,35),(41,2,35),(56,3,35),(3,2,62),(6,2,62),(10,2,62),(15,2,62),(24,2,62),(31,2,62),(41,2,62),(56,3,62)],
  [(1,2,0),(22,3,0),(1,2,36),(22,3,36),(1,2,64),(22,3,64),(1,2,91),(22,3,91),(1,2,93),(22,3,93),(1,2,126),(22,3,126),(0,3,94),(0,3,125),(93,0,0),(94,0,0)],
  [(2,2,0),(9,2,0),(23,2,0),(40,3,0),(2,2,36),(9,2,36),(23,2,36),(40,3,36),(2,2,64),(9,2,64),(23,2,64),(40,3,64),(2,2,91),(9,2,91),(23,2,91),(40,3,91)],
  [(3,2,0),(6,2,0),(10,2,0),(15,2,0),(24,2,0),(31,2,0),(41,2,0),(56,3,0),(3,2,36),(6,2,36),(10,2,36),(15,2,36),(24,2,36),(31,2,36),(41,2,36),(56,3,36)],
  [(3,2,64),(6,2,64),(10,2,64),(15,2,64),(24,2,64),(31,2,64),(41,2,64),(56,3,64),(3,2,91),(6,2,91),(10,2,91),(15,2,91),(24,2,91),(31,2,91),(41,2,91),(56,3,91)],
  [(2,2,93),(9,2,93),(23,2,93),(40,3,93),(2,2,126),(9,2,126),(23,2,126),(40,3,126),(1,2,94),(22,3,94),(1,2,125),(22,3,125),(0,3,60),(0,3,96),(0,3,123),(95,0,0)],
  [(3,2,93),(6,2,93),(10,2,93),(15,2,93),(24,2,93),(31,2,93),(41,2,93),(56,3,93),(3,2,126),(6,2,126),(10,2,126),(15,2,126),(24,2,126),(31,2,126),(41,2,126),(56,3,126)],
  [(2,2,94),(9,2,94),(23,2,94),(40,3,94),(2,2,125),(9,2,125),(23,2,125),(40,3,125),(1,2,60),(22,3,60),(1,2,96),(22,3,96),(1,2,123),(22,3,123),(96,0,0),(110,0,0)],
  [(3,2,94),(6,2,94),(10,2,94),(15,2,94),(24,2,94),(31,2,94),(41,2,94),(56,3,94),(3,2,125),(6,2,125),(10,2,125),(15,2,125),(24,2,125),(31,2,125),(41,2,125),(56,3,125)],
  [(2,2,60),(9,2,60),(23,2,60),(40,3,60),(2,2,96),(9,2,96),(23,2,96),(40,3,96),(2,2,123),(9,2,123),(23,2,123),(40,3,123),(97,0,0),(101,0,0),(111,0,0),(133,0,0)],
  [(3,2,60),(6,2,60),(10,2,60),(15,2,60),(24,2,60),(31,2,60),(41,2,60),(56,3,60),(3,2,96),(6,2,96),(10,2,96),(15,2,96),(24,2,96),(31,2,96),(41,2,96),(56,3,96)],
  [(3,2,123),(6,2,123),(10,2,123),(15,2,123),(24,2,123),(31,2,123),(41,2,123),(56,3,123),(98,0,0),(99,0,0),(102,0,0),(105,0,0),(112,0,0),(119,0,0),(134,0,0),(153,0,0)],
  [(0,3,92),(0,3,195),(0,3,208),(100,0,0),(103,0,0),(104,0,0),(106,0,0),(107,0,0),(113,0,0),(116,0,0),(120,0,0),(126,0,0),(135,0,0),(142,0,0),(154,0,0),(169,0,0)]
]

def decode_tables_6 : List (List (Nat × Nat × Nat)) := [
  [(1,2,92),(22,3,92),(1,2,195),(22,3,195),(1,2,208),(22,3,208),(0,3,128),(0,3,130),(0,3,131),(0,3,162),(0,3,184),(0,3,194),(0,3,224),(0,3,226),(108,0,0),(109,0,0)],
  [(2,2,92),(9,2,92),(23,2,92),(40,3,92),(2,2,195),(9,2,195),(23,2,195),(40,3,195),(2,2,208),(9,2,208),(23,2,208),(40,3,208),(1,2,128),(22,3,128),(1,2,130),(22,3,130)],
  [(3,2,92),(6,2,92),(10,2,92),(15,2,92),(24,2,92),(31,2,92),(41,2,92),(56,3,92),(3,2,195),(6,2,195),(10,2,195),(15,2,195),(24,2,195),(31,2,195),(41,2,195),(56,3,195)],
  [(3,2,208),(6,2,208),(10,2,208),(15,2,208),(24,2,208),(31,2,208),(41,2,208),(56,3,208),(2,2,128),(9,2,128),(23,2,128),(40,3,128),(2,2,130),(9,2,130),(23,2,130),(40,3,130)],
  [(3,2,128),(6,2,128),(10,2,128),(15,2,128),(24,2,128),(31,2,128),(41,2,128),(56,3,128),(3,2,130),(6,2,130),(10,2,130),(15,2,130),(24,2,130),(31,2,130),(41,2,130),(56,3,130)],
  [(1,2,131),(22,3,131),(1,2,162),(22,3,162),(1,2,184),(22,3,184),(1,2,194),(22,3,194),(1,2,224),(22,3,224),(1,2,226),(22,3,226),(0,3,153),(0,3,161),(0,3,167),(0,3,172)],
  [(2,2,131),(9,2,131),(23,2,131),(40,3,131),(2,2,162),(9,2,162),(23,2,162),(40,3,162),(2,2,184),(9,2,184),(23,2,184),(40,3,184),(2,2,194),(9,2,194),(23,2,194),(40,3,194)],
  [(3,2,131),(6,2,131),(10,2,131),(15,2,131),(24,2,131),(31,2,131),(41,2,131),(56,3,131),(3,2,162),(6,2,162),(10,2,162),(15,2,162),(24,2,162),(31,2,162),(41,2,162),(56,3,162)],
  [(3,2,184),(6,2,184),(10,2,184),(15,2,184),(24,2,184),(31,2,184),(41,2,184),(56,3,184),(3,2,194),(6,2,194),(10,2,194),(15,2,194),(24,2,194),(31,2,194),(41,2,194),(56,3,194)],
  [(2,2,224),(9,2,224),(23,2,224),(40,3,224),(2,2,226),(9,2,226),(23,2,226),(40,3,226),(1,2,153),(22,3,153),(1,2,161),(22,3,161),(1,2,167),(22,3,167),(1,2,172),(22,3,172)],
  [(3,2,224),(6,2,224),(10,2,224),(15,2,224),(24,2,224),(31,2,224),(41,2,224),(56,3,224),(3,2,226),(6,2,226),(10,2,226),(15,2,226),(24,2,226),(31,2,226),(41,2,226),(56,3,226)],
  [(2,2,153),(9,2,153),(23,2,153),(40,3,153),(2,2,161),(9,2,161),(23,2,161),(40,3,161),(2,2,167),(9,2,167),(23,2,167),(40,3,167),(2,2,172),(9,2,172),(23,2,172),(40,3,172)],
  [(3,2,153),(6,2,153),(10,2,153),(15,2,153),(24,2,153),(31,2,153),(41,2,153),(56,3,153),(3,2,161),(6,2,161),(10,2,161),(15,2,161),(24,2,161),(31,2,161),(41,2,161),(56,3,161)],
  [(3,2,167),(6,2,167),(10,2,167),(15,2,167),(24,2,167),(31,2,167),(41,2,167),(56,3,167),(3,2,172),(6,2,172),(10,2,172),(15,2,172),(24,2,172),(31,2,172),(41,2,172),(56,3,172)],
  [(114,0,0),(115,0,0),(117,0,0),(118,0,0),(121,0,0),(123,0,0),(127,0,0),(130,0,0),(136,0,0),(139,0,0),(143,0,0),(146,0,0),(155,0,0),(162,0,0),(170,0,0),(180,0,0)],
  [(0,3,176),(0,3,177),(0,3,179),(0,3,209),(0,3,216),(0,3,217),(0,3,227),(0,3,229),(0,3,230),(122,0,0),(124,0,0),(125,0,0),(128,0,0),(129,0,0),(131,0,0),(132,0,0)]
]

def decode_tables_7 : List (List (Nat × Nat × Nat)) := [
  [(1,2,176),(22,3,176),(1,2,177),(22,3,177),(1,2,179),(22,3,179),(1,2,209),(22,3,209),(1,2,216),(22,3,216),(1,2,217),(22,3,217),(1,2,227),(22,3,227),(1,2,229),(22,3,229)],
  [(2,2,176),(9,2,176),(23,2,176),(40,3,176),(2,2,177),(9,2,177),(23,2,177),(40,3,177),(2,2,179),(9,2,179),(23,2,179),(40,3,179),(2,2,209),(9,2,209),(23,2,209),(40,3,209)],
  [(3,2,176),(6,2,176),(10,2,176),(15,2,176),(24,2,176),(31,2,176),(41,2,176),(56,3,176),(3,2,177),(6,2,177),(10,2,177),(15,2,177),(24,2,177),(31,2,177),(41,2,177),(56,3,177)],
  [(3,2,179),(6,2,179),(10,2,179),(15,2,179),(24,2,179),(31,2,179),(41,2,179),(56,3,179),(3,2,209),(6,2,209),(10,2,209),(15,2,209),(24,2,209),(31,2,209),(41,2,209),(56,3,209)],
  [(2,2,216),(9,2,216),(23,2,216),(40,3,216),(2,2,217),(9,2,217),(23,2,217),(40,3,217),(2,2,227),(9,2,227),(23,2,227),(40,3,227),(2,2,229),(9,2,229),(23,2,229),(40,3,229)],
  [(3,2,216),(6,2,216),(10,2,216),(15,2,216),(24,2,216),(31,2,216),(41,2,216),(56,3,216),(3,2,217),(6,2,217),(10,2,217),(15,2,217),(24,2,217),(31,2,217),(41,2,217),(56,3,217)],
  [(3,2,227),(6,2,227),(10,2,227),(15,2,227),(24,2,227),(31,2,227),(41,2,227),(56,3,227),(3,2,229),(6,2,229),(10,2,229),(15,2,229),(24,2,229),(31,2,229),(41,2,229),(56,3,229)],
  [(1,2,230),(22,3,230),(0,3,129),(0,3,132),(0,3,133),(0,3,134),(0,3,136),(0,3,146),(0,3,154),(0,3,156),(0,3,160),(0,3,163),(0,3,164),(0,3,169),(0,3,170),(0,3,173)],
  [(2,2,230),(9,2,230),(23,2,230),(40,3,230),(1,2,129),(22,3,129),(1,2,132),(22,3,132),(1,2,133),(22,3,133),(1,2,134),(22,3,134),(1,2,136),(22,3,136),(1,2,146),(22,3,146)],
  [(3,2,230),(6,2,230),(10,2,230),(15,2,230),(24,2,230),(31,2,230),(41,2,230),(56,3,230),(2,2,129),(9,2,129),(23,2,129),(40,3,129),(2,2,132),(9,2,132),(23,2,132),(40,3,132)],
  [(3,2,129),(6,2,129),(10,2,129),(15,2,129),(24,2,129),(31,2,129),(41,2,129),(56,3,129),(3,2,132),(6,2,132),(10,2,132),(15,2,132),(24,2,132),(31,2,132),(41,2,132),(56,3,132)],
  [(2,2,133),(9,2,133),(23,2,133),(40,3,133),(2,2,134),(9,2,134),(23,2,134),(40,3,134),(2,2,136),(9,2,136),(23,2,136),(40,3,136),(2,2,146),(9,2,146),(23,2,146),(40,3,146)],
  [(3,2,133),(6,2,133),(10,2,133),(15,2,133),(24,2,133),(31,2,133),(41,2,133),(56,3,133),(3,2,134),(6,2,134),(10,2,134),(15,2,134),(24,2,134),(31,2,134),(41,2,134),(56,3,134)],
  [(3,2,136),(6,2,136),(10,2,136),(15,2,136),(24,2,136),(31,2,136),(41,2,136),(56,3,136),(3,2,146),(6,2,146),(10,2,146),(15,2,146),(24,2,146),(31,2,146),(41,2,146),(56,3,146)],
  [(1,2,154),(22,3,154),(1,2,156),(22,3,156),(1,2,160),(22,3,160),(1,2,163),(22,3,163),(1,2,164),(22,3,164),(1,2,169),(22,3,169),(1,2,170),(22,3,170),(1,2,173),(22,3,173)],
  [(2,2,154),(9,2,154),(23,2,154),(40,3,154),(2,2,156),(9,2,156),(23,2,156),(40,3,156),(2,2,160),(9,2,160),(23,2,160),(40,3,160),(2,2,163),(9,2,163),(23,2,163),(40,3,163)]
]

def decode_tables_8 : List (List (Nat × Nat × Nat)) := [
  [(3,2,154),(6,2,154),(10,2,154),(15,2,154),(24,2,154),(31,2,154),(41,2,154),(56,3,154),(3,2,156),(6,2,156),(10,2,156),(15,2,156),(24,2,156),(31,2,156),(41,2,156),(56,3,156)],
  [(3,2,160),(6,2,160),(10,2,160),(15,2,160),(24,2,160),(31,2,160),(41,2,160),(56,3,160),(3,2,163),(6,2,163),(10,2,163),(15,2,163),(24,2,163),(31,2,163),(41,2,163),(56,3,163)],
  [(2,2,164),(9,2,164),(23,2,164),(40,3,164),(2,2,169),(9,2,169),(23,2,169),(40,3,169),(2,2,170),(9,2,170),(23,2,170),(40,3,170),(2,2,173),(9,2,173),(23,2,173),(40,3,173)],
  [(3,2,164),(6,2,164),(10,2,164),(15,2,164),(24,2,164),(31,2,164),(41,2,164),(56,3,164),(3,2,169),(6,2,169),(10,2,169),(15,2,169),(24,2,169),(31,2,169),(41,2,169),(56,3,169)],
  [(3,2,170),(6,2,170),(10,2,170),(15,2,170),(24,2,170),(31,2,170),(41,2,170),(56,3,170),(3,2,173),(6,2,173),(10,2,173),(15,2,173),(24,2,173),(31,2,173),(41,2,173),(56,3,173)],
  [(137,0,0),(138,0,0),(140,0,0),(141,0,0),(144,0,0),(145,0,0),(147,0,0),(150,0,0),(156,0,0),(159,0,0),(163,0,0),(166,0,0),(171,0,0),(174,0,0),(181,0,0),(190,0,0)],
  [(0,3,178),(0,3,181),(0,3,185),(0,3,186),(0,3,187),(0,3,189),(0,3,190),(0,3,196),(0,3,198),(0,3,228),(0,3,232),(0,3,233),(148,0,0),(149,0,0),(151,0,0),(152,0,0)],
  [(1,2,178),(22,3,178),(1,2,181),(22,3,181),(1,2,185),(22,3,185),(1,2,186),(22,3,186),(1,2,187),(22,3,187),(1,2,189),(22,3,189),(1,2,190),(22,3,190),(1,2,196),(22,3,196)],
  [(2,2,178),(9,2,178),(23,2,178),(40,3,178),(2,2,181),(9,2,181),(23,2,181),(40,3,181),(2,2,185),(9,2,185),(23,2,185),(40,3,185),(2,2,186),(9,2,186),(23,2,186),(40,3,186)],
  [(3,2,178),(6,2,178),(10,2,178),(15,2,178),(24,2,178),(31,2,178),(41,2,178),(56,3,178),(3,2,181),(6,2,181),(10,2,181),(15,2,181),(24,2,181),(31,2,181),(41,2,181),(56,3,181)],
  [(3,2,185),(6,2,185),(10,2,185),(15,2,185),(24,2,185),(31,2,185),(41,2,185),(56,3,185),(3,2,186),(6,2,186),(10,2,186),(15,2,186),(24,2,186),(31,2,186),(41,2,186),(56,3,186)],
  [(2,2,187),(9,2,187),(23,2,187),(40,3,187),(2,2,189),(9,2,189),(23,2,189),(40,3,189),(2,2,190),(9,2,190),(23,2,190),(40,3,190),(2,2,196),(9,2,196),(23,2,196),(40,3,196)],
  [(3,2,187),(6,2,187),(10,2,187),(15,2,187),(24,2,187),(31,2,187),(41,2,187),(56,3,187),(3,2,189),(6,2,189),(10,2,189),(15,2,189),(24,2,189),(31,2,189),(41,2,189),(56,3,189)],
  [(3,2,190),(6,2,190),(10,2,190),(15,2,190),(24,2,190),(31,2,190),(41,2,190),(56,3,190),(3,2,196),(6,2,196),(10,2,196),(15,2,196),(24,2,196),(31,2,196),(41,2,196),(56,3,196)],
  [(1,2,198),(22,3,198),(1,2,228),(22,3,228),(1,2,232),(22,3,232),(1,2,233),(22,3,233),(0,3,1),(0,3,135),(0,3,137),(0,3,138),(0,3,139),(0,3,140),(0,3,141),(0,3,143)],
  [(2,2,198),(9,2,198),(23,2,198),(40,3,198),(2,2,228),(9,2,228),(23,2,228),(40,3,228),(2,2,232),(9,2,232),(23,2,232),(40,3,232),(2,2,233),(9,2,233),(23,2,233),(40,3,233)]
]

def decode_tables_9 : List (List (Nat × Nat × Nat)) := [
  [(3,2,198),(6,2,198),(10,2,198),(15,2,198),(24,2,198),(31,2,198),(41,2,198),(56,3,198),(3,2,228),(6,2,228),(10,2,228),(15,2,228),(24,2,228),(31,2,228),(41,2,228),(56,3,228)],
  [(3,2,232),(6,2,232),(10,2,232),(15,2,232),(24,2,232),(31,2,232),(41,2,232),(56,3,232),(3,2,233),(6,2,233),(10,2,233),(15,2,233),(24,2,233),(31,2,233),(41,2,233),(56,3,233)],
  [(1,2,1),(22,3,1),(1,2,135),(22,3,135),(1,2,137),(22,3,137),(1,2,138),(22,3,138),(1,2,139),(22,3,139),(1,2,140),(22,3,140),(1,2,141),(22,3,141),(1,2,143),(22,3,143)],
  [(2,2,1),(9,2,1),(23,2,1),(40,3,1),(2,2,135),(9,2,135),(23,2,135),(40,3,135),(2,2,137),(9,2,137),(23,2,137),(40,3,137),(2,2,138),(9,2,138),(23,2,138),(40,3,138)],
  [(3,2,1),(6,2,1),(10,2,1),(15,2,1),(24,2,1),(31,2,1),(41,2,1),(56,3,1),(3,2,135),(6,2,135),(10,2,135),(15,2,135),(24,2,135),(31,2,135),(41,2,135),(56,3,135)],
  [(3,2,137),(6,2,137),(10,2,137),(15,2,137),(24,2,137),(31,2,137),(41,2,137),(56,3,137),(3,2,138),(6,2,138),(10,2,138),(15,2,138),(24,2,138),(31,2,138),(41,2,138),(56,3,138)],
  [(2,2,139),(9,2,139),(23,2,139),(40,3,139),(2,2,140),(9,2,140),(23,2,140),(40,3,140),(2,2,141),(9,2,141),(23,2,141),(40,3,141),(2,2,143),(9,2,143),(23,2,143),(40,3,143)],
  [(3,2,139),(6,2,139),(10,2,139),(15,2,139),(24,2,139),(31,2,139),(41,2,139),(56,3,139),(3,2,140),(6,2,140),(10,2,140),(15,2,140),(24,2,140),(31,2,140),(41,2,140),(56,3,140)],
  [(3,2,141),(6,2,141),(10,2,141),(15,2,141),(24,2,141),(31,2,141),(41,2,141),(56,3,141),(3,2,143),(6,2,143),(10,2,143),(15,2,143),(24,2,143),(31,2,143),(41,2,143),(56,3,143)],
  [(157,0,0),(158,0,0),(160,0,0),(161,0,0),(164,0,0),(165,0,0),(167,0,0),(168,0,0),(172,0,0),(173,0,0),(175,0,0),(177,0,0),(182,0,0),(185,0,0),(191,0,0),(207,0,0)],
  [(0,3,147),(0,3,149),(0,3,150),(0,3,151),(0,3,152),(0,3,155),(0,3,157),(0,3,158),(0,3,165),(0,3,166),(0,3,168),(0,3,174),(0,3,175),(0,3,180),(0,3,182),(0,3,183)],
  [(1,2,147),(22,3,147),(1,2,149),(22,3,149),(1,2,150),(22,3,150),(1,2,151),(22,3,151),(1,2,152),(22,3,152),(1,2,155),(22,3,155),(1,2,157),(22,3,157),(1,2,158),(22,3,158)],
  [(2,2,147),(9,2,147),(23,2,147),(40,3,147),(2,2,149),(9,2,149),(23,2,149),(40,3,149),(2,2,150),(9,2,150),(23,2,150),(40,3,150),(2,2,151),(9,2,151),(23,2,151),(40,3,151)],
  [(3,2,147),(6,2,147),(10,2,147),(15,2,147),(24,2,147),(31,2,147),(41,2,147),(56,3,147),(3,2,149),(6,2,149),(10,2,149),(15,2,149),(24,2,149),(31,2,149),(41,2,149),(56,3,149)],
  [(3,2,150),(6,2,150),(10,2,150),(15,2,150),(24,2,150),(31,2,150),(41,2,150),(56,3,150),(3,2,151),(6,2,151),(10,2,151),(15,2,151),(24,2,151),(31,2,151),(41,2,151),(56,3,151)],
  [(2,2,152),(9,2,152),(23,2,152),(40,3,152),(2,2,155),(9,2,155),(23,2,155),(40,3,155),(2,2,157),(9,2,157),(23,2,157),(40,3,157),(2,2,158),(9,2,158),(23,2,158),(40,3,158)]
]

def decode_tables_10 : List (List (Nat × Nat × Nat)) := [
  [(3,2,152),(6,2,152),(10,2,152),(15,2,152),(24,2,152),(31,2,152),(41,2,152),(56,3,152),(3,2,155),(6,2,155),(10,2,155),(15,2,155),(24,2,155),(31,2,155),(41,2,155),(56,3,155)],
  [(3,2,157),(6,2,157),(10,2,157),(15,2,157),(24,2,157),(31,2,157),(41,2,157),(56,3,157),(3,2,158),(6,2,158),(10,2,158),(15,2,158),(24,2,158),(31,2,158),(41,2,158),(56,3,158)],
  [(1,2,165),(22,3,165),(1,2,166),(22,3,166),(1,2,168),(22,3,168),(1,2,174),(22,3,174),(1,2,175),(22,3,175),(1,2,180),(22,3,180),(1,2,182),(22,3,182),(1,2,183),(22,3,183)],
  [(2,2,165),(9,2,165),(23,2,165),(40,3,165),(2,2,166),(9,2,166),(23,2,166),(40,3,166),(2,2,168),(9,2,168),(23,2,168),(40,3,168),(2,2,174),(9,2,174),(23,2,174),(40,3,174)],
  [(3,2,165),(6,2,165),(10,2,165),(15,2,165),(24,2,165),(31,2,165),(41,2,165),(56,3,165),(3,2,166),(6,2,166),(10,2,166),(15,2,166),(24,2,166),(31,2,166),(41,2,166),(56,3,166)],
  [(3,2,168),(6,2,168),(10,2,168),(15,2,168),(24,2,168),(31,2,168),(41,2,168),(56,3,168),(3,2,174),(6,2,174),(10,2,174),(15,2,174),(24,2,174),(31,2,174),(41,2,174),(56,3,174)],
  [(2,2,175),(9,2,175),(23,2,175),(40,3,175),(2,2,180),(9,2,180),(23,2,180),(40,3,180),(2,2,182),(9,2,182),(23,2,182),(40,3,182),(2,2,183),(9,2,183),(23,2,183),(40,3,183)],
  [(3,2,175),(6,2,175),(10,2,175),(15,2,175),(24,2,175),(31,2,175),(41,2,175),(56,3,175),(3,2,180),(6,2,180),(10,2,180),(15,2,180),(24,2,180),(31,2,180),(41,2,180),(56,3,180)],
  [(3,2,182),(6,2,182),(10,2,182),(15,2,182),(24,2,182),(31,2,182),(41,2,182),(56,3,182),(3,2,183),(6,2,183),(10,2,183),(15,2,183),(24,2,183),(31,2,183),(41,2,183),(56,3,183)],
  [(0,3,188),(0,3,191),(0,3,197),(0,3,231),(0,3,239),(176,0,0),(178,0,0),(179,0,0),(183,0,0),(184,0,0),(186,0,0),(187,0,0),(192,0,0),(199,0,0),(208,0,0),(223,0,0)],
  [(1,2,188),(22,3,188),(1,2,191),(22,3,191),(1,2,197),(22,3,197),(1,2,231),(22,3,231),(1,2,239),(22,3,239),(0,3,9),(0,3,142),(0,3,144),(0,3,145),(0,3,148),(0,3,159)],
  [(2,2,188),(9,2,188),(23,2,188),(40,3,188),(2,2,191),(9,2,191),(23,2,191),(40,3,191),(2,2,197),(9,2,197),(23,2,197),(40,3,197),(2,2,231),(9,2,231),(23,2,231),(40,3,231)],
  [(3,2,188),(6,2,188),(10,2,188),(15,2,188),(24,2,188),(31,2,188),(41,2,188),(56,3,188),(3,2,191),(6,2,191),(10,2,191),(15,2,191),(24,2,191),(31,2,191),(41,2,191),(56,3,191)],
  [(3,2,197),(6,2,197),(10,2,197),(15,2,197),(24,2,197),(31,2,197),(41,2,197),(56,3,197),(3,2,231),(6,2,231),(10,2,231),(15,2,231),(24,2,231),(31,2,231),(41,2,231),(56,3,231)],
  [(2,2,239),(9,2,239),(23,2,239),(40,3,239),(1,2,9),(22,3,9),(1,2,142),(22,3,142),(1,2,144),(22,3,144),(1,2,145),(22,3,145),(1,2,148),(22,3,148),(1,2,159),(22,3,159)],
  [(3,2,239),(6,2,239),(10,2,239),(15,2,239),(24,2,239),(31,2,239),(41,2,239),(56,3,239),(2,2,9),(9,2,9),(23,2,9),(40,3,9),(2,2,142),(9,2,142),(23,2,142),(40,3,142)]
]

def decode_tables_11 : List (List (Nat × Nat × Nat)) := [
  [(3,2,9),(6,2,9),(10,2,9),(15,2,9),(24,2,9),(31,2,9),(41,2,9),(56,3,9),(3,2,142),(6,2,142),(10,2,142),(15,2,142),(24,2,142),(31,2,142),(41,2,142),(56,3,142)],
  [(2,2,144),(9,2,144),(23,2,144),(40,3,144),(2,2,145),(9,2,145),(23,2,145),(40,3,145),(2,2,148),(9,2,148),(23,2,148),(40,3,148),(2,2,159),(9,2,159),(23,2,159),(40,3,159)],
  [(3,2,144),(6,2,144),(10,2,144),(15,2,144),(24,2,144),(31,2,144),(41,2,144),(56,3,144),(3,2,145),(6,2,145),(10,2,145),(15,2,145),(24,2,145),(31,2,145),(41,2,145),(56,3,145)],
  [(3,2,148),(6,2,148),(10,2,148),(15,2,148),(24,2,148),(31,2,148),(41,2,148),(56,3,148),(3,2,159),(6,2,159),(10,2,159),(15,2,159),(24,2,159),(31,2,159),(41,2,159),(56,3,159)],
  [(0,3,171),(0,3,206),(0,3,215),(0,3,225),(0,3,236),(0,3,237),(188,0,0),(189,0,0),(193,0,0),(196,0,0),(200,0,0),(203,0,0),(209,0,0),(216,0,0),(224,0,0),(238,0,0)],
  [(1,2,171),(22,3,171),(1,2,206),(22,3,206),(1,2,215),(22,3,215),(1,2,225),(22,3,225),(1,2,236),(22,3,236),(1,2,237),(22,3,237),(0,3,199),(0,3,207),(0,3,234),(0,3,235)],
  [(2,2,171),(9,2,171),(23,2,171),(40,3,171),(2,2,206),(9,2,206),(23,2,206),(40,3,206),(2,2,215),(9,2,215),(23,2,215),(40,3,215),(2,2,225),(9,2,225),(23,2,225),(40,3,225)],
  [(3,2,171),(6,2,171),(10,2,171),(15,2,171),(24,2,171),(31,2,171),(41,2,171),(56,3,171),(3,2,206),(6,2,206),(10,2,206),(15,2,206),(24,2,206),(31,2,206),(41,2,206),(56,3,206)],
  [(3,2,215),(6,2,215),(10,2,215),(15,2,215),(24,2,215),(31,2,215),(41,2,215),(56,3,215),(3,2,225),(6,2,225),(10,2,225),(15,2,225),(24,2,225),(31,2,225),(41,2,225),(56,3,225)],
  [(2,2,236),(9,2,236),(23,2,236),(40,3,236),(2,2,237),(9,2,237),(23,2,237),(40,3,237),(1,2,199),(22,3,199),(1,2,207),(22,3,207),(1,2,234),(22,3,234),(1,2,235),(22,3,235)],
  [(3,2,236),(6,2,236),(10,2,236),(15,2,236),(24,2,236),(31,2,236),(41,2,236),(56,3,236),(3,2,237),(6,2,237),(10,2,237),(15,2,237),(24,2,237),(31,2,237),(41,2,237),(56,3,237)],
  [(2,2,199),(9,2,199),(23,2,199),(40,3,199),(2,2,207),(9,2,207),(23,2,207),(40,3,207),(2,2,234),(9,2,234),(23,2,234),(40,3,234),(2,2,235),(9,2,235),(23,2,235),(40,3,235)],
  [(3,2,199),(6,2,199),(10,2,199),(15,2,199),(24,2,199),(31,2,199),(41,2,199),(56,3,199),(3,2,207),(6,2,207),(10,2,207),(15,2,207),(24,2,207),(31,2,207),(41,2,207),(56,3,207)],
  [(3,2,234),(6,2,234),(10,2,234),(15,2,234),(24,2,234),(31,2,234),(41,2,234),(56,3,234),(3,2,235),(6,2,235),(10,2,235),(15,2,235),(24,2,235),(31,2,235),(41,2,235),(56,3,235)],
  [(194,0,0),(195,0,0),(197,0,0),(198,0,0),(201,0,0),(202,0,0),(204,0,0),(205,0,0),(210,0,0),(213,0,0),(217,0,0),(220,0,0),(225,0,0),(231,0,0),(239,0,0),(246,0,0)],
  [(0,3,192),(0,3,193),(0,3,200),(0,3,201),(0,3,202),(0,3,205),(0,3,210),(0,3,213),(0,3,218),(0,3,219),(0,3,238),(0,3,240),(0,3,242),(0,3,243),(0,3,255),(206,0,0)]
]

def decode_tables_12 : List (List (Nat × Nat × Nat)) := [
  [(1,2,192),(22,3,192),(1,2,193),(22,3,193),(1,2,200),(22,3,200),(1,2,201),(22,3,201),(1,2,202),(22,3,202),(1,2,205),(22,3,205),(1,2,210),(22,3,210),(1,2,213),(22,3,213)],
  [(2,2,192),(9,2,192),(23,2,192),(40,3,192),(2,2,193),(9,2,193),(23,2,193),(40,3,193),(2,2,200),(9,2,200),(23,2,200),(40,3,200),(2,2,201),(9,2,201),(23,2,201),(40,3,201)],
  [(3,2,192),(6,2,192),(10,2,192),(15,2,192),(24,2,192),(31,2,192),(41,2,192),(56,3,192),(3,2,193),(6,2,193),(10,2,193),(15,2,193),(24,2,193),(31,2,193),(41,2,193),(56,3,193)],
  [(3,2,200),(6,2,200),(10,2,200),(15,2,200),(24,2,200),(31,2,200),(41,2,200),(56,3,200),(3,2,201),(6,2,201),(10,2,201),(15,2,201),(24,2,201),(31,2,201),(41,2,201),(56,3,201)],
  [(2,2,202),(9,2,202),(23,2,202),(40,3,202),(2,2,205),(9,2,205),(23,2,205),(40,3,205),(2,2,210),(9,2,210),(23,2,210),(40,3,210),(2,2,213),(9,2,213),(23,2,213),(40,3,213)],
  [(3,2,202),(6,2,202),(10,2,202),(15,2,202),(24,2,202),(31,2,202),(41,2,202),(56,3,202),(3,2,205),(6,2,205),(10,2,205),(15,2,205),(24,2,205),(31,2,205),(41,2,205),(56,3,205)],
  [(3,2,210),(6,2,210),(10,2,210),(15,2,210),(24,2,210),(31,2,210),(41,2,210),(56,3,210),(3,2,213),(6,2,213),(10,2,213),(15,2,213),(24,2,213),(31,2,213),(41,2,213),(56,3,213)],
  [(1,2,218),(22,3,218),(1,2,219),(22,3,219),(1,2,238),(22,3,238),(1,2,240),(22,3,240),(1,2,242),(22,3,242),(1,2,243),(22,3,243),(1,2,255),(22,3,255),(0,3,203),(0,3,204)],
  [(2,2,218),(9,2,218),(23,2,218),(40,3,218),(2,2,219),(9,2,219),(23,2,219),(40,3,219),(2,2,238),(9,2,238),(23,2,238),(40,3,238),(2,2,240),(9,2,240),(23,2,240),(40,3,240)],
  [(3,2,218),(6,2,218),(10,2,218),(15,2,218),(24,2,218),(31,2,218),(41,2,218),(56,3,218),(3,2,219),(6,2,219),(10,2,219),(15,2,219),(24,2,219),(31,2,219),(41,2,219),(56,3,219)],
  [(3,2,238),(6,2,238),(10,2,238),(15,2,238),(24,2,238),(31,2,238),(41,2,238),(56,3,238),(3,2,240),(6,2,240),(10,2,240),(15,2,240),(24,2,240),(31,2,240),(41,2,240),(56,3,240)],
  [(2,2,242),(9,2,242),(23,2,242),(40,3,242),(2,2,243),(9,2,243),(23,2,243),(40,3,243),(2,2,255),(9,2,255),(23,2,255),(40,3,255),(1,2,203),(22,3,203),(1,2,204),(22,3,204)],
  [(3,2,242),(6,2,242),(10,2,242),(15,2,242),(24,2,242),(31,2,242),(41,2,242),(56,3,242),(3,2,243),(6,2,243),(10,2,243),(15,2,243),(24,2,243),(31,2,243),(41,2,243),(56,3,243)],
  [(3,2,255),(6,2,255),(10,2,255),(15,2,255),(24,2,255),(31,2,255),(41,2,255),(56,3,255),(2,2,203),(9,2,203),(23,2,203),(40,3,203),(2,2,204),(9,2,204),(23,2,204),(40,3,204)],
  [(3,2,203),(6,2,203),(10,2,203),(15,2,203),(24,2,203),(31,2,203),(41,2,203),(56,3,203),(3,2,204),(6,2,204),(10,2,204),(15,2,204),(24,2,204),(31,2,204),(41,2,204),(56,3,204)],
  [(211,0,0),(212,0,0),(214,0,0),(215,0,0),(218,0,0),(219,0,0),(221,0,0),(222,0,0),(226,0,0),(228,0,0),(232,0,0),(235,0,0),(240,0,0),(243,0,0),(247,0,0),(250,0,0)]
]

def decode_tables_13 : List (List (Nat × Nat × Nat)) := [
  [(0,3,211),(0,3,212),(0,3,214),(0,3,221),(0,3,222),(0,3,223),(0,3,241),(0,3,244),(0,3,245),(0,3,246),(0,3,247),(0,3,248),(0,3,250),(0,3,251),(0,3,252),(0,3,253)],
  [(1,2,211),(22,3,211),(1,2,212),(22,3,212),(1,2,214),(22,3,214),(1,2,221),(22,3,221),(1,2,222),(22,3,222),(1,2,223),(22,3,223),(1,2,241),(22,3,241),(1,2,244),(22,3,244)],
  [(2,2,211),(9,2,211),(23,2,211),(40,3,211),(2,2,212),(9,2,212),(23,2,212),(40,3,212),(2,2,214),(9,2,214),(23,2,214),(40,3,214),(2,2,221),(9,2,221),(23,2,221),(40,3,221)],
  [(3,2,211),(6,2,211),(10,2,211),(15,2,211),(24,2,211),(31,2,211),(41,2,211),(56,3,211),(3,2,212),(6,2,212),(10,2,212),(15,2,212),(24,2,212),(31,2,212),(41,2,212),(56,3,212)],
  [(3,2,214),(6,2,214),(10,2,214),(15,2,214),(24,2,214),(31,2,214),(41,2,214),(56,3,214),(3,2,221),(6,2,221),(10,2,221),(15,2,221),(24,2,221),(31,2,221),(41,2,221),(56,3,221)],
  [(2,2,222),(9,2,222),(23,2,222),(40,3,222),(2,2,223),(9,2,223),(23,2,223),(40,3,223),(2,2,241),(9,2,241),(23,2,241),(40,3,241),(2,2,244),(9,2,244),(23,2,244),(40,3,244)],
  [(3,2,222),(6,2,222),(10,2,222),(15,2,222),(24,2,222),(31,2,222),(41,2,222),(56,3,222),(3,2,223),(6,2,223),(10,2,223),(15,2,223),(24,2,223),(31,2,223),(41,2,223),(56,3,223)],
  [(3,2,241),(6,2,241),(10,2,241),(15,2,241),(24,2,241),(31,2,241),(41,2,241),(56,3,241),(3,2,244),(6,2,244),(10,2,244),(15,2,244),(24,2,244),(31,2,244),(41,2,244),(56,3,244)],
  [(1,2,245),(22,3,245),(1,2,246),(22,3,246),(1,2,247),(22,3,247),(1,2,248),(22,3,248),(1,2,250),(22,3,250),(1,2,251),(22,3,251),(1,2,252),(22,3,252),(1,2,253),(22,3,253)],
  [(2,2,245),(9,2,245),(23,2,245),(40,3,245),(2,2,246),(9,2,246),(23,2,246),(40,3,246),(2,2,247),(9,2,247),(23,2,247),(40,3,247),(2,2,248),(9,2,248),(23,2,248),(40,3,248)],
  [(3,2,245),(6,2,245),(10,2,245),(15,2,245),(24,2,245),(31,2,245),(41,2,245),(56,3,245),(3,2,246),(6,2,246),(10,2,246),(15,2,246),(24,2,246),(31,2,246),(41,2,246),(56,3,246)],
  [(3,2,247),(6,2,247),(10,2,247),(15,2,247),(24,2,247),(31,2,247),(41,2,247),(56,3,247),(3,2,248),(6,2,248),(10,2,248),(15,2,248),(24,2,248),(31,2,248),(41,2,248),(56,3,248)],
  [(2,2,250),(9,2,250),(23,2,250),(40,3,250),(2,2,251),(9,2,251),(23,2,251),(40,3,251),(2,2,252),(9,2,252),(23,2,252),(40,3,252),(2,2,253),(9,2,253),(23,2,253),(40,3,253)],
  [(3,2,250),(6,2,250),(10,2,250),(15,2,250),(24,2,250),(31,2,250),(41,2,250),(56,3,250),(3,2,251),(6,2,251),(10,2,251),(15,2,251),(24,2,251),(31,2,251),(41,2,251),(56,3,251)],
  [(3,2,252),(6,2,252),(10,2,252),(15,2,252),(24,2,252),(31,2,252),(41,2,252),(56,3,252),(3,2,253),(6,2,253),(10,2,253),(15,2,253),(24,2,253),(31,2,253),(41,2,253),(56,3,253)],
  [(0,3,254),(227,0,0),(229,0,0),(230,0,0),(233,0,0),(234,0,0),(236,0,0),(237,0,0),(241,0,0),(242,0,0),(244,0,0),(245,0,0),(248,0,0),(249,0,0),(251,0,0),(252,0,0)]
]

def decode_tables_14 : List (List (Nat × Nat × Nat)) := [
  [(1,2,254),(22,3,254),(0,3,2),(0,3,3),(0,3,4),(0,3,5),(0,3,6),(0,3,7),(0,3,8),(0,3,11),(0,3,12),(0,3,14),(0,3,15),(0,3,16),(0,3,17),(0,3,18)],
  [(2,2,254),(9,2,254),(23,2,254),(40,3,254),(1,2,2),(22,3,2),(1,2,3),(22,3,3),(1,2,4),(22,3,4),(1,2,5),(22,3,5),(1,2,6),(22,3,6),(1,2,7),(22,3,7)],
  [(3,2,254),(6,2,254),(10,2,254),(15,2,254),(24,2,254),(31,2,254),(41,2,254),(56,3,254),(2,2,2),(9,2,2),(23,2,2),(40,3,2),(2,2,3),(9,2,3),(23,2,3),(40,3,3)],
  [(3,2,2),(6,2,2),(10,2,2),(15,2,2),(24,2,2),(31,2,2),(41,2,2),(56,3,2),(3,2,3),(6,2,3),(10,2,3),(15,2,3),(24,2,3),(31,2,3),(41,2,3),(56,3,3)],
  [(2,2,4),(9,2,4),(23,2,4),(40,3,4),(2,2,5),(9,2,5),(23,2,5),(40,3,5),(2,2,6),(9,2,6),(23,2,6),(40,3,6),(2,2,7),(9,2,7),(23,2,7),(40,3,7)],
  [(3,2,4),(6,2,4),(10,2,4),(15,2,4),(24,2,4),(31,2,4),(41,2,4),(56,3,4),(3,2,5),(6,2,5),(10,2,5),(15,2,5),(24,2,5),(31,2,5),(41,2,5),(56,3,5)],
  [(3,2,6),(6,2,6),(10,2,6),(15,2,6),(24,2,6),(31,2,6),(41,2,6),(56,3,6),(3,2,7),(6,2,7),(10,2,7),(15,2,7),(24,2,7),(31,2,7),(41,2,7),(56,3,7)],
  [(1,2,8),(22,3,8),(1,2,11),(22,3,11),(1,2,12),(22,3,12),(1,2,14),(22,3,14),(1,2,15),(22,3,15),(1,2,16),(22,3,16),(1,2,17),(22,3,17),(1,2,18),(22,3,18)],
  [(2,2,8),(9,2,8),(23,2,8),(40,3,8),(2,2,11),(9,2,11),(23,2,11),(40,3,11),(2,2,12),(9,2,12),(23,2,12),(40,3,12),(2,2,14),(9,2,14),(23,2,14),(40,3,14)],
  [(3,2,8),(6,2,8),(10,2,8),(15,2,8),(24,2,8),(31,2,8),(41,2,8),(56,3,8),(3,2,11),(6,2,11),(10,2,11),(15,2,11),(24,2,11),(31,2,11),(41,2,11),(56,3,11)],
  [(3,2,12),(6,2,12),(10,2,12),(15,2,12),(24,2,12),(31,2,12),(41,2,12),(56,3,12),(3,2,14),(6,2,14),(10,2,14),(15,2,14),(24,2,14),(31,2,14),(41,2,14),(56,3,14)],
  [(2,2,15),(9,2,15),(23,2,15),(40,3,15),(2,2,16),(9,2,16),(23,2,16),(40,3,16),(2,2,17),(9,2,17),(23,2,17),(40,3,17),(2,2,18),(9,2,18),(23,2,18),(40,3,18)],
  [(3,2,15),(6,2,15),(10,2,15),(15,2,15),(24,2,15),(31,2,15),(41,2,15),(56,3,15),(3,2,16),(6,2,16),(10,2,16),(15,2,16),(24,2,16),(31,2,16),(41,2,16),(56,3,16)],
  [(3,2,17),(6,2,17),(10,2,17),(15,2,17),(24,2,17),(31,2,17),(41,2,17),(56,3,17),(3,2,18),(6,2,18),(10,2,18),(15,2,18),(24,2,18),(31,2,18),(41,2,18),(56,3,18)],
  [(0,3,19),(0,3,20),(0,3,21),(0,3,23),(0,3,24),(0,3,25),(0,3,26),(0,3,27),(0,3,28),(0,3,29),(0,3,30),(0,3,31),(0,3,127),(0,3,220),(0,3,249),(253,0,0)],
  [(1,2,19),(22,3,19),(1,2,20),(22,3,20),(1,2,21),(22,3,21),(1,2,23),(22,3,23),(1,2,24),(22,3,24),(1,2,25),(22,3,25),(1,2,26),(22,3,26),(1,2,27),(22,3,27)]
]

def decode_tables_15 : List (List (Nat × Nat × Nat)) := [
  [(2,2,19),(9,2,19),(23,2,19),(40,3,19),(2,2,20),(9,2,20),(23,2,20),(40,3,20),(2,2,21),(9,2,21),(23,2,21),(40,3,21),(2,2,23),(9,2,23),(23,2,23),(40,3,23)],
  [(3,2,19),(6,2,19),(10,2,19),(15,2,19),(24,2,19),(31,2,19),(41,2,19),(56,3,19),(3,2,20),(6,2,20),(10,2,20),(15,2,20),(24,2,20),(31,2,20),(41,2,20),(56,3,20)],
  [(3,2,21),(6,2,21),(10,2,21),(15,2,21),(24,2,21),(31,2,21),(41,2,21),(56,3,21),(3,2,23),(6,2,23),(10,2,23),(15,2,23),(24,2,23),(31,2,23),(41,2,23),(56,3,23)],
  [(2,2,24),(9,2,24),(23,2,24),(40,3,24),(2,2,25),(9,2,25),(23,2,25),(40,3,25),(2,2,26),(9,2,26),(23,2,26),(40,3,26),(2,2,27),(9,2,27),(23,2,27),(40,3,27)],
  [(3,2,24),(6,2,24),(10,2,24),(15,2,24),(24,2,24),(31,2,24),(41,2,24),(56,3,24),(3,2,25),(6,2,25),(10,2,25),(15,2,25),(24,2,25),(31,2,25),(41,2,25),(56,3,25)],
  [(3,2,26),(6,2,26),(10,2,26),(15,2,26),(24,2,26),(31,2,26),(41,2,26),(56,3,26),(3,2,27),(6,2,27),(10,2,27),(15,2,27),(24,2,27),(31,2,27),(41,2,27),(56,3,27)],
  [(1,2,28),(22,3,28),(1,2,29),(22,3,29),(1,2,30),(22,3,30),(1,2,31),(22,3,31),(1,2,127),(22,3,127),(1,2,220),(22,3,220),(1,2,249),(22,3,249),(254,0,0),(255,0,0)],
  [(2,2,28),(9,2,28),(23,2,28),(40,3,28),(2,2,29),(9,2,29),(23,2,29),(40,3,29),(2,2,30),(9,2,30),(23,2,30),(40,3,30),(2,2,31),(9,2,31),(23,2,31),(40,3,31)],
  [(3,2,28),(6,2,28),(10,2,28),(15,2,28),(24,2,28),(31,2,28),(41,2,28),(56,3,28),(3,2,29),(6,2,29),(10,2,29),(15,2,29),(24,2,29),(31,2,29),(41,2,29),(56,3,29)],
  [(3,2,30),(6,2,30),(10,2,30),(15,2,30),(24,2,30),(31,2,30),(41,2,30),(56,3,30),(3,2,31),(6,2,31),(10,2,31),(15,2,31),(24,2,31),(31,2,31),(41,2,31),(56,3,31)],
  [(2,2,127),(9,2,127),(23,2,127),(40,3,127),(2,2,220),(9,2,220),(23,2,220),(40,3,220),(2,2,249),(9,2,249),(23,2,249),(40,3,249),(0,3,10),(0,3,13),(0,3,22),(0,4,0)],
  [(3,2,127),(6,2,127),(10,2,127),(15,2,127),(24,2,127),(31,2,127),(41,2,127),(56,3,127),(3,2,220),(6,2,220),(10,2,220),(15,2,220),(24,2,220),(31,2,220),(41,2,220),(56,3,220)],
  [(3,2,249),(6,2,249),(10,2,249),(15,2,249),(24,2,249),(31,2,249),(41,2,249),(56,3,249),(1,2,10),(22,3,10),(1,2,13),(22,3,13),(1,2,22),(22,3,22),(0,4,0),(0,4,0)],
  [(2,2,10),(9,2,10),(23,2,10),(40,3,10),(2,2,13),(9,2,13),(23,2,13),(40,3,13),(2,2,22),(9,2,22),(23,2,22),(40,3,22),(0,4,0),(0,4,0),(0,4,0),(0,4,0)],
  [(3,2,10),(6,2,10),(10,2,10),(15,2,10),(24,2,10),(31,2,10),(41,2,10),(56,3,10),(3,2,13),(6,2,13),(10,2,13),(15,2,13),(24,2,13),(31,2,13),(41,2,13),(56,3,13)],
  [(3,2,22),(6,2,22),(10,2,22),(15,2,22),(24,2,22),(31,2,22),(41,2,22),(56,3,22),(0,4,0),(0,4,0),(0,4,0),(0,4,0),(0,4,0),(0,4,0),(0,4,0),(0,4,0)]
]

def decode_tables : List (List (Nat × Nat × Nat)) :=
  decode_tables_0
    ++ decode_tables_1
    ++ decode_tables_2
    ++ decode_tables_3
    ++ decode_tables_4
    ++ decode_tables_5
    ++ decode_tables_6
    ++ decode_tables_7
    ++ decode_tables_8
    ++ decode_tables_9
    ++ decode_tables_10
    ++ decode_tables_11
    ++ decode_tables_12
    ++ decode_tables_13
    ++ decode_tables_14
    ++ decode_tables_15

/-- Modelled from the table: the bit-string (value, length) pending at
each DFA state, derived by walking `decode_tables` from state 0; its
correctness against the bit-level code is established by `tableOk`. -/
def huffStatePend : List (Nat × Nat) := [
  (0,0),(0,1),(0,2),(0,3),(0,4),(1,4),(1,3),(2,4),
  (3,4),(1,2),(2,3),(4,4),(5,4),(10,5),(11,5),(3,3),
  (6,4),(12,5),(13,5),(7,4),(14,5),(15,5),(1,1),(2,2),
  (4,3),(8,4),(16,5),(17,5),(9,4),(18,5),(19,5),(5,3),
  (10,4),(20,5),(21,5),(11,4),(22,5),(23,5),(46,6),(47,6),
  (3,2),(6,3),(12,4),(24,5),(48,6),(49,6),(25,5),(50,6),
  (51,6),(13,4),(26,5),(52,6),(53,6),(27,5),(54,6),(55,6),
  (7,3),(14,4),(28,5),(56,6),(57,6),(29,5),(58,6),(59,6),
  (15,4),(30,5),(60,6),(61,6),(31,5),(62,6),(124,7),(125,7),
  (63,6),(126,7),(127,7),(254,8),(508,9),(509,9),(255,8),(510,9),
  (1021,10),(511,9),(1022,10),(2045,11),(1023,10),(2046,11),(4092,12),(4093,12),
  (2047,11),(4094,12),(4095,12),(8190,13),(8191,13),(16382,14),(16383,14),(32767,15),
  (65534,16),(131068,17),(262136,18),(262137,18),(524275,19),(131069,17),(262138,18),(524276,19),
  (524277,19),(262139,18),(524278,19),(524279,19),(1048558,20),(1048559,20),(65535,16),(131070,17),
  (262140,18),(524280,19),(1048560,20),(1048561,20),(524281,19),(1048562,20),(1048563,20),(262141,18),
  (524282,19),(1048564,20),(2097129,21),(1048565,20),(2097130,21),(2097131,21),(524283,19),(1048566,20),
  (2097132,21),(2097133,21),(1048567,20),(2097134,21),(2097135,21),(131071,17),(262142,18),(524284,19),
  (1048568,20),(2097136,21),(2097137,21),(1048569,20),(2097138,21),(2097139,21),(524285,19),(1048570,20),
  (2097140,21),(2097141,21),(1048571,20),(2097142,21),(4194284,22),(4194285,22),(2097143,21),(4194286,22),
  (4194287,22),(262143,18),(524286,19),(1048572,20),(2097144,21),(4194288,22),(4194289,22),(2097145,21),
  (4194290,22),(4194291,22),(1048573,20),(2097146,21),(4194292,22),(4194293,22),(2097147,21),(4194294,22),
  (4194295,22),(524287,19),(1048574,20),(2097148,21),(4194296,22),(4194297,22),(2097149,21),(4194298,22),
  (8388597,23),(4194299,22),(8388598,23),(8388599,23),(1048575,20),(2097150,21),(4194300,22),(8388600,23),
  (8388601,23),(4194301,22),(8388602,23),(8388603,23),(16777206,24),(16777207,24),(2097151,21),(4194302,22),
  (8388604,23),(16777208,24),(33554416,25),(33554417,25),(16777209,24),(33554418,25),(33554419,25),(8388605,23),
  (16777210,24),(33554420,25),(33554421,25),(16777211,24),(33554422,25),(33554423,25),(67108847,26),(4194303,22),
  (8388606,23),(16777212,24),(33554424,25),(67108848,26),(67108849,26),(33554425,25),(67108850,26),(67108851,26),
  (16777213,24),(33554426,25),(67108852,26),(67108853,26),(33554427,25),(67108854,26),(67108855,26),(8388607,23),
  (16777214,24),(33554428,25),(67108856,26),(134217713,27),(67108857,26),(134217714,27),(134217715,27),(33554429,25),
  (67108858,26),(134217716,27),(134217717,27),(67108859,26),(134217718,27),(134217719,27),(16777215,24),(33554430,25),
  (67108860,26),(134217720,27),(134217721,27),(67108861,26),(134217722,27),(134217723,27),(33554431,25),(67108862,26),
  (134217724,27),(134217725,27),(67108863,26),(134217726,27),(134217727,27),(268435455,28),(536870910,29),(536870911,29)
]

/-- Modelled from `encode_table`: the codewords grouped by bit length
(index = length, entries = (code value, symbol)); agreement with
`encode_table` is established by `codeTreeOk`. -/
def codeTree : List (List (Nat × Nat)) := [
  [],
  [],
  [],
  [],
  [],
  [(0,48),(1,49),(2,50),(3,97),(4,99),(5,101),(6,105),(7,111),(8,115),(9,116)],
  [(20,32),(21,37),(22,45),(23,46),(24,47),(25,51),(26,52),(27,53),(28,54),(29,55),(30,56),(31,57),(32,61),(33,65),(34,95),(35,98),(36,100),(37,102),(38,103),(39,104),(40,108),(41,109),(42,110),(43,112),(44,114),(45,117)],
  [(92,58),(93,66),(94,67),(95,68),(96,69),(97,70),(98,71),(99,72),(100,73),(101,74),(102,75),(103,76),(104,77),(105,78),(106,79),(107,80),(108,81),(109,82),(110,83),(111,84),(112,85),(113,86),(114,87),(115,89),(116,106),(117,107),(118,113),(119,118),(120,119),(121,120),(122,121),(123,122)],
  [(248,38),(249,42),(250,44),(251,59),(252,88),(253,90)],
  [],
  [(1016,33),(1017,34),(1018,40),(1019,41),(1020,63)],
  [(2042,39),(2043,43),(2044,124)],
  [(4090,35),(4091,62)],
  [(8184,0),(8185,36),(8186,64),(8187,91),(8188,93),(8189,126)],
  [(16380,94),(16381,125)],
  [(32764,60),(32765,96),(32766,123)],
  [],
  [],
  [],
  [(524272,92),(524273,195),(524274,208)],
  [(1048550,128),(1048551,130),(1048552,131),(1048553,162),(1048554,184),(1048555,194),(1048556,224),(1048557,226)],
  [(2097116,153),(2097117,161),(2097118,167),(2097119,172),(2097120,176),(2097121,177),(2097122,179),(2097123,209),(2097124,216),(2097125,217),(2097126,227),(2097127,229),(2097128,230)],
  [(4194258,129),(4194259,132),(4194260,133),(4194261,134),(4194262,136),(4194263,146),(4194264,154),(4194265,156),(4194266,160),(4194267,163),(4194268,164),(4194269,169),(4194270,170),(4194271,173),(4194272,178),(4194273,181),(4194274,185),(4194275,186),(4194276,187),(4194277,189),(4194278,190),(4194279,196),(4194280,198),(4194281,228),(4194282,232),(4194283,233)],
  [(8388568,1),(8388569,135),(8388570,137),(8388571,138),(8388572,139),(8388573,140),(8388574,141),(8388575,143),(8388576,147),(8388577,149),(8388578,150),(8388579,151),(8388580,152),(8388581,155),(8388582,157),(8388583,158),(8388584,165),(8388585,166),(8388586,168),(8388587,174),(8388588,175),(8388589,180),(8388590,182),(8388591,183),(8388592,188),(8388593,191),(8388594,197),(8388595,231),(8388596,239)],
  [(16777194,9),(16777195,142),(16777196,144),(16777197,145),(16777198,148),(16777199,159),(16777200,171),(16777201,206),(16777202,215),(16777203,225),(16777204,236),(16777205,237)],
  [(33554412,199),(33554413,207),(33554414,234),(33554415,235)],
  [(67108832,192),(67108833,193),(67108834,200),(67108835,201),(67108836,202),(67108837,205),(67108838,210),(67108839,213),(67108840,218),(67108841,219),(67108842,238),(67108843,240),(67108844,242),(67108845,243),(67108846,255)],
  [(134217694,203),(134217695,204),(134217696,211),(134217697,212),(134217698,214),(134217699,221),(134217700,222),(134217701,223),(134217702,241),(134217703,244),(134217704,245),(134217705,246),(134217706,247),(134217707,248),(134217708,250),(134217709,251),(134217710,252),(134217711,253),(134217712,254)],
  [(268435426,2),(268435427,3),(268435428,4),(268435429,5),(268435430,6),(268435431,7),(268435432,8),(268435433,11),(268435434,12),(268435435,14),(268435436,15),(268435437,16),(268435438,17),(268435439,18),(268435440,19),(268435441,20),(268435442,21),(268435443,23),(268435444,24),(268435445,25),(268435446,26),(268435447,27),(268435448,28),(268435449,29),(268435450,30),(268435451,31),(268435452,127),(268435453,220),(268435454,249)],
  [],
  [(1073741820,10),(1073741821,13),(1073741822,22),(1073741823,256)]
]

/-- Entry of `decode_tables` for a given state and 4-bit input. -/
def decodeEl (s n : Nat) : Nat × Nat × Nat := (decode_tables.getD s []).getD n (0, 0, 0)

/-- `qdec_huff_dec4bits` from lsqpack.c: feed four bits to the decoder
DFA.  `none` is the NULL (failure) return; otherwise the output buffer
gains the symbol when the SYM flag is set, and the status becomes the
next state together with the ACCEPTED ("eos") flag. -/
def qdec_huff_dec4bits (src_4bits : Nat) (dst : List Nat) (status : Nat × Bool) :
    Option (List Nat × (Nat × Bool)) :=
  let cur := decodeEl status.1 src_4bits
  if cur.2.1 &&& 4 != 0 then none
  else
    let dst := if cur.2.1 &&& 2 != 0 then dst ++ [cur.2.2] else dst
    some (dst, (cur.1, cur.2.1 &&& 1 != 0))

/-- `struct lsqpack_huff_decode_state` from lsqpack.c (`resume` plus the
`struct lsqpack_decode_status` pair of DFA state and eos flag). -/
structure HuffDecodeState where
  resume : Nat
  state : Nat
  eos : Bool
deriving Repr, DecidableEq

/-- The status component of `struct huff_decode_retval` from lsqpack.c. -/
inductive HuffDecStatus where
  | huff_dec_ok
  | huff_dec_end_src
  | huff_dec_end_dst
  | huff_dec_error
deriving Repr, DecidableEq

/-- The `ck1` loop of `lsqpack_huff_decode` from lsqpack.c: per source
byte, check the destination bound, feed the high then the low nibble to
the DFA, and at end of source return OK/ERROR (by the eos flag) when
`final`, else END_SRC with `resume = 1`.  The returned list holds the
bytes written to `dst` by this call (`n_dst` is its length; `n_src` is
the number of bytes consumed).  On the error path C leaves
`state->resume` as it was on entry (`res0`). -/
def huffDec_ck1 (dst_len : Nat) (final : Bool) (res0 : Nat) :
    List Nat → List Nat → (Nat × Bool) → HuffDecStatus × List Nat × HuffDecodeState
  | [], dst, st =>
      if final then
        ((if st.2 then HuffDecStatus.huff_dec_ok else HuffDecStatus.huff_dec_error),
          dst, ⟨res0, st.1, st.2⟩)
      else (HuffDecStatus.huff_dec_end_src, dst, ⟨1, st.1, st.2⟩)
  | b :: rest, dst, st =>
      if dst.length = dst_len then
        (HuffDecStatus.huff_dec_end_dst, dst, ⟨2, st.1, st.2⟩)
      else
        match qdec_huff_dec4bits (b >>> 4) dst st with
        | none => (HuffDecStatus.huff_dec_error, dst, ⟨res0, st.1, st.2⟩)
        | some (dst1, st1) =>
            if dst1.length = dst_len then
              (HuffDecStatus.huff_dec_end_dst, dst1, ⟨3, st1.1, st1.2⟩)
            else
              match qdec_huff_dec4bits (b &&& 15) dst1 st1 with
              | none => (HuffDecStatus.huff_dec_error, dst1, ⟨res0, st1.1, st1.2⟩)
              | some (dst2, st2) => huffDec_ck1 dst_len final res0 rest dst2 st2

/-- `lsqpack_huff_decode` from lsqpack.c.  `resume = 0` starts fresh
(state 0, eos set); `resume = 1` re-enters the loop with the saved
status; `resume = 2`/`3` re-enter at the high/low nibble of the first
byte (C reads past the buffer when resumed with no input; that
out-of-bounds case is rendered as the error return). -/
def lsqpack_huff_decode (src : List Nat) (dst_len : Nat) (st : HuffDecodeState)
    (final : Bool) : HuffDecStatus × List Nat × HuffDecodeState :=
  match st.resume with
  | 0 => huffDec_ck1 dst_len final st.resume src [] (0, true)
  | 1 => huffDec_ck1 dst_len final st.resume src [] (st.state, st.eos)
  | 2 =>
      match src with
      | [] => (HuffDecStatus.huff_dec_error, [], st)
      | b :: rest =>
          match qdec_huff_dec4bits (b >>> 4) [] (st.state, st.eos) with
          | none => (HuffDecStatus.huff_dec_error, [], st)
          | some (dst1, st1) =>
              if dst1.length = dst_len then
                (HuffDecStatus.huff_dec_end_dst, dst1, ⟨3, st1.1, st1.2⟩)
              else
                match qdec_huff_dec4bits (b &&& 15) dst1 st1 with
                | none => (HuffDecStatus.huff_dec_error, dst1, ⟨2, st1.1, st1.2⟩)
                | some (dst2, st2) => huffDec_ck1 dst_len final st.resume rest dst2 st2
  | _ =>
      match src with
      | [] => (HuffDecStatus.huff_dec_error, [], st)
      | b :: rest =>
          match qdec_huff_dec4bits (b &&& 15) [] (st.state, st.eos) with
          | none => (HuffDecStatus.huff_dec_error, [], st)
          | some (dst2, st2) => huffDec_ck1 dst_len final st.resume rest dst2 st2

/-- Feed the encoded input to `lsqpack_huff_decode` chunk by chunk,
threading the decode state, with `final` set only on the last chunk; the
per-call (status, output) pairs and the final state are returned. -/
def huffDecodeChunks : List (List Nat) → Nat → HuffDecodeState →
    List (HuffDecStatus × List Nat) × HuffDecodeState
  | [], _, st => ([], st)
  | [c], dst_len, st =>
      let r := lsqpack_huff_decode c dst_len st true
      ([(r.1, r.2.1)], r.2.2)
  | c :: c2 :: rest, dst_len, st =>
      let r := lsqpack_huff_decode c dst_len st false
      let rr := huffDecodeChunks (c2 :: rest) dst_len r.2.2
      ((r.1, r.2.1) :: rr.1, rr.2)

/-- The `l` low bits of `v`, most significant first. -/
def bitsOfLen : Nat → Nat → List Nat
  | 0, _ => []
  | l + 1, v => (v / 2 ^ l % 2) :: bitsOfLen l v

/-- Reference bit-level view of the Huffman code: codeword lookup by
(length, value) through the length-indexed `codeTree`. -/
def fcode (l v : Nat) : Option Nat :=
  ((codeTree.getD l []).find? (fun e => e.1 == v)).map (fun e => e.2)

/-- One bit of reference Huffman decoding: extend the pending (value,
length) by bit `b`; a completed codeword emits its symbol (completing
the EOS codeword is a failure). -/
def bitStep (p : Nat × Nat) (b : Nat) : Option ((Nat × Nat) × Option Nat) :=
  match fcode (p.2 + 1) (p.1 * 2 + b) with
  | some i => if i = 256 then none else some ((0, 0), some i)
  | none => some ((p.1 * 2 + b, p.2 + 1), none)

/-- Reference bit-level Huffman decoding of a bit list. -/
def bitsDecode : List Nat → (Nat × Nat) → Option (List Nat × (Nat × Nat))
  | [], p => some ([], p)
  | b :: rest, p =>
      match bitStep p b with
      | none => none
      | some (p', osym) =>
          match bitsDecode rest p' with
          | none => none
          | some (syms, pend) => some (osym.toList ++ syms, pend)

def bytesBits (l : List Nat) : List Nat := (l.map (bitsOfLen 8)).join

/-- A pending bit string is an accepted stopping point exactly when it
is all ones and shorter than a byte (valid Huffman padding). -/
def acceptedPend (p : Nat × Nat) : Bool := p.2 ≤ 7 && p.1 == 2 ^ p.2 - 1

/-- Per-transition correspondence of `decode_tables` with the bit-level
reference decoder, at the pending bit-string assigned to each state by
`huffStatePend`. -/
def tableOkAt (s n : Nat) : Bool :=
  let el := decodeEl s n
  match bitsDecode (bitsOfLen 4 n) (huffStatePend.getD s (0, 0)) with
  | none => el.2.1 &&& 4 != 0
  | some (syms, p') =>
      el.2.1 &&& 4 == 0
      && (match syms with
          | [] => el.2.1 &&& 2 == 0
          | [i] => (el.2.1 &&& 2 != 0) && el.2.2 == i
          | _ :: _ :: _ => false)
      && decide (el.1 < 256)
      && huffStatePend.getD el.1 (0, 0) == p'
      && ((el.2.1 &&& 1 != 0) == acceptedPend p')

def tableOk : Bool :=
  (List.range 256).all fun s => (List.range 16).all fun n => tableOkAt s n

/-- The sixteen transitions out of one DFA state, so that each state's
slice of `tableOk` is verified independently. -/
def tableOkState (s : Nat) : Bool :=
  (List.range 16).all fun n => tableOkAt s n

def etCode (i : Nat) : Nat := (encode_table.getD i (0, 0)).1

def etBits (i : Nat) : Nat := (encode_table.getD i (0, 0)).2

/-- The bit string the encoder appends for one byte. -/
def codeBits (x : Nat) : List Nat := bitsOfLen (etBits x) (etCode x)

def encBits (l : List Nat) : List Nat := (l.map codeBits).join

/-- Four codewords' worth of the per-codeword round-trip check. -/
def codeRTC4 (c : Nat) : Bool :=
  (List.range 4).all fun i =>
    bitsDecode (codeBits (4 * c + i)) (0, 0) == some ([4 * c + i], (0, 0))

/-- Pad with one bits to the next byte boundary. -/
def padTo8 (l : List Nat) : List Nat :=
  l ++ List.replicate ((8 - l.length % 8) % 8) 1

/-- Pack a bit list (a multiple of eight bits) into bytes, MSB first. -/
def bitsToBytes : List Nat → List Nat
  | b7 :: b6 :: b5 :: b4 :: b3 :: b2 :: b1 :: b0 :: rest =>
      (b7 * 128 + b6 * 64 + b5 * 32 + b4 * 16 + b3 * 8 + b2 * 4 + b1 * 2 + b0)
        :: bitsToBytes rest
  | _ => []

theorem rangeAll_true {n : Nat} {f : Nat → Bool}
    (h : ((List.range n).all f) = true) (i : Nat) (hi : i < n) : f i = true := by
  rw [List.all_eq_true] at h
  exact h i (List.mem_range.mpr hi)

theorem bitsDecode_append (a b : List Nat) (p : Nat × Nat) :
    bitsDecode (a ++ b) p =
      (bitsDecode a p).bind (fun r =>
        (bitsDecode b r.2).map (fun r2 => (r.1 ++ r2.1, r2.2))) := by
  induction a generalizing p with
  | nil =>
      show bitsDecode b p = (some (([] : List Nat), p)).bind _
      rw [Option.some_bind]
      cases hb : bitsDecode b p with
      | none => rfl
      | some r2 => simp
  | cons x a ih =>
      rw [List.cons_append, bitsDecode, bitsDecode]
      cases hs : bitStep p x with
      | none => rfl
      | some r =>
          obtain ⟨p1, osym⟩ := r
          dsimp only []
          rw [ih p1]
          cases ha : bitsDecode a p1 with
          | none => rfl
          | some ra =>
              obtain ⟨syms1, pa⟩ := ra
              simp only [Option.some_bind]
              cases hb : bitsDecode b pa with
              | none => simp
              | some rb =>
                  obtain ⟨syms2, p2⟩ := rb
                  simp [List.append_assoc]

theorem encBits_cons (x : Nat) (t : List Nat) :
    encBits (x :: t) = codeBits x ++ encBits t := rfl

theorem encBits_decode
    (hcode : ∀ x, x < 256 → bitsDecode (codeBits x) (0, 0) = some ([x], (0, 0))) :
    ∀ (s : List Nat), (∀ b ∈ s, b < 256) → ∀ (r : List Nat),
    bitsDecode (encBits s ++ r) (0, 0) =
      (bitsDecode r (0, 0)).map (fun r2 => (s ++ r2.1, r2.2)) := by
  intro s
  induction s with
  | nil =>
      intro _ r
      show bitsDecode r (0, 0) = _
      cases hr : bitsDecode r (0, 0) with
      | none => rfl
      | some r2 => simp
  | cons x t ih =>
      intro hs r
      have hx : x < 256 := hs x (by simp)
      have hts : ∀ b ∈ t, b < 256 := fun b hb => hs b (by simp [hb])
      rw [encBits_cons, List.append_assoc, bitsDecode_append, hcode x hx,
        Option.some_bind, ih hts r]
      cases hr : bitsDecode r (0, 0) with
      | none => rfl
      | some r2 => simp

theorem bitsOfLen_length : ∀ (l v : Nat), (bitsOfLen l v).length = l := by
  intro l
  induction l with
  | zero => intro v; rfl
  | succ l ih => intro v; simp [bitsOfLen, ih]

theorem bitsOfLen_lt_two : ∀ (l v : Nat), ∀ x ∈ bitsOfLen l v, x < 2 := by
  intro l
  induction l with
  | zero => intro v x hx; simp [bitsOfLen] at hx
  | succ l ih =>
      intro v x hx
      rw [bitsOfLen] at hx
      rcases List.mem_cons.mp hx with h1 | h2
      · rw [h1]; exact Nat.mod_lt _ (by omega)
      · exact ih v x h2

theorem bitsOfLen_append (a b v : Nat) :
    bitsOfLen (a + b) v = bitsOfLen a (v / 2 ^ b) ++ bitsOfLen b v := by
  induction a with
  | zero => simp [bitsOfLen]
  | succ a ih =>
      rw [show a + 1 + b = (a + b) + 1 from by omega, bitsOfLen, ih, bitsOfLen,
        List.cons_append, Nat.div_div_eq_div_mul, ← pow_add]
      rw [show b + a = a + b from by omega]

theorem bitsOfLen_mod : ∀ (l v : Nat), bitsOfLen l (v % 2 ^ l) = bitsOfLen l v := by
  intro l
  induction l with
  | zero => intro v; rfl
  | succ l ih =>
      intro v
      rw [bitsOfLen, bitsOfLen]
      congr 1
      · rw [pow_succ, Nat.mod_mul_right_div_self]
        omega
      · calc bitsOfLen l (v % 2 ^ (l + 1))
            = bitsOfLen l ((v % 2 ^ (l + 1)) % 2 ^ l) := (ih _).symm
          _ = bitsOfLen l (v % 2 ^ l) := by
              rw [Nat.mod_mod_of_dvd _ (pow_dvd_pow 2 (by omega))]
          _ = bitsOfLen l v := ih v

theorem bitsToBytes_nil : bitsToBytes [] = [] := rfl

theorem bitsToBytes_append :
    ∀ (q : Nat) (X Y : List Nat), X.length = 8 * q →
    bitsToBytes (X ++ Y) = bitsToBytes X ++ bitsToBytes Y := by
  intro q
  induction q with
  | zero =>
      intro X Y h
      have hx : X = [] := List.length_eq_zero.mp (by omega)
      subst hx
      rw [List.nil_append, bitsToBytes_nil, List.nil_append]
  | succ q ih =>
      intro X Y h
      rcases X with _ | ⟨b7, X⟩
      · exact absurd h (by simp only [List.length_cons, List.length_nil]; omega)
      rcases X with _ | ⟨b6, X⟩
      · exact absurd h (by simp only [List.length_cons, List.length_nil]; omega)
      rcases X with _ | ⟨b5, X⟩
      · exact absurd h (by simp only [List.length_cons, List.length_nil]; omega)
      rcases X with _ | ⟨b4, X⟩
      · exact absurd h (by simp only [List.length_cons, List.length_nil]; omega)
      rcases X with _ | ⟨b3, X⟩
      · exact absurd h (by simp only [List.length_cons, List.length_nil]; omega)
      rcases X with _ | ⟨b2, X⟩
      · exact absurd h (by simp only [List.length_cons, List.length_nil]; omega)
      rcases X with _ | ⟨b1, X⟩
      · exact absurd h (by simp only [List.length_cons, List.length_nil]; omega)
      rcases X with _ | ⟨b0, X⟩
      · exact absurd h (by simp only [List.length_cons, List.length_nil]; omega)
      have hlen : X.length = 8 * q := by
        simp only [List.length_cons] at h
        omega
      simp only [List.cons_append]
      rw [bitsToBytes, bitsToBytes, ih X Y hlen, List.cons_append]

theorem bitsToBytes_byte (w : Nat) (t : List Nat) :
    bitsToBytes (bitsOfLen 8 w ++ t) = (w % 256) :: bitsToBytes t := by
  show bitsToBytes ((w / 2 ^ 7 % 2) :: (w / 2 ^ 6 % 2) :: (w / 2 ^ 5 % 2)
      :: (w / 2 ^ 4 % 2) :: (w / 2 ^ 3 % 2) :: (w / 2 ^ 2 % 2)
      :: (w / 2 ^ 1 % 2) :: (w / 2 ^ 0 % 2) :: t) = (w % 256) :: bitsToBytes t
  rw [bitsToBytes]
  congr 1
  omega

theorem padTo8_append_mul8 (X L : List Nat) (h : X.length % 8 = 0) :
    padTo8 (X ++ L) = X ++ padTo8 L := by
  rw [padTo8, padTo8, List.length_append, List.append_assoc]
  have hm : (X.length + L.length) % 8 = L.length % 8 := by omega
  rw [hm]

theorem padTo8_length_mod (L : List Nat) : (padTo8 L).length % 8 = 0 := by
  rw [padTo8, List.length_append, List.length_replicate]
  omega

theorem lor_disjoint (a b n : Nat) (hb : b < 2 ^ n) :
    a * 2 ^ n ||| b = a * 2 ^ n + b := by
  have hmod : (a * 2 ^ n ||| b) % 2 ^ n = b :=
    lor_low (Nat.mul_mod_left a (2 ^ n)) hb
  have hdiv : (a * 2 ^ n ||| b) / 2 ^ n = a := by
    rw [← Nat.shiftRight_eq_div_pow]
    apply Nat.eq_of_testBit_eq
    intro j
    rw [Nat.testBit_shiftRight, Nat.testBit_or]
    have hbbit : b.testBit (n + j) = false :=
      Nat.testBit_lt_two_pow
        (lt_of_lt_of_le hb (Nat.pow_le_pow_right (by norm_num) (by omega)))
    rw [hbbit, Bool.or_false, ← Nat.shiftLeft_eq, Nat.testBit_shiftLeft]
    simp
  conv_lhs => rw [← Nat.div_add_mod (a * 2 ^ n ||| b) (2 ^ n)]
  rw [hdiv, hmod, Nat.mul_comm]

theorem mulShift_window (x s : Nat) :
    x % 2 ^ 64 * 2 ^ s / 2 ^ 32 % 256 = x * 2 ^ s / 2 ^ 32 % 256 := by
  conv_rhs => rw [← Nat.div_add_mod x (2 ^ 64)]
  rw [Nat.add_mul]
  rw [show (2 : Nat) ^ 64 * (x / 2 ^ 64) * 2 ^ s
      = 2 ^ 32 * (2 ^ 8 * (x / 2 ^ 64 * 2 ^ (24 + s))) from by
    ring]
  rw [Nat.add_comm, Nat.add_mul_div_left _ _ (Nat.two_pow_pos 32)]
  rw [show (2 : Nat) ^ 8 * (x / 2 ^ 64 * 2 ^ (24 + s))
      = 256 * (x / 2 ^ 64 * 2 ^ (24 + s)) from by norm_num]
  rw [Nat.add_mul_mod_self_left]

theorem windowByte (g pend bl j : Nat) (h : bl + 8 * j ≤ 32) :
    (g * 2 ^ 40 + pend * 2 ^ bl) * 2 ^ (8 * j) / 2 ^ 32 % 256
      = pend / 2 ^ (32 - bl - 8 * j) % 256 := by
  have hs : 32 - bl - 8 * j + (bl + 8 * j) = 32 := by omega
  have hrest : pend % 2 ^ (32 - bl - 8 * j) * 2 ^ (bl + 8 * j) < 2 ^ 32 := by
    calc pend % 2 ^ (32 - bl - 8 * j) * 2 ^ (bl + 8 * j)
        < 2 ^ (32 - bl - 8 * j) * 2 ^ (bl + 8 * j) :=
          (Nat.mul_lt_mul_right (Nat.two_pow_pos _)).mpr
            (Nat.mod_lt _ (Nat.two_pow_pos _))
      _ = 2 ^ 32 := by rw [← pow_add, hs]
  rw [Nat.add_mul]
  rw [show g * 2 ^ 40 * 2 ^ (8 * j)
      = g * 2 ^ (8 + 8 * j) * 2 ^ 32 from by
    rw [show (40 : Nat) = 8 + 32 from rfl, pow_add, pow_add]
    ring]
  rw [show pend * 2 ^ bl * 2 ^ (8 * j)
      = pend * 2 ^ (bl + 8 * j) from by rw [pow_add]; ring]
  conv_lhs => rw [← Nat.div_add_mod pend (2 ^ (32 - bl - 8 * j))]
  rw [Nat.add_mul]
  rw [show 2 ^ (32 - bl - 8 * j) * (pend / 2 ^ (32 - bl - 8 * j)) * 2 ^ (bl + 8 * j)
      = pend / 2 ^ (32 - bl - 8 * j) * 2 ^ (32 - bl - 8 * j + (bl + 8 * j)) from by
    rw [pow_add]
    ring]
  rw [hs]
  rw [← Nat.add_assoc, ← Nat.add_mul,
    Nat.mul_comm (g * 2 ^ (8 + 8 * j) + pend / 2 ^ (32 - bl - 8 * j)) (2 ^ 32),
    Nat.mul_add_div (Nat.two_pow_pos 32),
    Nat.div_eq_of_lt hrest, Nat.add_zero]
  rw [show g * 2 ^ (8 + 8 * j) = 256 * (g * 2 ^ (8 * j)) from by
    rw [pow_add]
    norm_num
    ring]
  rw [Nat.mul_add_mod]

theorem mulShift_mod64 (x s : Nat) :
    x % 2 ^ 64 * 2 ^ s % 2 ^ 64 = x * 2 ^ s % 2 ^ 64 := Nat.mod_mul_mod

theorem huffFlushGo_spec :
    ∀ (fuel bits bl : Nat), bl ≤ 40 → 40 ≤ bl + 8 * fuel → bits < 2 ^ 64 →
    huffFlushGo fuel bits bl
      = ((List.range ((40 - bl) / 8)).map (fun j => bits * 2 ^ (8 * j) / 2 ^ 32 % 256),
         bits * 2 ^ (8 * ((40 - bl) / 8)) % 2 ^ 64,
         bl + 8 * ((40 - bl) / 8)) := by
  intro fuel
  induction fuel with
  | zero =>
      intro bits bl hbl hfuel hb64
      have h40 : bl = 40 := by omega
      subst h40
      rw [huffFlushGo]
      norm_num
      exact (Nat.mod_eq_of_lt hb64).symm
  | succ fuel ih =>
      intro bits bl hbl hfuel hb64
      rw [huffFlushGo]
      by_cases hble : bl ≤ 32
      · rw [if_pos hble]
        dsimp only []
        have hb64' : bits <<< 8 % 2 ^ 64 < 2 ^ 64 := Nat.mod_lt _ (by norm_num)
        rw [ih (bits <<< 8 % 2 ^ 64) (bl + 8) (by omega) (by omega) hb64']
        have hq : (40 - bl) / 8 = (40 - (bl + 8)) / 8 + 1 := by omega
        rw [hq]
        refine congrArg₂ Prod.mk ?_ (congrArg₂ Prod.mk ?_ ?_)
        · rw [List.range_succ_eq_map, List.map_cons, List.map_map]
          refine congrArg₂ List.cons ?_ ?_
          · rw [Nat.shiftRight_eq_div_pow]
            norm_num
          · apply List.map_congr_left
            intro j hj
            show bits <<< 8 % 2 ^ 64 * 2 ^ (8 * j) / 2 ^ 32 % 256
              = bits * 2 ^ (8 * (j + 1)) / 2 ^ 32 % 256
            rw [Nat.shiftLeft_eq, mulShift_window (bits * 2 ^ 8) (8 * j),
              Nat.mul_assoc, ← pow_add,
              show 8 + 8 * j = 8 * (j + 1) from by omega]
        · rw [Nat.shiftLeft_eq, mulShift_mod64 (bits * 2 ^ 8) _,
            Nat.mul_assoc, ← pow_add,
            show 8 + 8 * ((40 - (bl + 8)) / 8) = 8 * ((40 - (bl + 8)) / 8 + 1) from by
              omega]
        · omega
      · rw [if_neg hble]
        have hq0 : (40 - bl) / 8 = 0 := by omega
        rw [hq0]
        norm_num
        exact (Nat.mod_eq_of_lt hb64).symm

theorem bitsToBytes_bitsOfLen_map :
    ∀ (q w : Nat), bitsToBytes (bitsOfLen (8 * q) w)
      = (List.range q).map (fun j => w / 2 ^ (8 * (q - 1 - j)) % 256) := by
  intro q
  induction q with
  | zero => intro w; rfl
  | succ q ih =>
      intro w
      have hsplit : 8 * (q + 1) = 8 + 8 * q := by omega
      rw [hsplit, bitsOfLen_append, bitsToBytes_byte (w / 2 ^ (8 * q)) _, ih w,
        List.range_succ_eq_map, List.map_cons, List.map_map]
      
      refine congrArg₂ List.cons ?_ ?_
      · rw [show q + 1 - 1 - 0 = q from by omega]
      · apply List.map_congr_left
        intro j hj
        show w / 2 ^ (8 * (q - 1 - j)) % 256 = w / 2 ^ (8 * (q + 1 - 1 - (j + 1))) % 256
        rw [show q + 1 - 1 - (j + 1) = q - 1 - j from by omega]

theorem low40_char (g pend bl q m : Nat) (hm : bl + 8 * q + m = 40)
    (hpend : pend < 2 ^ (m + 8 * q)) :
    (g * 2 ^ 40 + pend * 2 ^ bl) * 2 ^ (8 * q) % 2 ^ 64 % 2 ^ 40
      = pend % 2 ^ m * 2 ^ (bl + 8 * q) := by
  rw [Nat.mod_mod_of_dvd _ (pow_dvd_pow 2 (by omega))]
  rw [Nat.add_mul]
  rw [show g * 2 ^ 40 * 2 ^ (8 * q) = 2 ^ 40 * (g * 2 ^ (8 * q)) from by ring]
  rw [Nat.mul_add_mod]
  rw [show pend * 2 ^ bl * 2 ^ (8 * q) = pend * 2 ^ (bl + 8 * q) from by
    rw [pow_add]
    ring]
  conv_lhs => rw [← Nat.div_add_mod pend (2 ^ m)]
  rw [Nat.add_mul]
  rw [show 2 ^ m * (pend / 2 ^ m) * 2 ^ (bl + 8 * q)
      = 2 ^ 40 * (pend / 2 ^ m) from by
    rw [show (40 : Nat) = m + (bl + 8 * q) from by omega, pow_add]
    ring]
  rw [Nat.add_comm, Nat.add_mul_mod_self_left]
  apply Nat.mod_eq_of_lt
  calc pend % 2 ^ m * 2 ^ (bl + 8 * q)
      < 2 ^ m * 2 ^ (bl + 8 * q) :=
        (Nat.mul_lt_mul_right (Nat.two_pow_pos _)).mpr
          (Nat.mod_lt _ (Nat.two_pow_pos _))
    _ = 2 ^ 40 := by rw [← pow_add]; congr 1; omega

theorem bitsOfLen_ones : ∀ (l : Nat), bitsOfLen l (2 ^ l - 1) = List.replicate l 1 := by
  intro l
  induction l with
  | zero => rfl
  | succ l ih =>
      have ht := Nat.two_pow_pos l
      have h2 : (2 : Nat) ^ (l + 1) = 2 ^ l * 2 := pow_succ 2 l
      rw [bitsOfLen, List.replicate_succ]
      refine congrArg₂ List.cons ?_ ?_
      · have hd : ((2 : Nat) ^ (l + 1) - 1) / 2 ^ l = 1 := by
          apply Nat.div_eq_of_lt_le
          · omega
          · omega
        rw [hd]
      · have hm : ((2 : Nat) ^ (l + 1) - 1) % 2 ^ l = 2 ^ l - 1 := by
          have hsum : (2 : Nat) ^ (l + 1) - 1 = 2 ^ l + (2 ^ l - 1) := by omega
          rw [hsum, Nat.add_mod_left, Nat.mod_eq_of_lt (by omega)]
        rw [← bitsOfLen_mod, hm, ih]

set_option maxRecDepth 2000 in
theorem etBits_bounds_all :
    ((List.range 257).all fun i =>
      5 ≤ etBits i && etBits i ≤ 30 && decide (etCode i < 2 ^ etBits i)) = true := by
  decide

theorem etBits_bounds (i : Nat) (hi : i < 257) :
    5 ≤ etBits i ∧ etBits i ≤ 30 ∧ etCode i < 2 ^ etBits i := by
  have h := rangeAll_true etBits_bounds_all i hi
  rw [Bool.and_eq_true, Bool.and_eq_true] at h
  exact ⟨of_decide_eq_true h.1.1, of_decide_eq_true h.1.2, of_decide_eq_true h.2⟩

theorem qenc_huffman_enc_go_spec :
    ∀ (src : List Nat), (∀ x ∈ src, x < 256) →
    ∀ (g pend bl : Nat), 33 ≤ bl → bl ≤ 40 → pend < 2 ^ (40 - bl) → g < 2 ^ 24 →
    qenc_huffman_enc_go src (g * 2 ^ 40 + pend * 2 ^ bl) bl
      = bitsToBytes (padTo8 (bitsOfLen (40 - bl) pend ++ encBits src)) := by
  intro src
  induction src with
  | nil =>
      intro _ g pend bl hbl33 hbl40 hp hg
      rw [qenc_huffman_enc_go]
      rw [show encBits [] = [] from rfl, List.append_nil]
      by_cases h40 : bl = 40
      · subst h40
        rw [if_neg (fun h => h rfl)]
        simp [bitsOfLen, padTo8, bitsToBytes, List.replicate]
      · rw [if_pos h40]
        have hp40 : (2 : Nat) ^ 40 = 2 ^ (40 - bl) * 2 ^ bl := by
          rw [← pow_add]
          congr 1
          omega
        have hsplit : g * 2 ^ 40 + pend * 2 ^ bl
            = (g * 2 ^ (40 - bl) + pend) * 2 ^ bl := by
          rw [hp40]
          ring
        have hlt : (2 : Nat) ^ bl - 1 < 2 ^ bl := by
          have := Nat.two_pow_pos bl
          omega
        rw [hsplit, lor_disjoint _ _ _ hlt, Nat.shiftRight_eq_div_pow]
        have hbl39 : bl ≤ 39 := by omega
        interval_cases bl <;>
          (simp only [bitsOfLen, padTo8, bitsToBytes, List.length_cons,
            List.length_nil, List.cons_append, List.nil_append, List.replicate]
           norm_num
           omega)
  | cons b rest ih =>
      intro hsrc g pend bl hbl33 hbl40 hp hg
      have hb : b < 256 := hsrc b (by simp)
      obtain ⟨hk5, hk30, hclt⟩ := etBits_bounds b (by omega)
      rw [qenc_huffman_enc_go]
      have hce : encode_table.getD b (0, 0) = (etCode b, etBits b) := rfl
      rw [hce]
      dsimp only []
      rw [Nat.shiftLeft_eq]
      -- abbreviations
      have hKle : etBits b ≤ bl := by omega
      have hp40 : (2 : Nat) ^ 40 = 2 ^ (40 - bl) * 2 ^ bl := by
        rw [← pow_add]
        congr 1
        omega
      have hsplitbits : g * 2 ^ 40 + pend * 2 ^ bl
          = (g * 2 ^ (40 - bl) + pend) * 2 ^ bl := by
        rw [hp40]
        ring
      have hclt2 : etCode b * 2 ^ (bl - etBits b) < 2 ^ bl := by
        calc etCode b * 2 ^ (bl - etBits b)
            < 2 ^ etBits b * 2 ^ (bl - etBits b) :=
              (Nat.mul_lt_mul_right (Nat.two_pow_pos _)).mpr hclt
          _ = 2 ^ bl := by
              rw [← pow_add]
              congr 1
              omega
      rw [hsplitbits, lor_disjoint _ _ _ hclt2]
      -- bits + c·2^(bl-k) = g·2^40 + pendN·2^(bl-k)
      have hpend2 : (2 : Nat) ^ (40 - bl) * 2 ^ etBits b = 2 ^ (40 - (bl - etBits b)) := by
        rw [← pow_add]
        congr 1
        omega
      have hpendN : pend * 2 ^ etBits b + etCode b < 2 ^ (40 - (bl - etBits b)) := by
        have h1 : pend * 2 ^ etBits b + etCode b
            < (pend + 1) * 2 ^ etBits b := by
          rw [Nat.add_mul, Nat.one_mul]
          omega
        calc pend * 2 ^ etBits b + etCode b
            < (pend + 1) * 2 ^ etBits b := h1
          _ ≤ 2 ^ (40 - bl) * 2 ^ etBits b := by
              exact Nat.mul_le_mul_right _ (by omega)
          _ = 2 ^ (40 - (bl - etBits b)) := hpend2
      have hform : (g * 2 ^ (40 - bl) + pend) * 2 ^ bl + etCode b * 2 ^ (bl - etBits b)
          = g * 2 ^ 40 + (pend * 2 ^ etBits b + etCode b) * 2 ^ (bl - etBits b) := by
        have e1 : (2 : Nat) ^ (40 - bl) * 2 ^ bl = 2 ^ 40 := by
          rw [← pow_add]
          congr 1
          omega
        have e2 : (2 : Nat) ^ etBits b * 2 ^ (bl - etBits b) = 2 ^ bl := by
          rw [← pow_add]
          congr 1
          omega
        rw [Nat.add_mul, Nat.add_mul, Nat.mul_assoc g, e1, Nat.mul_assoc pend, e2]
        omega
      rw [hform]
      -- flush
      have hbits64 : g * 2 ^ 40 + (pend * 2 ^ etBits b + etCode b) * 2 ^ (bl - etBits b)
          < 2 ^ 64 := by
        have h1 : (pend * 2 ^ etBits b + etCode b) * 2 ^ (bl - etBits b)
            < 2 ^ (40 - (bl - etBits b)) * 2 ^ (bl - etBits b) :=
          (Nat.mul_lt_mul_right (Nat.two_pow_pos _)).mpr hpendN
        have h2 : (2 : Nat) ^ (40 - (bl - etBits b)) * 2 ^ (bl - etBits b) = 2 ^ 40 := by
          rw [← pow_add]
          congr 1
          omega
        rw [h2] at h1
        have : g * 2 ^ 40 ≤ (2 ^ 24 - 1) * 2 ^ 40 :=
          Nat.mul_le_mul_right _ (by omega)
        norm_num at this ⊢
        omega
      have hflush := huffFlushGo_spec 5
        (g * 2 ^ 40 + (pend * 2 ^ etBits b + etCode b) * 2 ^ (bl - etBits b))
        (bl - etBits b) (by omega) (by omega) hbits64
      rw [show huffFlushLoop
          (g * 2 ^ 40 + (pend * 2 ^ etBits b + etCode b) * 2 ^ (bl - etBits b))
          (bl - etBits b)
        = huffFlushGo 5
          (g * 2 ^ 40 + (pend * 2 ^ etBits b + etCode b) * 2 ^ (bl - etBits b))
          (bl - etBits b) from rfl, hflush]
      dsimp only []
      generalize hqg : (40 - (bl - etBits b)) / 8 = q
      generalize hmg : (40 - (bl - etBits b)) % 8 = m
      -- the split exponent facts
      have hKqm : bl - etBits b + 8 * q + m = 40 := by omega
      have hm7 : m ≤ 7 := by omega
      -- decompose the post-flush accumulator
      have hlow := low40_char g (pend * 2 ^ etBits b + etCode b) (bl - etBits b)
        q m (by omega)
        (by rw [show m + 8 * q = 40 - (bl - etBits b) from by omega]
            exact hpendN)
      have ha64 : (g * 2 ^ 40 + (pend * 2 ^ etBits b + etCode b) * 2 ^ (bl - etBits b))
          * 2 ^ (8 * q) % 2 ^ 64 < 2 ^ 64 := Nat.mod_lt _ (by norm_num)
      have hbits2 : (g * 2 ^ 40 + (pend * 2 ^ etBits b + etCode b) * 2 ^ (bl - etBits b))
            * 2 ^ (8 * q) % 2 ^ 64
          = ((g * 2 ^ 40 + (pend * 2 ^ etBits b + etCode b) * 2 ^ (bl - etBits b))
              * 2 ^ (8 * q) % 2 ^ 64 / 2 ^ 40) * 2 ^ 40
            + (pend * 2 ^ etBits b + etCode b) % 2 ^ m
              * 2 ^ (bl - etBits b + 8 * q) := by
        omega
      rw [hbits2]
      have hrest : ∀ x ∈ rest, x < 256 := fun x hx => hsrc x (List.mem_cons_of_mem b hx)
      rw [ih hrest
        ((g * 2 ^ 40 + (pend * 2 ^ etBits b + etCode b) * 2 ^ (bl - etBits b))
          * 2 ^ (8 * q) % 2 ^ 64 / 2 ^ 40)
        ((pend * 2 ^ etBits b + etCode b) % 2 ^ m)
        (bl - etBits b + 8 * q)
        (by omega) (by omega)
        (by rw [show 40 - (bl - etBits b + 8 * q) = m from by omega]
            exact Nat.mod_lt _ (Nat.two_pow_pos m))
        (by omega)]
      rw [show 40 - (bl - etBits b + 8 * q) = m from by omega]
      -- the flushed bytes
      have hmap : List.map
          (fun j => (g * 2 ^ 40 + (pend * 2 ^ etBits b + etCode b) * 2 ^ (bl - etBits b))
            * 2 ^ (8 * j) / 2 ^ 32 % 256) (List.range q)
          = bitsToBytes (bitsOfLen (8 * q)
              ((pend * 2 ^ etBits b + etCode b) / 2 ^ m)) := by
        rw [bitsToBytes_bitsOfLen_map]
        apply List.map_congr_left
        intro j hj
        have hj' : j < q := List.mem_range.mp hj
        rw [windowByte g (pend * 2 ^ etBits b + etCode b) (bl - etBits b) j (by omega)]
        rw [Nat.div_div_eq_div_mul, ← pow_add]
        rw [show 32 - (bl - etBits b) - 8 * j = m + 8 * (q - 1 - j) from by omega]
      rw [hmap]
      -- massage the right-hand side
      rw [show encBits (b :: rest) = codeBits b ++ encBits rest from rfl,
        ← List.append_assoc]
      have hpdiv : (pend * 2 ^ etBits b + etCode b) / 2 ^ etBits b = pend := by
        rw [Nat.mul_comm pend, Nat.mul_add_div (Nat.two_pow_pos _),
          Nat.div_eq_of_lt hclt, Nat.add_zero]
      have hpmod : (pend * 2 ^ etBits b + etCode b) % 2 ^ etBits b = etCode b := by
        rw [Nat.mul_comm pend, Nat.mul_add_mod]
        exact Nat.mod_eq_of_lt hclt
      have hjoin : bitsOfLen (40 - bl) pend ++ codeBits b
          = bitsOfLen (40 - (bl - etBits b)) (pend * 2 ^ etBits b + etCode b) := by
        rw [show codeBits b = bitsOfLen (etBits b) (etCode b) from rfl]
        conv_rhs => rw [show 40 - (bl - etBits b) = (40 - bl) + etBits b from by omega]
        rw [bitsOfLen_append, hpdiv]
        refine congrArg₂ List.append rfl ?_
        rw [← bitsOfLen_mod (etBits b) (pend * 2 ^ etBits b + etCode b), hpmod]
      rw [hjoin]
      have hsplit2 : bitsOfLen (40 - (bl - etBits b)) (pend * 2 ^ etBits b + etCode b)
          = bitsOfLen (8 * q) ((pend * 2 ^ etBits b + etCode b) / 2 ^ m)
            ++ bitsOfLen m ((pend * 2 ^ etBits b + etCode b) % 2 ^ m) := by
        conv_lhs => rw [show 40 - (bl - etBits b) = 8 * q + m from by omega]
        rw [bitsOfLen_append]
        refine congrArg₂ List.append rfl ?_
        rw [bitsOfLen_mod]
      have h8len : (bitsOfLen (8 * q)
          ((pend * 2 ^ etBits b + etCode b) / 2 ^ m)).length % 8 = 0 := by
        rw [bitsOfLen_length]
        exact Nat.mul_mod_right 8 q
      conv_rhs => rw [hsplit2, List.append_assoc, padTo8_append_mul8 _ _ h8len,
        bitsToBytes_append q _ _ (bitsOfLen_length _ _)]

theorem qenc_huffman_enc_spec (src : List Nat) (hsrc : ∀ x ∈ src, x < 256) :
    qenc_huffman_enc src = bitsToBytes (padTo8 (encBits src)) := by
  have h := qenc_huffman_enc_go_spec src hsrc 0 0 40 (by omega) (le_refl _)
    (by norm_num) (by norm_num)
  norm_num [bitsOfLen] at h
  rw [qenc_huffman_enc]
  exact h

theorem tableOkAt_true (htab : tableOk = true) (s n : Nat) (hs : s < 256)
    (hn : n < 16) : tableOkAt s n = true := by
  have h1 := rangeAll_true htab s hs
  exact rangeAll_true h1 n hn

theorem dec4bits_none (htab : tableOk = true) (s n : Nat) (hs : s < 256)
    (hn : n < 16) (dst : List Nat) (e : Bool)
    (hbd : bitsDecode (bitsOfLen 4 n) (huffStatePend.getD s (0, 0)) = none) :
    qdec_huff_dec4bits n dst (s, e) = none := by
  have ht := tableOkAt_true htab s n hs hn
  rw [tableOkAt] at ht
  rw [hbd] at ht
  rw [qdec_huff_dec4bits]
  rw [if_pos ht]

theorem dec4bits_some (htab : tableOk = true) (s n : Nat) (hs : s < 256)
    (hn : n < 16) (dst : List Nat) (e : Bool) (syms : List Nat) (p' : Nat × Nat)
    (hbd : bitsDecode (bitsOfLen 4 n) (huffStatePend.getD s (0, 0)) = some (syms, p')) :
    (decodeEl s n).1 < 256
    ∧ huffStatePend.getD (decodeEl s n).1 (0, 0) = p'
    ∧ qdec_huff_dec4bits n dst (s, e)
        = some (dst ++ syms, ((decodeEl s n).1, acceptedPend p')) := by
  have ht := tableOkAt_true htab s n hs hn
  rw [tableOkAt] at ht
  rw [hbd] at ht
  rw [Bool.and_eq_true, Bool.and_eq_true, Bool.and_eq_true, Bool.and_eq_true] at ht
  obtain ⟨⟨⟨⟨hfail, hsym⟩, hlt⟩, hpend⟩, hacc⟩ := ht
  refine ⟨of_decide_eq_true hlt, eq_of_beq hpend, ?_⟩
  have h4 : (decodeEl s n).2.1 &&& 4 = 0 := eq_of_beq hfail
  have hacc2 : ((decodeEl s n).2.1 &&& 1 != 0) = acceptedPend p' := eq_of_beq hacc
  rw [qdec_huff_dec4bits, h4, if_neg (by decide), hacc2]
  cases syms with
  | nil =>
      have h2 : (decodeEl s n).2.1 &&& 2 = 0 := eq_of_beq hsym
      rw [h2, if_neg (by decide), List.append_nil]
  | cons i t =>
      cases t with
      | nil =>
          rw [Bool.and_eq_true] at hsym
          obtain ⟨hs2, hs3⟩ := hsym
          rw [if_pos hs2, eq_of_beq hs3]
      | cons j t2 => exact Bool.noConfusion hsym

theorem bytesBits_cons (b : Nat) (t : List Nat) :
    bytesBits (b :: t) = bitsOfLen 8 b ++ bytesBits t := rfl

theorem byte_nibbles (b : Nat) :
    bitsOfLen 8 b = bitsOfLen 4 (b >>> 4) ++ bitsOfLen 4 (b &&& 15) := by
  rw [show (8 : Nat) = 4 + 4 from rfl, bitsOfLen_append]
  refine congrArg₂ List.append ?_ ?_
  · rw [Nat.shiftRight_eq_div_pow]
  · rw [show b &&& 15 = b % 2 ^ 4 from Nat.and_pow_two_sub_one_eq_mod b 4,
      bitsOfLen_mod]

theorem huffDec_ck1_spec (htab : tableOk = true) :
    ∀ (src : List Nat), (∀ x ∈ src, x < 256) →
    ∀ (dst_len : Nat) (final : Bool) (res0 : Nat)
      (dst : List Nat) (s : Nat) (e : Bool) (syms : List Nat) (p' : Nat × Nat),
    s < 256 →
    e = acceptedPend (huffStatePend.getD s (0, 0)) →
    bitsDecode (bytesBits src) (huffStatePend.getD s (0, 0)) = some (syms, p') →
    dst.length + syms.length < dst_len →
    ∃ s', s' < 256 ∧ huffStatePend.getD s' (0, 0) = p' ∧
      huffDec_ck1 dst_len final res0 src dst (s, e)
        = ((if final then (if acceptedPend p' then HuffDecStatus.huff_dec_ok
              else HuffDecStatus.huff_dec_error)
            else HuffDecStatus.huff_dec_end_src),
           dst ++ syms,
           ⟨if final then res0 else 1, s', acceptedPend p'⟩) := by
  intro src
  induction src with
  | nil =>
      intro _ dst_len final res0 dst s e syms p' hs he hbd hlen
      rw [show bitsDecode (bytesBits []) (huffStatePend.getD s (0, 0))
          = some (([] : List Nat), huffStatePend.getD s (0, 0)) from rfl] at hbd
      simp only [Option.some.injEq, Prod.mk.injEq] at hbd
      obtain ⟨h1, h2⟩ := hbd
      subst h1
      subst h2
      refine ⟨s, hs, rfl, ?_⟩
      rw [huffDec_ck1, List.append_nil, ← he]
      cases final with
      | false => rfl
      | true =>
          cases e with
          | false => rfl
          | true => rfl
  | cons b rest ih =>
      intro hsrc dst_len final res0 dst s e syms p' hs he hbd hlen
      have hb : b < 256 := hsrc b (by simp)
      have hrest : ∀ x ∈ rest, x < 256 := fun x hx => hsrc x (by simp [hx])
      have hn1 : b >>> 4 < 16 := by
        rw [Nat.shiftRight_eq_div_pow]
        omega
      have hn2 : b &&& 15 < 16 := by
        have := Nat.and_le_right (n := b) (m := 15)
        omega
      rw [bytesBits_cons, byte_nibbles, List.append_assoc,
        bitsDecode_append] at hbd
      cases hs1 : bitsDecode (bitsOfLen 4 (b >>> 4)) (huffStatePend.getD s (0, 0)) with
      | none =>
          rw [hs1] at hbd
          exact absurd hbd (by simp)
      | some r1 =>
          obtain ⟨sy1, p1⟩ := r1
          rw [hs1] at hbd
          simp only [Option.some_bind] at hbd
          rw [bitsDecode_append] at hbd
          cases hs2 : bitsDecode (bitsOfLen 4 (b &&& 15)) p1 with
          | none =>
              rw [hs2] at hbd
              exact absurd hbd (by simp)
          | some r2 =>
              obtain ⟨sy2, p2⟩ := r2
              rw [hs2] at hbd
              simp only [Option.some_bind] at hbd
              cases hs3 : bitsDecode (bytesBits rest) p2 with
              | none =>
                  rw [hs3] at hbd
                  exact absurd hbd (by simp)
              | some r3 =>
                  obtain ⟨sy3, p3⟩ := r3
                  rw [hs3] at hbd
                  simp only [Option.map_some', Option.some.injEq, Prod.mk.injEq] at hbd
                  obtain ⟨hsyms, hp3⟩ := hbd
                  subst hp3
                  obtain ⟨hlt1, hpend1, hstep1⟩ :=
                    dec4bits_some htab s (b >>> 4) hs hn1 dst e sy1 p1 hs1
                  have hs2' : bitsDecode (bitsOfLen 4 (b &&& 15))
                      (huffStatePend.getD (decodeEl s (b >>> 4)).1 (0, 0)) = some (sy2, p2) := by
                    rw [hpend1]
                    exact hs2
                  obtain ⟨hlt2, hpend2, hstep2⟩ :=
                    dec4bits_some htab (decodeEl s (b >>> 4)).1 (b &&& 15) hlt1 hn2
                      (dst ++ sy1) (acceptedPend p1) sy2 p2 hs2'
                  have hs3' : bitsDecode (bytesBits rest)
                      (huffStatePend.getD
                        (decodeEl (decodeEl s (b >>> 4)).1 (b &&& 15)).1 (0, 0))
                      = some (sy3, p3) := by
                    rw [hpend2]
                    exact hs3
                  have hlensub : sy1.length + sy2.length + sy3.length = syms.length := by
                    rw [← hsyms]
                    simp only [List.length_append]
                    omega
                  obtain ⟨s3, hlt3, hpend3, hrun⟩ := ih hrest dst_len final res0
                    (dst ++ sy1 ++ sy2)
                    (decodeEl (decodeEl s (b >>> 4)).1 (b &&& 15)).1
                    (acceptedPend p2) sy3 p3 hlt2
                    (by rw [hpend2]) hs3'
                    (by simp only [List.length_append]; omega)
                  refine ⟨s3, hlt3, hpend3, ?_⟩
                  rw [huffDec_ck1]
                  rw [if_neg (by omega : ¬ dst.length = dst_len)]
                  rw [hstep1]
                  dsimp only []
                  rw [if_neg (by simp only [List.length_append]; omega
                    : ¬ (dst ++ sy1).length = dst_len)]
                  rw [hstep2]
                  dsimp only []
                  rw [hrun]
                  rw [← hsyms]
                  simp [List.append_assoc]

theorem bytesBits_append (a b : List Nat) :
    bytesBits (a ++ b) = bytesBits a ++ bytesBits b := by
  simp [bytesBits]

theorem huffDecodeChunks_spec (htab : tableOk = true) :
    ∀ (chunks : List (List Nat)), chunks ≠ [] →
    (∀ c ∈ chunks, ∀ x ∈ c, x < 256) →
    ∀ (dst_len : Nat) (st : HuffDecodeState) (s : Nat) (e : Bool)
      (syms : List Nat) (p' : Nat × Nat),
    (st.resume = 0 ∧ s = 0 ∧ e = true ∨ st.resume = 1 ∧ st.state = s ∧ st.eos = e) →
    s < 256 →
    e = acceptedPend (huffStatePend.getD s (0, 0)) →
    bitsDecode (bytesBits chunks.join) (huffStatePend.getD s (0, 0)) = some (syms, p') →
    syms.length < dst_len →
    acceptedPend p' = true →
    (((huffDecodeChunks chunks dst_len st).1.map (fun x => x.2)).join = syms
     ∧ (huffDecodeChunks chunks dst_len st).1.length = chunks.length
     ∧ (∀ i, i + 1 < (huffDecodeChunks chunks dst_len st).1.length →
         ((huffDecodeChunks chunks dst_len st).1.getD i
           (HuffDecStatus.huff_dec_error, [])).1 = HuffDecStatus.huff_dec_end_src)
     ∧ ((huffDecodeChunks chunks dst_len st).1.getD
         ((huffDecodeChunks chunks dst_len st).1.length - 1)
         (HuffDecStatus.huff_dec_error, [])).1 = HuffDecStatus.huff_dec_ok
     ∧ (huffDecodeChunks chunks dst_len st).2.eos = true) := by
  intro chunks
  induction chunks with
  | nil => intro h; exact absurd rfl h
  | cons c ctail ih =>
      intro _ hbytes dst_len st s e syms p' hres hs he hbd hlen hacc
      obtain ⟨r0, ss, ee⟩ := st
      have hcall : lsqpack_huff_decode c dst_len ⟨r0, ss, ee⟩
          = fun f => huffDec_ck1 dst_len f r0 c [] (s, e) := by
        rcases hres with ⟨h0, hs0, he0⟩ | ⟨h1, hseq, heeq⟩
        · simp only at h0
          subst h0
          subst hs0
          subst he0
          rfl
        · simp only at h1 hseq heeq
          subst h1
          subst hseq
          subst heeq
          rfl
      cases ctail with
      | nil =>
          rw [show (c :: ([] : List (List Nat))).join = c from by simp] at hbd
          obtain ⟨s1, hlt1, hpend1, hrun⟩ := huffDec_ck1_spec htab c
            (hbytes c (by simp)) dst_len true r0 [] s e syms p' hs he hbd
            (by simpa using hlen)
          rw [show huffDecodeChunks [c] dst_len ⟨r0, ss, ee⟩
              = (let r := lsqpack_huff_decode c dst_len ⟨r0, ss, ee⟩ true
                 ([(r.1, r.2.1)], r.2.2)) from rfl]
          rw [show lsqpack_huff_decode c dst_len ⟨r0, ss, ee⟩ true
              = huffDec_ck1 dst_len true r0 c [] (s, e) from congrFun hcall true]
          rw [hrun]
          dsimp only []
          rw [hacc]
          refine ⟨by simp, rfl, ?_, rfl, rfl⟩
          intro i hi
          simp at hi
      | cons c2 ctail2 =>
          rw [show (c :: c2 :: ctail2).join = c ++ (c2 :: ctail2).join from rfl,
            bytesBits_append, bitsDecode_append] at hbd
          cases hs1 : bitsDecode (bytesBits c) (huffStatePend.getD s (0, 0)) with
          | none =>
              rw [hs1] at hbd
              exact absurd hbd (by simp)
          | some r1 =>
              obtain ⟨sy1, p1⟩ := r1
              rw [hs1] at hbd
              simp only [Option.some_bind] at hbd
              cases hs2 : bitsDecode (bytesBits (c2 :: ctail2).join) p1 with
              | none =>
                  rw [hs2] at hbd
                  exact absurd hbd (by simp)
              | some r2 =>
                  obtain ⟨sy2, p2⟩ := r2
                  rw [hs2] at hbd
                  simp only [Option.map_some', Option.some.injEq, Prod.mk.injEq] at hbd
                  obtain ⟨hsyms, hp2⟩ := hbd
                  rw [hp2] at hs2
                  obtain ⟨s1, hlt1, hpend1, hrun⟩ := huffDec_ck1_spec htab c
                    (hbytes c (by simp)) dst_len false r0 [] s e sy1 p1 hs he hs1
                    (by
                      have : sy1.length ≤ syms.length := by
                        rw [← hsyms]
                        simp
                      simpa using (by omega : sy1.length < dst_len))
                  have hs2' : bitsDecode (bytesBits (c2 :: ctail2).join)
                      (huffStatePend.getD s1 (0, 0)) = some (sy2, p') := by
                    rw [hpend1]
                    exact hs2
                  have ihh := ih (by simp)
                    (fun cc hcc => hbytes cc (List.mem_cons_of_mem c hcc))
                    dst_len ⟨1, s1, acceptedPend p1⟩ s1 (acceptedPend p1)
                    sy2 p' (Or.inr ⟨rfl, rfl, rfl⟩) hlt1 (by rw [hpend1]) hs2'
                    (by
                      have : sy2.length ≤ syms.length := by
                        rw [← hsyms]
                        simp
                      omega) hacc
                  rw [show huffDecodeChunks (c :: c2 :: ctail2) dst_len ⟨r0, ss, ee⟩
                      = (let r := lsqpack_huff_decode c dst_len ⟨r0, ss, ee⟩ false
                         let rr := huffDecodeChunks (c2 :: ctail2) dst_len r.2.2
                         ((r.1, r.2.1) :: rr.1, rr.2)) from rfl]
                  rw [show lsqpack_huff_decode c dst_len ⟨r0, ss, ee⟩ false
                      = huffDec_ck1 dst_len false r0 c [] (s, e) from congrFun hcall false]
                  have hrun2 : huffDec_ck1 dst_len false r0 c [] (s, e)
                      = (HuffDecStatus.huff_dec_end_src, [] ++ sy1,
                         ⟨1, s1, acceptedPend p1⟩) := hrun
                  rw [hrun2]
                  dsimp only []
                  obtain ⟨ihj, ihlen, ihmid, ihlast, iheos⟩ := ihh
                  refine ⟨?_, ?_, ?_, ?_, iheos⟩
                  · simp only [List.map_cons, List.join_cons]
                    have ihj2 : (List.map (fun x => x.2)
                        (huffDecodeChunks (c2 :: ctail2) dst_len
                          (⟨1, s1, acceptedPend p1⟩ : HuffDecodeState)).1).flatten = sy2 := ihj
                    rw [List.nil_append, ihj2, hsyms]
                  · simp only [List.length_cons]
                    rw [ihlen]
                    rfl
                  · intro i hi
                    cases i with
                    | zero => rfl
                    | succ i2 =>
                        simp only [List.length_cons] at hi
                        have := ihmid i2 (by omega)
                        simpa using this
                  · simp only [List.length_cons]
                    rw [show (huffDecodeChunks (c2 :: ctail2) dst_len
                        ⟨1, s1, acceptedPend p1⟩).1.length + 1 - 1
                      = ((huffDecodeChunks (c2 :: ctail2) dst_len
                        ⟨1, s1, acceptedPend p1⟩).1.length - 1) + 1 from by
                      rw [ihlen]
                      simp]
                    simpa using ihlast

/- Each DFA state's sixteen transitions agree with the bit-level
reference decoder; checked one state at a time. -/
set_option maxHeartbeats 400000 in
set_option maxRecDepth 4000 in
theorem tableOkState_eq_0 : tableOkState 0 = true := by decide

set_option maxHeartbeats 400000 in
set_option maxRecDepth 4000 in
theorem tableOkState_eq_1 : tableOkState 1 = true := by decide

set_option maxHeartbeats 400000 in
set_option maxRecDepth 4000 in
theorem tableOkState_eq_2 : tableOkState 2 = true := by decide

set_option maxHeartbeats 400000 in
set_option maxRecDepth 4000 in
theorem tableOkState_eq_3 : tableOkState 3 = true := by decide

set_option maxHeartbeats 400000 in
set_option maxRecDepth 4000 in
theorem tableOkState_eq_4 : tableOkState 4 = true := by decide

set_option maxHeartbeats 400000 in
set_option maxRecDepth 4000 in
theorem tableOkState_eq_5 : tableOkState 5 = true := by decide

set_option maxHeartbeats 400000 in
set_option maxRecDepth 4000 in
theorem tableOkState_eq_6 : tableOkState 6 = true := by decide

set_option maxHeartbeats 400000 in
set_option maxRecDepth 4000 in
theorem tableOkState_eq_7 : tableOkState 7 = true := by decide

set_option maxHeartbeats 400000 in
set_option maxRecDepth 4000 in
theorem tableOkState_eq_8 : tableOkState 8 = true := by decide

set_option maxHeartbeats 400000 in
set_option maxRecDepth 4000 in
theorem tableOkState_eq_9 : tableOkState 9 = true := by decide

set_option maxHeartbeats 400000 in
set_option maxRecDepth 4000 in
theorem tableOkState_eq_10 : tableOkState 10 = true := by decide

set_option maxHeartbeats 400000 in
set_option maxRecDepth 4000 in
theorem tableOkState_eq_11 : tableOkState 11 = true := by decide

set_option maxHeartbeats 400000 in
set_option maxRecDepth 4000 in
theorem tableOkState_eq_12 : tableOkState 12 = true := by decide

set_option maxHeartbeats 400000 in
set_option maxRecDepth 4000 in
theorem tableOkState_eq_13 : tableOkState 13 = true := by decide

set_option maxHeartbeats 400000 in
set_option maxRecDepth 4000 in
theorem tableOkState_eq_14 : tableOkState 14 = true := by decide

set_option maxHeartbeats 400000 in
set_option maxRecDepth 4000 in
theorem tableOkState_eq_15 : tableOkState 15 = true := by decide

set_option maxHeartbeats 400000 in
set_option maxRecDepth 4000 in
theorem tableOkState_eq_16 : tableOkState 16 = true := by decide

set_option maxHeartbeats 400000 in
set_option maxRecDepth 4000 in
theorem tableOkState_eq_17 : tableOkState 17 = true := by decide

set_option maxHeartbeats 400000 in
set_option maxRecDepth 4000 in
theorem tableOkState_eq_18 : tableOkState 18 = true := by decide

set_option maxHeartbeats 400000 in
set_option maxRecDepth 4000 in
theorem tableOkState_eq_19 : tableOkState 19 = true := by decide

set_option maxHeartbeats 400000 in
set_option maxRecDepth 4000 in
theorem tableOkState_eq_20 : tableOkState 20 = true := by decide

set_option maxHeartbeats 400000 in
set_option maxRecDepth 4000 in
theorem tableOkState_eq_21 : tableOkState 21 = true := by decide

set_option maxHeartbeats 400000 in
set_option maxRecDepth 4000 in
theorem tableOkState_eq_22 : tableOkState 22 = true := by decide

set_option maxHeartbeats 400000 in
set_option maxRecDepth 4000 in
theorem tableOkState_eq_23 : tableOkState 23 = true := by decide

set_option maxHeartbeats 400000 in
set_option maxRecDepth 4000 in
theorem tableOkState_eq_24 : tableOkState 24 = true := by decide

set_option maxHeartbeats 400000 in
set_option maxRecDepth 4000 in
theorem tableOkState_eq_25 : tableOkState 25 = true := by decide

set_option maxHeartbeats 400000 in
set_option maxRecDepth 4000 in
theorem tableOkState_eq_26 : tableOkState 26 = true := by decide

set_option maxHeartbeats 400000 in
set_option maxRecDepth 4000 in
theorem tableOkState_eq_27 : tableOkState 27 = true := by decide

set_option maxHeartbeats 400000 in
set_option maxRecDepth 4000 in
theorem tableOkState_eq_28 : tableOkState 28 = true := by decide

set_option maxHeartbeats 400000 in
set_option maxRecDepth 4000 in
theorem tableOkState_eq_29 : tableOkState 29 = true := by decide

set_option maxHeartbeats 400000 in
set_option maxRecDepth 4000 in
theorem tableOkState_eq_30 : tableOkState 30 = true := by decide

set_option maxHeartbeats 400000 in
set_option maxRecDepth 4000 in
theorem tableOkState_eq_31 : tableOkState 31 = true := by decide

set_option maxHeartbeats 400000 in
set_option maxRecDepth 4000 in
theorem tableOkState_eq_32 : tableOkState 32 = true := by decide

set_option maxHeartbeats 400000 in
set_option maxRecDepth 4000 in
theorem tableOkState_eq_33 : tableOkState 33 = true := by decide

set_option maxHeartbeats 400000 in
set_option maxRecDepth 4000 in
theorem tableOkState_eq_34 : tableOkState 34 = true := by decide

set_option maxHeartbeats 400000 in
set_option maxRecDepth 4000 in
theorem tableOkState_eq_35 : tableOkState 35 = true := by decide

set_option maxHeartbeats 400000 in
set_option maxRecDepth 4000 in
theorem tableOkState_eq_36 : tableOkState 36 = true := by decide

set_option maxHeartbeats 400000 in
set_option maxRecDepth 4000 in
theorem tableOkState_eq_37 : tableOkState 37 = true := by decide

set_option maxHeartbeats 400000 in
set_option maxRecDepth 4000 in
theorem tableOkState_eq_38 : tableOkState 38 = true := by decide

set_option maxHeartbeats 400000 in
set_option maxRecDepth 4000 in
theorem tableOkState_eq_39 : tableOkState 39 = true := by decide

set_option maxHeartbeats 400000 in
set_option maxRecDepth 4000 in
theorem tableOkState_eq_40 : tableOkState 40 = true := by decide

set_option maxHeartbeats 400000 in
set_option maxRecDepth 4000 in
theorem tableOkState_eq_41 : tableOkState 41 = true := by decide

set_option maxHeartbeats 400000 in
set_option maxRecDepth 4000 in
theorem tableOkState_eq_42 : tableOkState 42 = true := by decide

set_option maxHeartbeats 400000 in
set_option maxRecDepth 4000 in
theorem tableOkState_eq_43 : tableOkState 43 = true := by decide

set_option maxHeartbeats 400000 in
set_option maxRecDepth 4000 in
theorem tableOkState_eq_44 : tableOkState 44 = true := by decide

set_option maxHeartbeats 400000 in
set_option maxRecDepth 4000 in
theorem tableOkState_eq_45 : tableOkState 45 = true := by decide

set_option maxHeartbeats 400000 in
set_option maxRecDepth 4000 in
theorem tableOkState_eq_46 : tableOkState 46 = true := by decide

set_option maxHeartbeats 400000 in
set_option maxRecDepth 4000 in
theorem tableOkState_eq_47 : tableOkState 47 = true := by decide

set_option maxHeartbeats 400000 in
set_option maxRecDepth 4000 in
theorem tableOkState_eq_48 : tableOkState 48 = true := by decide

set_option maxHeartbeats 400000 in
set_option maxRecDepth 4000 in
theorem tableOkState_eq_49 : tableOkState 49 = true := by decide

set_option maxHeartbeats 400000 in
set_option maxRecDepth 4000 in
theorem tableOkState_eq_50 : tableOkState 50 = true := by decide

set_option maxHeartbeats 400000 in
set_option maxRecDepth 4000 in
theorem tableOkState_eq_51 : tableOkState 51 = true := by decide

set_option maxHeartbeats 400000 in
set_option maxRecDepth 4000 in
theorem tableOkState_eq_52 : tableOkState 52 = true := by decide

set_option maxHeartbeats 400000 in
set_option maxRecDepth 4000 in
theorem tableOkState_eq_53 : tableOkState 53 = true := by decide

set_option maxHeartbeats 400000 in
set_option maxRecDepth 4000 in
theorem tableOkState_eq_54 : tableOkState 54 = true := by decide

set_option maxHeartbeats 400000 in
set_option maxRecDepth 4000 in
theorem tableOkState_eq_55 : tableOkState 55 = true := by decide

set_option maxHeartbeats 400000 in
set_option maxRecDepth 4000 in
theorem tableOkState_eq_56 : tableOkState 56 = true := by decide

set_option maxHeartbeats 400000 in
set_option maxRecDepth 4000 in
theorem tableOkState_eq_57 : tableOkState 57 = true := by decide

set_option maxHeartbeats 400000 in
set_option maxRecDepth 4000 in
theorem tableOkState_eq_58 : tableOkState 58 = true := by decide

set_option maxHeartbeats 400000 in
set_option maxRecDepth 4000 in
theorem tableOkState_eq_59 : tableOkState 59 = true := by decide

set_option maxHeartbeats 400000 in
set_option maxRecDepth 4000 in
theorem tableOkState_eq_60 : tableOkState 60 = true := by decide

set_option maxHeartbeats 400000 in
set_option maxRecDepth 4000 in
theorem tableOkState_eq_61 : tableOkState 61 = true := by decide

set_option maxHeartbeats 400000 in
set_option maxRecDepth 4000 in
theorem tableOkState_eq_62 : tableOkState 62 = true := by decide

set_option maxHeartbeats 400000 in
set_option maxRecDepth 4000 in
theorem tableOkState_eq_63 : tableOkState 63 = true := by decide

set_option maxHeartbeats 400000 in
set_option maxRecDepth 4000 in
theorem tableOkState_eq_64 : tableOkState 64 = true := by decide

set_option maxHeartbeats 400000 in
set_option maxRecDepth 4000 in
theorem tableOkState_eq_65 : tableOkState 65 = true := by decide

set_option maxHeartbeats 400000 in
set_option maxRecDepth 4000 in
theorem tableOkState_eq_66 : tableOkState 66 = true := by decide

set_option maxHeartbeats 400000 in
set_option maxRecDepth 4000 in
theorem tableOkState_eq_67 : tableOkState 67 = true := by decide

set_option maxHeartbeats 400000 in
set_option maxRecDepth 4000 in
theorem tableOkState_eq_68 : tableOkState 68 = true := by decide

set_option maxHeartbeats 400000 in
set_option maxRecDepth 4000 in
theorem tableOkState_eq_69 : tableOkState 69 = true := by decide

set_option maxHeartbeats 400000 in
set_option maxRecDepth 4000 in
theorem tableOkState_eq_70 : tableOkState 70 = true := by decide

set_option maxHeartbeats 400000 in
set_option maxRecDepth 4000 in
theorem tableOkState_eq_71 : tableOkState 71 = true := by decide

set_option maxHeartbeats 400000 in
set_option maxRecDepth 4000 in
theorem tableOkState_eq_72 : tableOkState 72 = true := by decide

set_option maxHeartbeats 400000 in
set_option maxRecDepth 4000 in
theorem tableOkState_eq_73 : tableOkState 73 = true := by decide

set_option maxHeartbeats 400000 in
set_option maxRecDepth 4000 in
theorem tableOkState_eq_74 : tableOkState 74 = true := by decide

set_option maxHeartbeats 400000 in
set_option maxRecDepth 4000 in
theorem tableOkState_eq_75 : tableOkState 75 = true := by decide

set_option maxHeartbeats 400000 in
set_option maxRecDepth 4000 in
theorem tableOkState_eq_76 : tableOkState 76 = true := by decide

set_option maxHeartbeats 400000 in
set_option maxRecDepth 4000 in
theorem tableOkState_eq_77 : tableOkState 77 = true := by decide

set_option maxHeartbeats 400000 in
set_option maxRecDepth 4000 in
theorem tableOkState_eq_78 : tableOkState 78 = true := by decide

set_option maxHeartbeats 400000 in
set_option maxRecDepth 4000 in
theorem tableOkState_eq_79 : tableOkState 79 = true := by decide

set_option maxHeartbeats 400000 in
set_option maxRecDepth 4000 in
theorem tableOkState_eq_80 : tableOkState 80 = true := by decide

set_option maxHeartbeats 400000 in
set_option maxRecDepth 4000 in
theorem tableOkState_eq_81 : tableOkState 81 = true := by decide

set_option maxHeartbeats 400000 in
set_option maxRecDepth 4000 in
theorem tableOkState_eq_82 : tableOkState 82 = true := by decide

set_option maxHeartbeats 400000 in
set_option maxRecDepth 4000 in
theorem tableOkState_eq_83 : tableOkState 83 = true := by decide

set_option maxHeartbeats 400000 in
set_option maxRecDepth 4000 in
theorem tableOkState_eq_84 : tableOkState 84 = true := by decide

set_option maxHeartbeats 400000 in
set_option maxRecDepth 4000 in
theorem tableOkState_eq_85 : tableOkState 85 = true := by decide

set_option maxHeartbeats 400000 in
set_option maxRecDepth 4000 in
theorem tableOkState_eq_86 : tableOkState 86 = true := by decide

set_option maxHeartbeats 400000 in
set_option maxRecDepth 4000 in
theorem tableOkState_eq_87 : tableOkState 87 = true := by decide

set_option maxHeartbeats 400000 in
set_option maxRecDepth 4000 in
theorem tableOkState_eq_88 : tableOkState 88 = true := by decide

set_option maxHeartbeats 400000 in
set_option maxRecDepth 4000 in
theorem tableOkState_eq_89 : tableOkState 89 = true := by decide

set_option maxHeartbeats 400000 in
set_option maxRecDepth 4000 in
theorem tableOkState_eq_90 : tableOkState 90 = true := by decide

set_option maxHeartbeats 400000 in
set_option maxRecDepth 4000 in
theorem tableOkState_eq_91 : tableOkState 91 = true := by decide

set_option maxHeartbeats 400000 in
set_option maxRecDepth 4000 in
theorem tableOkState_eq_92 : tableOkState 92 = true := by decide

set_option maxHeartbeats 400000 in
set_option maxRecDepth 4000 in
theorem tableOkState_eq_93 : tableOkState 93 = true := by decide

set_option maxHeartbeats 400000 in
set_option maxRecDepth 4000 in
theorem tableOkState_eq_94 : tableOkState 94 = true := by decide

set_option maxHeartbeats 400000 in
set_option maxRecDepth 4000 in
theorem tableOkState_eq_95 : tableOkState 95 = true := by decide

set_option maxHeartbeats 400000 in
set_option maxRecDepth 4000 in
theorem tableOkState_eq_96 : tableOkState 96 = true := by decide

set_option maxHeartbeats 400000 in
set_option maxRecDepth 4000 in
theorem tableOkState_eq_97 : tableOkState 97 = true := by decide

set_option maxHeartbeats 400000 in
set_option maxRecDepth 4000 in
theorem tableOkState_eq_98 : tableOkState 98 = true := by decide

set_option maxHeartbeats 400000 in
set_option maxRecDepth 4000 in
theorem tableOkState_eq_99 : tableOkState 99 = true := by decide

set_option maxHeartbeats 400000 in
set_option maxRecDepth 4000 in
theorem tableOkState_eq_100 : tableOkState 100 = true := by decide

set_option maxHeartbeats 400000 in
set_option maxRecDepth 4000 in
theorem tableOkState_eq_101 : tableOkState 101 = true := by decide

set_option maxHeartbeats 400000 in
set_option maxRecDepth 4000 in
theorem tableOkState_eq_102 : tableOkState 102 = true := by decide

set_option maxHeartbeats 400000 in
set_option maxRecDepth 4000 in
theorem tableOkState_eq_103 : tableOkState 103 = true := by decide

set_option maxHeartbeats 400000 in
set_option maxRecDepth 4000 in
theorem tableOkState_eq_104 : tableOkState 104 = true := by decide

set_option maxHeartbeats 400000 in
set_option maxRecDepth 4000 in
theorem tableOkState_eq_105 : tableOkState 105 = true := by decide

set_option maxHeartbeats 400000 in
set_option maxRecDepth 4000 in
theorem tableOkState_eq_106 : tableOkState 106 = true := by decide

set_option maxHeartbeats 400000 in
set_option maxRecDepth 4000 in
theorem tableOkState_eq_107 : tableOkState 107 = true := by decide

set_option maxHeartbeats 400000 in
set_option maxRecDepth 4000 in
theorem tableOkState_eq_108 : tableOkState 108 = true := by decide

set_option maxHeartbeats 400000 in
set_option maxRecDepth 4000 in
theorem tableOkState_eq_109 : tableOkState 109 = true := by decide

set_option maxHeartbeats 400000 in
set_option maxRecDepth 4000 in
theorem tableOkState_eq_110 : tableOkState 110 = true := by decide

set_option maxHeartbeats 400000 in
set_option maxRecDepth 4000 in
theorem tableOkState_eq_111 : tableOkState 111 = true := by decide

set_option maxHeartbeats 400000 in
set_option maxRecDepth 4000 in
theorem tableOkState_eq_112 : tableOkState 112 = true := by decide

set_option maxHeartbeats 400000 in
set_option maxRecDepth 4000 in
theorem tableOkState_eq_113 : tableOkState 113 = true := by decide

set_option maxHeartbeats 400000 in
set_option maxRecDepth 4000 in
theorem tableOkState_eq_114 : tableOkState 114 = true := by decide

set_option maxHeartbeats 400000 in
set_option maxRecDepth 4000 in
theorem tableOkState_eq_115 : tableOkState 115 = true := by decide

set_option maxHeartbeats 400000 in
set_option maxRecDepth 4000 in
theorem tableOkState_eq_116 : tableOkState 116 = true := by decide

set_option maxHeartbeats 400000 in
set_option maxRecDepth 4000 in
theorem tableOkState_eq_117 : tableOkState 117 = true := by decide

set_option maxHeartbeats 400000 in
set_option maxRecDepth 4000 in
theorem tableOkState_eq_118 : tableOkState 118 = true := by decide

set_option maxHeartbeats 400000 in
set_option maxRecDepth 4000 in
theorem tableOkState_eq_119 : tableOkState 119 = true := by decide

set_option maxHeartbeats 400000 in
set_option maxRecDepth 4000 in
theorem tableOkState_eq_120 : tableOkState 120 = true := by decide

set_option maxHeartbeats 400000 in
set_option maxRecDepth 4000 in
theorem tableOkState_eq_121 : tableOkState 121 = true := by decide

set_option maxHeartbeats 400000 in
set_option maxRecDepth 4000 in
theorem tableOkState_eq_122 : tableOkState 122 = true := by decide

set_option maxHeartbeats 400000 in
set_option maxRecDepth 4000 in
theorem tableOkState_eq_123 : tableOkState 123 = true := by decide

set_option maxHeartbeats 400000 in
set_option maxRecDepth 4000 in
theorem tableOkState_eq_124 : tableOkState 124 = true := by decide

set_option maxHeartbeats 400000 in
set_option maxRecDepth 4000 in
theorem tableOkState_eq_125 : tableOkState 125 = true := by decide

set_option maxHeartbeats 400000 in
set_option maxRecDepth 4000 in
theorem tableOkState_eq_126 : tableOkState 126 = true := by decide

set_option maxHeartbeats 400000 in
set_option maxRecDepth 4000 in
theorem tableOkState_eq_127 : tableOkState 127 = true := by decide

set_option maxHeartbeats 400000 in
set_option maxRecDepth 4000 in
theorem tableOkState_eq_128 : tableOkState 128 = true := by decide

set_option maxHeartbeats 400000 in
set_option maxRecDepth 4000 in
theorem tableOkState_eq_129 : tableOkState 129 = true := by decide

set_option maxHeartbeats 400000 in
set_option maxRecDepth 4000 in
theorem tableOkState_eq_130 : tableOkState 130 = true := by decide

set_option maxHeartbeats 400000 in
set_option maxRecDepth 4000 in
theorem tableOkState_eq_131 : tableOkState 131 = true := by decide

set_option maxHeartbeats 400000 in
set_option maxRecDepth 4000 in
theorem tableOkState_eq_132 : tableOkState 132 = true := by decide

set_option maxHeartbeats 400000 in
set_option maxRecDepth 4000 in
theorem tableOkState_eq_133 : tableOkState 133 = true := by decide

set_option maxHeartbeats 400000 in
set_option maxRecDepth 4000 in
theorem tableOkState_eq_134 : tableOkState 134 = true := by decide

set_option maxHeartbeats 400000 in
set_option maxRecDepth 4000 in
theorem tableOkState_eq_135 : tableOkState 135 = true := by decide

set_option maxHeartbeats 400000 in
set_option maxRecDepth 4000 in
theorem tableOkState_eq_136 : tableOkState 136 = true := by decide

set_option maxHeartbeats 400000 in
set_option maxRecDepth 4000 in
theorem tableOkState_eq_137 : tableOkState 137 = true := by decide

set_option maxHeartbeats 400000 in
set_option maxRecDepth 4000 in
theorem tableOkState_eq_138 : tableOkState 138 = true := by decide

set_option maxHeartbeats 400000 in
set_option maxRecDepth 4000 in
theorem tableOkState_eq_139 : tableOkState 139 = true := by decide

set_option maxHeartbeats 400000 in
set_option maxRecDepth 4000 in
theorem tableOkState_eq_140 : tableOkState 140 = true := by decide

set_option maxHeartbeats 400000 in
set_option maxRecDepth 4000 in
theorem tableOkState_eq_141 : tableOkState 141 = true := by decide

set_option maxHeartbeats 400000 in
set_option maxRecDepth 4000 in
theorem tableOkState_eq_142 : tableOkState 142 = true := by decide

set_option maxHeartbeats 400000 in
set_option maxRecDepth 4000 in
theorem tableOkState_eq_143 : tableOkState 143 = true := by decide

set_option maxHeartbeats 400000 in
set_option maxRecDepth 4000 in
theorem tableOkState_eq_144 : tableOkState 144 = true := by decide

set_option maxHeartbeats 400000 in
set_option maxRecDepth 4000 in
theorem tableOkState_eq_145 : tableOkState 145 = true := by decide

set_option maxHeartbeats 400000 in
set_option maxRecDepth 4000 in
theorem tableOkState_eq_146 : tableOkState 146 = true := by decide

set_option maxHeartbeats 400000 in
set_option maxRecDepth 4000 in
theorem tableOkState_eq_147 : tableOkState 147 = true := by decide

set_option maxHeartbeats 400000 in
set_option maxRecDepth 4000 in
theorem tableOkState_eq_148 : tableOkState 148 = true := by decide

set_option maxHeartbeats 400000 in
set_option maxRecDepth 4000 in
theorem tableOkState_eq_149 : tableOkState 149 = true := by decide

set_option maxHeartbeats 400000 in
set_option maxRecDepth 4000 in
theorem tableOkState_eq_150 : tableOkState 150 = true := by decide

set_option maxHeartbeats 400000 in
set_option maxRecDepth 4000 in
theorem tableOkState_eq_151 : tableOkState 151 = true := by decide

set_option maxHeartbeats 400000 in
set_option maxRecDepth 4000 in
theorem tableOkState_eq_152 : tableOkState 152 = true := by decide

set_option maxHeartbeats 400000 in
set_option maxRecDepth 4000 in
theorem tableOkState_eq_153 : tableOkState 153 = true := by decide

set_option maxHeartbeats 400000 in
set_option maxRecDepth 4000 in
theorem tableOkState_eq_154 : tableOkState 154 = true := by decide

set_option maxHeartbeats 400000 in
set_option maxRecDepth 4000 in
theorem tableOkState_eq_155 : tableOkState 155 = true := by decide

set_option maxHeartbeats 400000 in
set_option maxRecDepth 4000 in
theorem tableOkState_eq_156 : tableOkState 156 = true := by decide

set_option maxHeartbeats 400000 in
set_option maxRecDepth 4000 in
theorem tableOkState_eq_157 : tableOkState 157 = true := by decide

set_option maxHeartbeats 400000 in
set_option maxRecDepth 4000 in
theorem tableOkState_eq_158 : tableOkState 158 = true := by decide

set_option maxHeartbeats 400000 in
set_option maxRecDepth 4000 in
theorem tableOkState_eq_159 : tableOkState 159 = true := by decide

set_option maxHeartbeats 400000 in
set_option maxRecDepth 4000 in
theorem tableOkState_eq_160 : tableOkState 160 = true := by decide

set_option maxHeartbeats 400000 in
set_option maxRecDepth 4000 in
theorem tableOkState_eq_161 : tableOkState 161 = true := by decide

set_option maxHeartbeats 400000 in
set_option maxRecDepth 4000 in
theorem tableOkState_eq_162 : tableOkState 162 = true := by decide

set_option maxHeartbeats 400000 in
set_option maxRecDepth 4000 in
theorem tableOkState_eq_163 : tableOkState 163 = true := by decide

set_option maxHeartbeats 400000 in
set_option maxRecDepth 4000 in
theorem tableOkState_eq_164 : tableOkState 164 = true := by decide

set_option maxHeartbeats 400000 in
set_option maxRecDepth 4000 in
theorem tableOkState_eq_165 : tableOkState 165 = true := by decide

set_option maxHeartbeats 400000 in
set_option maxRecDepth 4000 in
theorem tableOkState_eq_166 : tableOkState 166 = true := by decide

set_option maxHeartbeats 400000 in
set_option maxRecDepth 4000 in
theorem tableOkState_eq_167 : tableOkState 167 = true := by decide

set_option maxHeartbeats 400000 in
set_option maxRecDepth 4000 in
theorem tableOkState_eq_168 : tableOkState 168 = true := by decide

set_option maxHeartbeats 400000 in
set_option maxRecDepth 4000 in
theorem tableOkState_eq_169 : tableOkState 169 = true := by decide

set_option maxHeartbeats 400000 in
set_option maxRecDepth 4000 in
theorem tableOkState_eq_170 : tableOkState 170 = true := by decide

set_option maxHeartbeats 400000 in
set_option maxRecDepth 4000 in
theorem tableOkState_eq_171 : tableOkState 171 = true := by decide

set_option maxHeartbeats 400000 in
set_option maxRecDepth 4000 in
theorem tableOkState_eq_172 : tableOkState 172 = true := by decide

set_option maxHeartbeats 400000 in
set_option maxRecDepth 4000 in
theorem tableOkState_eq_173 : tableOkState 173 = true := by decide

set_option maxHeartbeats 400000 in
set_option maxRecDepth 4000 in
theorem tableOkState_eq_174 : tableOkState 174 = true := by decide

set_option maxHeartbeats 400000 in
set_option maxRecDepth 4000 in
theorem tableOkState_eq_175 : tableOkState 175 = true := by decide

set_option maxHeartbeats 400000 in
set_option maxRecDepth 4000 in
theorem tableOkState_eq_176 : tableOkState 176 = true := by decide

set_option maxHeartbeats 400000 in
set_option maxRecDepth 4000 in
theorem tableOkState_eq_177 : tableOkState 177 = true := by decide

set_option maxHeartbeats 400000 in
set_option maxRecDepth 4000 in
theorem tableOkState_eq_178 : tableOkState 178 = true := by decide

set_option maxHeartbeats 400000 in
set_option maxRecDepth 4000 in
theorem tableOkState_eq_179 : tableOkState 179 = true := by decide

set_option maxHeartbeats 400000 in
set_option maxRecDepth 4000 in
theorem tableOkState_eq_180 : tableOkState 180 = true := by decide

set_option maxHeartbeats 400000 in
set_option maxRecDepth 4000 in
theorem tableOkState_eq_181 : tableOkState 181 = true := by decide

set_option maxHeartbeats 400000 in
set_option maxRecDepth 4000 in
theorem tableOkState_eq_182 : tableOkState 182 = true := by decide

set_option maxHeartbeats 400000 in
set_option maxRecDepth 4000 in
theorem tableOkState_eq_183 : tableOkState 183 = true := by decide

set_option maxHeartbeats 400000 in
set_option maxRecDepth 4000 in
theorem tableOkState_eq_184 : tableOkState 184 = true := by decide

set_option maxHeartbeats 400000 in
set_option maxRecDepth 4000 in
theorem tableOkState_eq_185 : tableOkState 185 = true := by decide

set_option maxHeartbeats 400000 in
set_option maxRecDepth 4000 in
theorem tableOkState_eq_186 : tableOkState 186 = true := by decide

set_option maxHeartbeats 400000 in
set_option maxRecDepth 4000 in
theorem tableOkState_eq_187 : tableOkState 187 = true := by decide

set_option maxHeartbeats 400000 in
set_option maxRecDepth 4000 in
theorem tableOkState_eq_188 : tableOkState 188 = true := by decide

set_option maxHeartbeats 400000 in
set_option maxRecDepth 4000 in
theorem tableOkState_eq_189 : tableOkState 189 = true := by decide

set_option maxHeartbeats 400000 in
set_option maxRecDepth 4000 in
theorem tableOkState_eq_190 : tableOkState 190 = true := by decide

set_option maxHeartbeats 400000 in
set_option maxRecDepth 4000 in
theorem tableOkState_eq_191 : tableOkState 191 = true := by decide

set_option maxHeartbeats 400000 in
set_option maxRecDepth 4000 in
theorem tableOkState_eq_192 : tableOkState 192 = true := by decide

set_option maxHeartbeats 400000 in
set_option maxRecDepth 4000 in
theorem tableOkState_eq_193 : tableOkState 193 = true := by decide

set_option maxHeartbeats 400000 in
set_option maxRecDepth 4000 in
theorem tableOkState_eq_194 : tableOkState 194 = true := by decide

set_option maxHeartbeats 400000 in
set_option maxRecDepth 4000 in
theorem tableOkState_eq_195 : tableOkState 195 = true := by decide

set_option maxHeartbeats 400000 in
set_option maxRecDepth 4000 in
theorem tableOkState_eq_196 : tableOkState 196 = true := by decide

set_option maxHeartbeats 400000 in
set_option maxRecDepth 4000 in
theorem tableOkState_eq_197 : tableOkState 197 = true := by decide

set_option maxHeartbeats 400000 in
set_option maxRecDepth 4000 in
theorem tableOkState_eq_198 : tableOkState 198 = true := by decide

set_option maxHeartbeats 400000 in
set_option maxRecDepth 4000 in
theorem tableOkState_eq_199 : tableOkState 199 = true := by decide

set_option maxHeartbeats 400000 in
set_option maxRecDepth 4000 in
theorem tableOkState_eq_200 : tableOkState 200 = true := by decide

set_option maxHeartbeats 400000 in
set_option maxRecDepth 4000 in
theorem tableOkState_eq_201 : tableOkState 201 = true := by decide

set_option maxHeartbeats 400000 in
set_option maxRecDepth 4000 in
theorem tableOkState_eq_202 : tableOkState 202 = true := by decide

set_option maxHeartbeats 400000 in
set_option maxRecDepth 4000 in
theorem tableOkState_eq_203 : tableOkState 203 = true := by decide

set_option maxHeartbeats 400000 in
set_option maxRecDepth 4000 in
theorem tableOkState_eq_204 : tableOkState 204 = true := by decide

set_option maxHeartbeats 400000 in
set_option maxRecDepth 4000 in
theorem tableOkState_eq_205 : tableOkState 205 = true := by decide

set_option maxHeartbeats 400000 in
set_option maxRecDepth 4000 in
theorem tableOkState_eq_206 : tableOkState 206 = true := by decide

set_option maxHeartbeats 400000 in
set_option maxRecDepth 4000 in
theorem tableOkState_eq_207 : tableOkState 207 = true := by decide

set_option maxHeartbeats 400000 in
set_option maxRecDepth 4000 in
theorem tableOkState_eq_208 : tableOkState 208 = true := by decide

set_option maxHeartbeats 400000 in
set_option maxRecDepth 4000 in
theorem tableOkState_eq_209 : tableOkState 209 = true := by decide

set_option maxHeartbeats 400000 in
set_option maxRecDepth 4000 in
theorem tableOkState_eq_210 : tableOkState 210 = true := by decide

set_option maxHeartbeats 400000 in
set_option maxRecDepth 4000 in
theorem tableOkState_eq_211 : tableOkState 211 = true := by decide

set_option maxHeartbeats 400000 in
set_option maxRecDepth 4000 in
theorem tableOkState_eq_212 : tableOkState 212 = true := by decide

set_option maxHeartbeats 400000 in
set_option maxRecDepth 4000 in
theorem tableOkState_eq_213 : tableOkState 213 = true := by decide

set_option maxHeartbeats 400000 in
set_option maxRecDepth 4000 in
theorem tableOkState_eq_214 : tableOkState 214 = true := by decide

set_option maxHeartbeats 400000 in
set_option maxRecDepth 4000 in
theorem tableOkState_eq_215 : tableOkState 215 = true := by decide

set_option maxHeartbeats 400000 in
set_option maxRecDepth 4000 in
theorem tableOkState_eq_216 : tableOkState 216 = true := by decide

set_option maxHeartbeats 400000 in
set_option maxRecDepth 4000 in
theorem tableOkState_eq_217 : tableOkState 217 = true := by decide

set_option maxHeartbeats 400000 in
set_option maxRecDepth 4000 in
theorem tableOkState_eq_218 : tableOkState 218 = true := by decide

set_option maxHeartbeats 400000 in
set_option maxRecDepth 4000 in
theorem tableOkState_eq_219 : tableOkState 219 = true := by decide

set_option maxHeartbeats 400000 in
set_option maxRecDepth 4000 in
theorem tableOkState_eq_220 : tableOkState 220 = true := by decide

set_option maxHeartbeats 400000 in
set_option maxRecDepth 4000 in
theorem tableOkState_eq_221 : tableOkState 221 = true := by decide

set_option maxHeartbeats 400000 in
set_option maxRecDepth 4000 in
theorem tableOkState_eq_222 : tableOkState 222 = true := by decide

set_option maxHeartbeats 400000 in
set_option maxRecDepth 4000 in
theorem tableOkState_eq_223 : tableOkState 223 = true := by decide

set_option maxHeartbeats 400000 in
set_option maxRecDepth 4000 in
theorem tableOkState_eq_224 : tableOkState 224 = true := by decide

set_option maxHeartbeats 400000 in
set_option maxRecDepth 4000 in
theorem tableOkState_eq_225 : tableOkState 225 = true := by decide

set_option maxHeartbeats 400000 in
set_option maxRecDepth 4000 in
theorem tableOkState_eq_226 : tableOkState 226 = true := by decide

set_option maxHeartbeats 400000 in
set_option maxRecDepth 4000 in
theorem tableOkState_eq_227 : tableOkState 227 = true := by decide

set_option maxHeartbeats 400000 in
set_option maxRecDepth 4000 in
theorem tableOkState_eq_228 : tableOkState 228 = true := by decide

set_option maxHeartbeats 400000 in
set_option maxRecDepth 4000 in
theorem tableOkState_eq_229 : tableOkState 229 = true := by decide

set_option maxHeartbeats 400000 in
set_option maxRecDepth 4000 in
theorem tableOkState_eq_230 : tableOkState 230 = true := by decide

set_option maxHeartbeats 400000 in
set_option maxRecDepth 4000 in
theorem tableOkState_eq_231 : tableOkState 231 = true := by decide

set_option maxHeartbeats 400000 in
set_option maxRecDepth 4000 in
theorem tableOkState_eq_232 : tableOkState 232 = true := by decide

set_option maxHeartbeats 400000 in
set_option maxRecDepth 4000 in
theorem tableOkState_eq_233 : tableOkState 233 = true := by decide

set_option maxHeartbeats 400000 in
set_option maxRecDepth 4000 in
theorem tableOkState_eq_234 : tableOkState 234 = true := by decide

set_option maxHeartbeats 400000 in
set_option maxRecDepth 4000 in
theorem tableOkState_eq_235 : tableOkState 235 = true := by decide

set_option maxHeartbeats 400000 in
set_option maxRecDepth 4000 in
theorem tableOkState_eq_236 : tableOkState 236 = true := by decide

set_option maxHeartbeats 400000 in
set_option maxRecDepth 4000 in
theorem tableOkState_eq_237 : tableOkState 237 = true := by decide

set_option maxHeartbeats 400000 in
set_option maxRecDepth 4000 in
theorem tableOkState_eq_238 : tableOkState 238 = true := by decide

set_option maxHeartbeats 400000 in
set_option maxRecDepth 4000 in
theorem tableOkState_eq_239 : tableOkState 239 = true := by decide

set_option maxHeartbeats 400000 in
set_option maxRecDepth 4000 in
theorem tableOkState_eq_240 : tableOkState 240 = true := by decide

set_option maxHeartbeats 400000 in
set_option maxRecDepth 4000 in
theorem tableOkState_eq_241 : tableOkState 241 = true := by decide

set_option maxHeartbeats 400000 in
set_option maxRecDepth 4000 in
theorem tableOkState_eq_242 : tableOkState 242 = true := by decide

set_option maxHeartbeats 400000 in
set_option maxRecDepth 4000 in
theorem tableOkState_eq_243 : tableOkState 243 = true := by decide

set_option maxHeartbeats 400000 in
set_option maxRecDepth 4000 in
theorem tableOkState_eq_244 : tableOkState 244 = true := by decide

set_option maxHeartbeats 400000 in
set_option maxRecDepth 4000 in
theorem tableOkState_eq_245 : tableOkState 245 = true := by decide

set_option maxHeartbeats 400000 in
set_option maxRecDepth 4000 in
theorem tableOkState_eq_246 : tableOkState 246 = true := by decide

set_option maxHeartbeats 400000 in
set_option maxRecDepth 4000 in
theorem tableOkState_eq_247 : tableOkState 247 = true := by decide

set_option maxHeartbeats 400000 in
set_option maxRecDepth 4000 in
theorem tableOkState_eq_248 : tableOkState 248 = true := by decide

set_option maxHeartbeats 400000 in
set_option maxRecDepth 4000 in
theorem tableOkState_eq_249 : tableOkState 249 = true := by decide

set_option maxHeartbeats 400000 in
set_option maxRecDepth 4000 in
theorem tableOkState_eq_250 : tableOkState 250 = true := by decide

set_option maxHeartbeats 400000 in
set_option maxRecDepth 4000 in
theorem tableOkState_eq_251 : tableOkState 251 = true := by decide

set_option maxHeartbeats 400000 in
set_option maxRecDepth 4000 in
theorem tableOkState_eq_252 : tableOkState 252 = true := by decide

set_option maxHeartbeats 400000 in
set_option maxRecDepth 4000 in
theorem tableOkState_eq_253 : tableOkState 253 = true := by decide

set_option maxHeartbeats 400000 in
set_option maxRecDepth 4000 in
theorem tableOkState_eq_254 : tableOkState 254 = true := by decide

set_option maxHeartbeats 400000 in
set_option maxRecDepth 4000 in
theorem tableOkState_eq_255 : tableOkState 255 = true := by decide

theorem tableOkG_0 : ∀ i, i < 16 → tableOkState (16 * 0 + i) = true
  | 0, _ => tableOkState_eq_0
  | 1, _ => tableOkState_eq_1
  | 2, _ => tableOkState_eq_2
  | 3, _ => tableOkState_eq_3
  | 4, _ => tableOkState_eq_4
  | 5, _ => tableOkState_eq_5
  | 6, _ => tableOkState_eq_6
  | 7, _ => tableOkState_eq_7
  | 8, _ => tableOkState_eq_8
  | 9, _ => tableOkState_eq_9
  | 10, _ => tableOkState_eq_10
  | 11, _ => tableOkState_eq_11
  | 12, _ => tableOkState_eq_12
  | 13, _ => tableOkState_eq_13
  | 14, _ => tableOkState_eq_14
  | 15, _ => tableOkState_eq_15
  | n + 16, h => absurd h (by omega)

theorem tableOkG_1 : ∀ i, i < 16 → tableOkState (16 * 1 + i) = true
  | 0, _ => tableOkState_eq_16
  | 1, _ => tableOkState_eq_17
  | 2, _ => tableOkState_eq_18
  | 3, _ => tableOkState_eq_19
  | 4, _ => tableOkState_eq_20
  | 5, _ => tableOkState_eq_21
  | 6, _ => tableOkState_eq_22
  | 7, _ => tableOkState_eq_23
  | 8, _ => tableOkState_eq_24
  | 9, _ => tableOkState_eq_25
  | 10, _ => tableOkState_eq_26
  | 11, _ => tableOkState_eq_27
  | 12, _ => tableOkState_eq_28
  | 13, _ => tableOkState_eq_29
  | 14, _ => tableOkState_eq_30
  | 15, _ => tableOkState_eq_31
  | n + 16, h => absurd h (by omega)

theorem tableOkG_2 : ∀ i, i < 16 → tableOkState (16 * 2 + i) = true
  | 0, _ => tableOkState_eq_32
  | 1, _ => tableOkState_eq_33
  | 2, _ => tableOkState_eq_34
  | 3, _ => tableOkState_eq_35
  | 4, _ => tableOkState_eq_36
  | 5, _ => tableOkState_eq_37
  | 6, _ => tableOkState_eq_38
  | 7, _ => tableOkState_eq_39
  | 8, _ => tableOkState_eq_40
  | 9, _ => tableOkState_eq_41
  | 10, _ => tableOkState_eq_42
  | 11, _ => tableOkState_eq_43
  | 12, _ => tableOkState_eq_44
  | 13, _ => tableOkState_eq_45
  | 14, _ => tableOkState_eq_46
  | 15, _ => tableOkState_eq_47
  | n + 16, h => absurd h (by omega)

theorem tableOkG_3 : ∀ i, i < 16 → tableOkState (16 * 3 + i) = true
  | 0, _ => tableOkState_eq_48
  | 1, _ => tableOkState_eq_49
  | 2, _ => tableOkState_eq_50
  | 3, _ => tableOkState_eq_51
  | 4, _ => tableOkState_eq_52
  | 5, _ => tableOkState_eq_53
  | 6, _ => tableOkState_eq_54
  | 7, _ => tableOkState_eq_55
  | 8, _ => tableOkState_eq_56
  | 9, _ => tableOkState_eq_57
  | 10, _ => tableOkState_eq_58
  | 11, _ => tableOkState_eq_59
  | 12, _ => tableOkState_eq_60
  | 13, _ => tableOkState_eq_61
  | 14, _ => tableOkState_eq_62
  | 15, _ => tableOkState_eq_63
  | n + 16, h => absurd h (by omega)

theorem tableOkG_4 : ∀ i, i < 16 → tableOkState (16 * 4 + i) = true
  | 0, _ => tableOkState_eq_64
  | 1, _ => tableOkState_eq_65
  | 2, _ => tableOkState_eq_66
  | 3, _ => tableOkState_eq_67
  | 4, _ => tableOkState_eq_68
  | 5, _ => tableOkState_eq_69
  | 6, _ => tableOkState_eq_70
  | 7, _ => tableOkState_eq_71
  | 8, _ => tableOkState_eq_72
  | 9, _ => tableOkState_eq_73
  | 10, _ => tableOkState_eq_74
  | 11, _ => tableOkState_eq_75
  | 12, _ => tableOkState_eq_76
  | 13, _ => tableOkState_eq_77
  | 14, _ => tableOkState_eq_78
  | 15, _ => tableOkState_eq_79
  | n + 16, h => absurd h (by omega)

theorem tableOkG_5 : ∀ i, i < 16 → tableOkState (16 * 5 + i) = true
  | 0, _ => tableOkState_eq_80
  | 1, _ => tableOkState_eq_81
  | 2, _ => tableOkState_eq_82
  | 3, _ => tableOkState_eq_83
  | 4, _ => tableOkState_eq_84
  | 5, _ => tableOkState_eq_85
  | 6, _ => tableOkState_eq_86
  | 7, _ => tableOkState_eq_87
  | 8, _ => tableOkState_eq_88
  | 9, _ => tableOkState_eq_89
  | 10, _ => tableOkState_eq_90
  | 11, _ => tableOkState_eq_91
  | 12, _ => tableOkState_eq_92
  | 13, _ => tableOkState_eq_93
  | 14, _ => tableOkState_eq_94
  | 15, _ => tableOkState_eq_95
  | n + 16, h => absurd h (by omega)

theorem tableOkG_6 : ∀ i, i < 16 → tableOkState (16 * 6 + i) = true
  | 0, _ => tableOkState_eq_96
  | 1, _ => tableOkState_eq_97
  | 2, _ => tableOkState_eq_98
  | 3, _ => tableOkState_eq_99
  | 4, _ => tableOkState_eq_100
  | 5, _ => tableOkState_eq_101
  | 6, _ => tableOkState_eq_102
  | 7, _ => tableOkState_eq_103
  | 8, _ => tableOkState_eq_104
  | 9, _ => tableOkState_eq_105
  | 10, _ => tableOkState_eq_106
  | 11, _ => tableOkState_eq_107
  | 12, _ => tableOkState_eq_108
  | 13, _ => tableOkState_eq_109
  | 14, _ => tableOkState_eq_110
  | 15, _ => tableOkState_eq_111
  | n + 16, h => absurd h (by omega)

theorem tableOkG_7 : ∀ i, i < 16 → tableOkState (16 * 7 + i) = true
  | 0, _ => tableOkState_eq_112
  | 1, _ => tableOkState_eq_113
  | 2, _ => tableOkState_eq_114
  | 3, _ => tableOkState_eq_115
  | 4, _ => tableOkState_eq_116
  | 5, _ => tableOkState_eq_117
  | 6, _ => tableOkState_eq_118
  | 7, _ => tableOkState_eq_119
  | 8, _ => tableOkState_eq_120
  | 9, _ => tableOkState_eq_121
  | 10, _ => tableOkState_eq_122
  | 11, _ => tableOkState_eq_123
  | 12, _ => tableOkState_eq_124
  | 13, _ => tableOkState_eq_125
  | 14, _ => tableOkState_eq_126
  | 15, _ => tableOkState_eq_127
  | n + 16, h => absurd h (by omega)

theorem tableOkG_8 : ∀ i, i < 16 → tableOkState (16 * 8 + i) = true
  | 0, _ => tableOkState_eq_128
  | 1, _ => tableOkState_eq_129
  | 2, _ => tableOkState_eq_130
  | 3, _ => tableOkState_eq_131
  | 4, _ => tableOkState_eq_132
  | 5, _ => tableOkState_eq_133
  | 6, _ => tableOkState_eq_134
  | 7, _ => tableOkState_eq_135
  | 8, _ => tableOkState_eq_136
  | 9, _ => tableOkState_eq_137
  | 10, _ => tableOkState_eq_138
  | 11, _ => tableOkState_eq_139
  | 12, _ => tableOkState_eq_140
  | 13, _ => tableOkState_eq_141
  | 14, _ => tableOkState_eq_142
  | 15, _ => tableOkState_eq_143
  | n + 16, h => absurd h (by omega)

theorem tableOkG_9 : ∀ i, i < 16 → tableOkState (16 * 9 + i) = true
  | 0, _ => tableOkState_eq_144
  | 1, _ => tableOkState_eq_145
  | 2, _ => tableOkState_eq_146
  | 3, _ => tableOkState_eq_147
  | 4, _ => tableOkState_eq_148
  | 5, _ => tableOkState_eq_149
  | 6, _ => tableOkState_eq_150
  | 7, _ => tableOkState_eq_151
  | 8, _ => tableOkState_eq_152
  | 9, _ => tableOkState_eq_153
  | 10, _ => tableOkState_eq_154
  | 11, _ => tableOkState_eq_155
  | 12, _ => tableOkState_eq_156
  | 13, _ => tableOkState_eq_157
  | 14, _ => tableOkState_eq_158
  | 15, _ => tableOkState_eq_159
  | n + 16, h => absurd h (by omega)

theorem tableOkG_10 : ∀ i, i < 16 → tableOkState (16 * 10 + i) = true
  | 0, _ => tableOkState_eq_160
  | 1, _ => tableOkState_eq_161
  | 2, _ => tableOkState_eq_162
  | 3, _ => tableOkState_eq_163
  | 4, _ => tableOkState_eq_164
  | 5, _ => tableOkState_eq_165
  | 6, _ => tableOkState_eq_166
  | 7, _ => tableOkState_eq_167
  | 8, _ => tableOkState_eq_168
  | 9, _ => tableOkState_eq_169
  | 10, _ => tableOkState_eq_170
  | 11, _ => tableOkState_eq_171
  | 12, _ => tableOkState_eq_172
  | 13, _ => tableOkState_eq_173
  | 14, _ => tableOkState_eq_174
  | 15, _ => tableOkState_eq_175
  | n + 16, h => absurd h (by omega)

theorem tableOkG_11 : ∀ i, i < 16 → tableOkState (16 * 11 + i) = true
  | 0, _ => tableOkState_eq_176
  | 1, _ => tableOkState_eq_177
  | 2, _ => tableOkState_eq_178
  | 3, _ => tableOkState_eq_179
  | 4, _ => tableOkState_eq_180
  | 5, _ => tableOkState_eq_181
  | 6, _ => tableOkState_eq_182
  | 7, _ => tableOkState_eq_183
  | 8, _ => tableOkState_eq_184
  | 9, _ => tableOkState_eq_185
  | 10, _ => tableOkState_eq_186
  | 11, _ => tableOkState_eq_187
  | 12, _ => tableOkState_eq_188
  | 13, _ => tableOkState_eq_189
  | 14, _ => tableOkState_eq_190
  | 15, _ => tableOkState_eq_191
  | n + 16, h => absurd h (by omega)

theorem tableOkG_12 : ∀ i, i < 16 → tableOkState (16 * 12 + i) = true
  | 0, _ => tableOkState_eq_192
  | 1, _ => tableOkState_eq_193
  | 2, _ => tableOkState_eq_194
  | 3, _ => tableOkState_eq_195
  | 4, _ => tableOkState_eq_196
  | 5, _ => tableOkState_eq_197
  | 6, _ => tableOkState_eq_198
  | 7, _ => tableOkState_eq_199
  | 8, _ => tableOkState_eq_200
  | 9, _ => tableOkState_eq_201
  | 10, _ => tableOkState_eq_202
  | 11, _ => tableOkState_eq_203
  | 12, _ => tableOkState_eq_204
  | 13, _ => tableOkState_eq_205
  | 14, _ => tableOkState_eq_206
  | 15, _ => tableOkState_eq_207
  | n + 16, h => absurd h (by omega)

theorem tableOkG_13 : ∀ i, i < 16 → tableOkState (16 * 13 + i) = true
  | 0, _ => tableOkState_eq_208
  | 1, _ => tableOkState_eq_209
  | 2, _ => tableOkState_eq_210
  | 3, _ => tableOkState_eq_211
  | 4, _ => tableOkState_eq_212
  | 5, _ => tableOkState_eq_213
  | 6, _ => tableOkState_eq_214
  | 7, _ => tableOkState_eq_215
  | 8, _ => tableOkState_eq_216
  | 9, _ => tableOkState_eq_217
  | 10, _ => tableOkState_eq_218
  | 11, _ => tableOkState_eq_219
  | 12, _ => tableOkState_eq_220
  | 13, _ => tableOkState_eq_221
  | 14, _ => tableOkState_eq_222
  | 15, _ => tableOkState_eq_223
  | n + 16, h => absurd h (by omega)

theorem tableOkG_14 : ∀ i, i < 16 → tableOkState (16 * 14 + i) = true
  | 0, _ => tableOkState_eq_224
  | 1, _ => tableOkState_eq_225
  | 2, _ => tableOkState_eq_226
  | 3, _ => tableOkState_eq_227
  | 4, _ => tableOkState_eq_228
  | 5, _ => tableOkState_eq_229
  | 6, _ => tableOkState_eq_230
  | 7, _ => tableOkState_eq_231
  | 8, _ => tableOkState_eq_232
  | 9, _ => tableOkState_eq_233
  | 10, _ => tableOkState_eq_234
  | 11, _ => tableOkState_eq_235
  | 12, _ => tableOkState_eq_236
  | 13, _ => tableOkState_eq_237
  | 14, _ => tableOkState_eq_238
  | 15, _ => tableOkState_eq_239
  | n + 16, h => absurd h (by omega)

theorem tableOkG_15 : ∀ i, i < 16 → tableOkState (16 * 15 + i) = true
  | 0, _ => tableOkState_eq_240
  | 1, _ => tableOkState_eq_241
  | 2, _ => tableOkState_eq_242
  | 3, _ => tableOkState_eq_243
  | 4, _ => tableOkState_eq_244
  | 5, _ => tableOkState_eq_245
  | 6, _ => tableOkState_eq_246
  | 7, _ => tableOkState_eq_247
  | 8, _ => tableOkState_eq_248
  | 9, _ => tableOkState_eq_249
  | 10, _ => tableOkState_eq_250
  | 11, _ => tableOkState_eq_251
  | 12, _ => tableOkState_eq_252
  | 13, _ => tableOkState_eq_253
  | 14, _ => tableOkState_eq_254
  | 15, _ => tableOkState_eq_255
  | n + 16, h => absurd h (by omega)

theorem tableOkGrpAll : ∀ g, g < 16 → ∀ i, i < 16 → tableOkState (16 * g + i) = true
  | 0, _ => tableOkG_0
  | 1, _ => tableOkG_1
  | 2, _ => tableOkG_2
  | 3, _ => tableOkG_3
  | 4, _ => tableOkG_4
  | 5, _ => tableOkG_5
  | 6, _ => tableOkG_6
  | 7, _ => tableOkG_7
  | 8, _ => tableOkG_8
  | 9, _ => tableOkG_9
  | 10, _ => tableOkG_10
  | 11, _ => tableOkG_11
  | 12, _ => tableOkG_12
  | 13, _ => tableOkG_13
  | 14, _ => tableOkG_14
  | 15, _ => tableOkG_15
  | n + 16, h => absurd h (by omega)

theorem tableOk_eq_true : tableOk = true := by
  show ((List.range 256).all fun s => (List.range 16).all fun n => tableOkAt s n) = true
  rw [List.all_eq_true]
  intro s hs
  rw [List.mem_range] at hs
  have h := tableOkGrpAll (s / 16) (by omega) (s % 16) (by omega)
  rw [show 16 * (s / 16) + s % 16 = s from by omega] at h
  exact h

/- Every byte's Huffman codeword decodes back to that byte; checked
four codewords at a time. -/
set_option maxHeartbeats 400000 in
set_option maxRecDepth 4000 in
theorem codeRTC4_eq_0 : codeRTC4 0 = true := by decide

set_option maxHeartbeats 400000 in
set_option maxRecDepth 4000 in
theorem codeRTC4_eq_1 : codeRTC4 1 = true := by decide

set_option maxHeartbeats 400000 in
set_option maxRecDepth 4000 in
theorem codeRTC4_eq_2 : codeRTC4 2 = true := by decide

set_option maxHeartbeats 400000 in
set_option maxRecDepth 4000 in
theorem codeRTC4_eq_3 : codeRTC4 3 = true := by decide

set_option maxHeartbeats 400000 in
set_option maxRecDepth 4000 in
theorem codeRTC4_eq_4 : codeRTC4 4 = true := by decide

set_option maxHeartbeats 400000 in
set_option maxRecDepth 4000 in
theorem codeRTC4_eq_5 : codeRTC4 5 = true := by decide

set_option maxHeartbeats 400000 in
set_option maxRecDepth 4000 in
theorem codeRTC4_eq_6 : codeRTC4 6 = true := by decide

set_option maxHeartbeats 400000 in
set_option maxRecDepth 4000 in
theorem codeRTC4_eq_7 : codeRTC4 7 = true := by decide

set_option maxHeartbeats 400000 in
set_option maxRecDepth 4000 in
theorem codeRTC4_eq_8 : codeRTC4 8 = true := by decide

set_option maxHeartbeats 400000 in
set_option maxRecDepth 4000 in
theorem codeRTC4_eq_9 : codeRTC4 9 = true := by decide

set_option maxHeartbeats 400000 in
set_option maxRecDepth 4000 in
theorem codeRTC4_eq_10 : codeRTC4 10 = true := by decide

set_option maxHeartbeats 400000 in
set_option maxRecDepth 4000 in
theorem codeRTC4_eq_11 : codeRTC4 11 = true := by decide

set_option maxHeartbeats 400000 in
set_option maxRecDepth 4000 in
theorem codeRTC4_eq_12 : codeRTC4 12 = true := by decide

set_option maxHeartbeats 400000 in
set_option maxRecDepth 4000 in
theorem codeRTC4_eq_13 : codeRTC4 13 = true := by decide

set_option maxHeartbeats 400000 in
set_option maxRecDepth 4000 in
theorem codeRTC4_eq_14 : codeRTC4 14 = true := by decide

set_option maxHeartbeats 400000 in
set_option maxRecDepth 4000 in
theorem codeRTC4_eq_15 : codeRTC4 15 = true := by decide

set_option maxHeartbeats 400000 in
set_option maxRecDepth 4000 in
theorem codeRTC4_eq_16 : codeRTC4 16 = true := by decide

set_option maxHeartbeats 400000 in
set_option maxRecDepth 4000 in
theorem codeRTC4_eq_17 : codeRTC4 17 = true := by decide

set_option maxHeartbeats 400000 in
set_option maxRecDepth 4000 in
theorem codeRTC4_eq_18 : codeRTC4 18 = true := by decide

set_option maxHeartbeats 400000 in
set_option maxRecDepth 4000 in
theorem codeRTC4_eq_19 : codeRTC4 19 = true := by decide

set_option maxHeartbeats 400000 in
set_option maxRecDepth 4000 in
theorem codeRTC4_eq_20 : codeRTC4 20 = true := by decide

set_option maxHeartbeats 400000 in
set_option maxRecDepth 4000 in
theorem codeRTC4_eq_21 : codeRTC4 21 = true := by decide

set_option maxHeartbeats 400000 in
set_option maxRecDepth 4000 in
theorem codeRTC4_eq_22 : codeRTC4 22 = true := by decide

set_option maxHeartbeats 400000 in
set_option maxRecDepth 4000 in
theorem codeRTC4_eq_23 : codeRTC4 23 = true := by decide

set_option maxHeartbeats 400000 in
set_option maxRecDepth 4000 in
theorem codeRTC4_eq_24 : codeRTC4 24 = true := by decide

set_option maxHeartbeats 400000 in
set_option maxRecDepth 4000 in
theorem codeRTC4_eq_25 : codeRTC4 25 = true := by decide

set_option maxHeartbeats 400000 in
set_option maxRecDepth 4000 in
theorem codeRTC4_eq_26 : codeRTC4 26 = true := by decide

set_option maxHeartbeats 400000 in
set_option maxRecDepth 4000 in
theorem codeRTC4_eq_27 : codeRTC4 27 = true := by decide

set_option maxHeartbeats 400000 in
set_option maxRecDepth 4000 in
theorem codeRTC4_eq_28 : codeRTC4 28 = true := by decide

set_option maxHeartbeats 400000 in
set_option maxRecDepth 4000 in
theorem codeRTC4_eq_29 : codeRTC4 29 = true := by decide

set_option maxHeartbeats 400000 in
set_option maxRecDepth 4000 in
theorem codeRTC4_eq_30 : codeRTC4 30 = true := by decide

set_option maxHeartbeats 400000 in
set_option maxRecDepth 4000 in
theorem codeRTC4_eq_31 : codeRTC4 31 = true := by decide

set_option maxHeartbeats 400000 in
set_option maxRecDepth 4000 in
theorem codeRTC4_eq_32 : codeRTC4 32 = true := by decide

set_option maxHeartbeats 400000 in
set_option maxRecDepth 4000 in
theorem codeRTC4_eq_33 : codeRTC4 33 = true := by decide

set_option maxHeartbeats 400000 in
set_option maxRecDepth 4000 in
theorem codeRTC4_eq_34 : codeRTC4 34 = true := by decide

set_option maxHeartbeats 400000 in
set_option maxRecDepth 4000 in
theorem codeRTC4_eq_35 : codeRTC4 35 = true := by decide

set_option maxHeartbeats 400000 in
set_option maxRecDepth 4000 in
theorem codeRTC4_eq_36 : codeRTC4 36 = true := by decide

set_option maxHeartbeats 400000 in
set_option maxRecDepth 4000 in
theorem codeRTC4_eq_37 : codeRTC4 37 = true := by decide

set_option maxHeartbeats 400000 in
set_option maxRecDepth 4000 in
theorem codeRTC4_eq_38 : codeRTC4 38 = true := by decide

set_option maxHeartbeats 400000 in
set_option maxRecDepth 4000 in
theorem codeRTC4_eq_39 : codeRTC4 39 = true := by decide

set_option maxHeartbeats 400000 in
set_option maxRecDepth 4000 in
theorem codeRTC4_eq_40 : codeRTC4 40 = true := by decide

set_option maxHeartbeats 400000 in
set_option maxRecDepth 4000 in
theorem codeRTC4_eq_41 : codeRTC4 41 = true := by decide

set_option maxHeartbeats 400000 in
set_option maxRecDepth 4000 in
theorem codeRTC4_eq_42 : codeRTC4 42 = true := by decide

set_option maxHeartbeats 400000 in
set_option maxRecDepth 4000 in
theorem codeRTC4_eq_43 : codeRTC4 43 = true := by decide

set_option maxHeartbeats 400000 in
set_option maxRecDepth 4000 in
theorem codeRTC4_eq_44 : codeRTC4 44 = true := by decide

set_option maxHeartbeats 400000 in
set_option maxRecDepth 4000 in
theorem codeRTC4_eq_45 : codeRTC4 45 = true := by decide

set_option maxHeartbeats 400000 in
set_option maxRecDepth 4000 in
theorem codeRTC4_eq_46 : codeRTC4 46 = true := by decide

set_option maxHeartbeats 400000 in
set_option maxRecDepth 4000 in
theorem codeRTC4_eq_47 : codeRTC4 47 = true := by decide

set_option maxHeartbeats 400000 in
set_option maxRecDepth 4000 in
theorem codeRTC4_eq_48 : codeRTC4 48 = true := by decide

set_option maxHeartbeats 400000 in
set_option maxRecDepth 4000 in
theorem codeRTC4_eq_49 : codeRTC4 49 = true := by decide

set_option maxHeartbeats 400000 in
set_option maxRecDepth 4000 in
theorem codeRTC4_eq_50 : codeRTC4 50 = true := by decide

set_option maxHeartbeats 400000 in
set_option maxRecDepth 4000 in
theorem codeRTC4_eq_51 : codeRTC4 51 = true := by decide

set_option maxHeartbeats 400000 in
set_option maxRecDepth 4000 in
theorem codeRTC4_eq_52 : codeRTC4 52 = true := by decide

set_option maxHeartbeats 400000 in
set_option maxRecDepth 4000 in
theorem codeRTC4_eq_53 : codeRTC4 53 = true := by decide

set_option maxHeartbeats 400000 in
set_option maxRecDepth 4000 in
theorem codeRTC4_eq_54 : codeRTC4 54 = true := by decide

set_option maxHeartbeats 400000 in
set_option maxRecDepth 4000 in
theorem codeRTC4_eq_55 : codeRTC4 55 = true := by decide

set_option maxHeartbeats 400000 in
set_option maxRecDepth 4000 in
theorem codeRTC4_eq_56 : codeRTC4 56 = true := by decide

set_option maxHeartbeats 400000 in
set_option maxRecDepth 4000 in
theorem codeRTC4_eq_57 : codeRTC4 57 = true := by decide

set_option maxHeartbeats 400000 in
set_option maxRecDepth 4000 in
theorem codeRTC4_eq_58 : codeRTC4 58 = true := by decide

set_option maxHeartbeats 400000 in
set_option maxRecDepth 4000 in
theorem codeRTC4_eq_59 : codeRTC4 59 = true := by decide

set_option maxHeartbeats 400000 in
set_option maxRecDepth 4000 in
theorem codeRTC4_eq_60 : codeRTC4 60 = true := by decide

set_option maxHeartbeats 400000 in
set_option maxRecDepth 4000 in
theorem codeRTC4_eq_61 : codeRTC4 61 = true := by decide

set_option maxHeartbeats 400000 in
set_option maxRecDepth 4000 in
theorem codeRTC4_eq_62 : codeRTC4 62 = true := by decide

set_option maxHeartbeats 400000 in
set_option maxRecDepth 4000 in
theorem codeRTC4_eq_63 : codeRTC4 63 = true := by decide

theorem codeRTG_0 : ∀ i, i < 4 → codeRTC4 (4 * 0 + i) = true
  | 0, _ => codeRTC4_eq_0
  | 1, _ => codeRTC4_eq_1
  | 2, _ => codeRTC4_eq_2
  | 3, _ => codeRTC4_eq_3
  | n + 4, h => absurd h (by omega)

theorem codeRTG_1 : ∀ i, i < 4 → codeRTC4 (4 * 1 + i) = true
  | 0, _ => codeRTC4_eq_4
  | 1, _ => codeRTC4_eq_5
  | 2, _ => codeRTC4_eq_6
  | 3, _ => codeRTC4_eq_7
  | n + 4, h => absurd h (by omega)

theorem codeRTG_2 : ∀ i, i < 4 → codeRTC4 (4 * 2 + i) = true
  | 0, _ => codeRTC4_eq_8
  | 1, _ => codeRTC4_eq_9
  | 2, _ => codeRTC4_eq_10
  | 3, _ => codeRTC4_eq_11
  | n + 4, h => absurd h (by omega)

theorem codeRTG_3 : ∀ i, i < 4 → codeRTC4 (4 * 3 + i) = true
  | 0, _ => codeRTC4_eq_12
  | 1, _ => codeRTC4_eq_13
  | 2, _ => codeRTC4_eq_14
  | 3, _ => codeRTC4_eq_15
  | n + 4, h => absurd h (by omega)

theorem codeRTG_4 : ∀ i, i < 4 → codeRTC4 (4 * 4 + i) = true
  | 0, _ => codeRTC4_eq_16
  | 1, _ => codeRTC4_eq_17
  | 2, _ => codeRTC4_eq_18
  | 3, _ => codeRTC4_eq_19
  | n + 4, h => absurd h (by omega)

theorem codeRTG_5 : ∀ i, i < 4 → codeRTC4 (4 * 5 + i) = true
  | 0, _ => codeRTC4_eq_20
  | 1, _ => codeRTC4_eq_21
  | 2, _ => codeRTC4_eq_22
  | 3, _ => codeRTC4_eq_23
  | n + 4, h => absurd h (by omega)

theorem codeRTG_6 : ∀ i, i < 4 → codeRTC4 (4 * 6 + i) = true
  | 0, _ => codeRTC4_eq_24
  | 1, _ => codeRTC4_eq_25
  | 2, _ => codeRTC4_eq_26
  | 3, _ => codeRTC4_eq_27
  | n + 4, h => absurd h (by omega)

theorem codeRTG_7 : ∀ i, i < 4 → codeRTC4 (4 * 7 + i) = true
  | 0, _ => codeRTC4_eq_28
  | 1, _ => codeRTC4_eq_29
  | 2, _ => codeRTC4_eq_30
  | 3, _ => codeRTC4_eq_31
  | n + 4, h => absurd h (by omega)

theorem codeRTG_8 : ∀ i, i < 4 → codeRTC4 (4 * 8 + i) = true
  | 0, _ => codeRTC4_eq_32
  | 1, _ => codeRTC4_eq_33
  | 2, _ => codeRTC4_eq_34
  | 3, _ => codeRTC4_eq_35
  | n + 4, h => absurd h (by omega)

theorem codeRTG_9 : ∀ i, i < 4 → codeRTC4 (4 * 9 + i) = true
  | 0, _ => codeRTC4_eq_36
  | 1, _ => codeRTC4_eq_37
  | 2, _ => codeRTC4_eq_38
  | 3, _ => codeRTC4_eq_39
  | n + 4, h => absurd h (by omega)

theorem codeRTG_10 : ∀ i, i < 4 → codeRTC4 (4 * 10 + i) = true
  | 0, _ => codeRTC4_eq_40
  | 1, _ => codeRTC4_eq_41
  | 2, _ => codeRTC4_eq_42
  | 3, _ => codeRTC4_eq_43
  | n + 4, h => absurd h (by omega)

theorem codeRTG_11 : ∀ i, i < 4 → codeRTC4 (4 * 11 + i) = true
  | 0, _ => codeRTC4_eq_44
  | 1, _ => codeRTC4_eq_45
  | 2, _ => codeRTC4_eq_46
  | 3, _ => codeRTC4_eq_47
  | n + 4, h => absurd h (by omega)

theorem codeRTG_12 : ∀ i, i < 4 → codeRTC4 (4 * 12 + i) = true
  | 0, _ => codeRTC4_eq_48
  | 1, _ => codeRTC4_eq_49
  | 2, _ => codeRTC4_eq_50
  | 3, _ => codeRTC4_eq_51
  | n + 4, h => absurd h (by omega)

theorem codeRTG_13 : ∀ i, i < 4 → codeRTC4 (4 * 13 + i) = true
  | 0, _ => codeRTC4_eq_52
  | 1, _ => codeRTC4_eq_53
  | 2, _ => codeRTC4_eq_54
  | 3, _ => codeRTC4_eq_55
  | n + 4, h => absurd h (by omega)

theorem codeRTG_14 : ∀ i, i < 4 → codeRTC4 (4 * 14 + i) = true
  | 0, _ => codeRTC4_eq_56
  | 1, _ => codeRTC4_eq_57
  | 2, _ => codeRTC4_eq_58
  | 3, _ => codeRTC4_eq_59
  | n + 4, h => absurd h (by omega)

theorem codeRTG_15 : ∀ i, i < 4 → codeRTC4 (4 * 15 + i) = true
  | 0, _ => codeRTC4_eq_60
  | 1, _ => codeRTC4_eq_61
  | 2, _ => codeRTC4_eq_62
  | 3, _ => codeRTC4_eq_63
  | n + 4, h => absurd h (by omega)

theorem codeRTGrpAll : ∀ g, g < 16 → ∀ i, i < 4 → codeRTC4 (4 * g + i) = true
  | 0, _ => codeRTG_0
  | 1, _ => codeRTG_1
  | 2, _ => codeRTG_2
  | 3, _ => codeRTG_3
  | 4, _ => codeRTG_4
  | 5, _ => codeRTG_5
  | 6, _ => codeRTG_6
  | 7, _ => codeRTG_7
  | 8, _ => codeRTG_8
  | 9, _ => codeRTG_9
  | 10, _ => codeRTG_10
  | 11, _ => codeRTG_11
  | 12, _ => codeRTG_12
  | 13, _ => codeRTG_13
  | 14, _ => codeRTG_14
  | 15, _ => codeRTG_15
  | n + 16, h => absurd h (by omega)

theorem padDecode_all :
    ((List.range 8).all fun k =>
      (bitsDecode (List.replicate k 1) (0, 0) == some ([], (2 ^ k - 1, k)))
      && acceptedPend (2 ^ k - 1, k)) = true := by decide

theorem codeRoundtrip (x : Nat) (hx : x < 256) :
    bitsDecode (codeBits x) (0, 0) = some ([x], (0, 0)) := by
  have hc := codeRTGrpAll (x / 16) (by omega) (x % 16 / 4) (by omega)
  rw [show 4 * (x / 16) + x % 16 / 4 = x / 4 from by omega] at hc
  simp only [codeRTC4, List.all_eq_true] at hc
  have h := hc (x % 4) (List.mem_range.mpr (by omega))
  rw [show 4 * (x / 4) + x % 4 = x from by omega] at h
  exact eq_of_beq h

theorem padDecode (k : Nat) (hk : k < 8) :
    bitsDecode (List.replicate k 1) (0, 0) = some ([], (2 ^ k - 1, k))
    ∧ acceptedPend (2 ^ k - 1, k) = true := by
  have h := rangeAll_true padDecode_all k hk
  rw [Bool.and_eq_true] at h
  exact ⟨eq_of_beq h.1, h.2⟩

theorem bitsToBytes_lt :
    ∀ (q : Nat) (L : List Nat), L.length = 8 * q → (∀ x ∈ L, x < 2) →
    ∀ y ∈ bitsToBytes L, y < 256 := by
  intro q
  induction q with
  | zero =>
      intro L h _
      have hx : L = [] := List.length_eq_zero.mp (by omega)
      subst hx
      intro y hy
      simp [bitsToBytes] at hy
  | succ q ih =>
      intro L h hbit
      rcases L with _ | ⟨b7, L⟩
      · exact absurd h (by simp only [List.length_nil]; omega)
      rcases L with _ | ⟨b6, L⟩
      · exact absurd h (by simp only [List.length_cons, List.length_nil]; omega)
      rcases L with _ | ⟨b5, L⟩
      · exact absurd h (by simp only [List.length_cons, List.length_nil]; omega)
      rcases L with _ | ⟨b4, L⟩
      · exact absurd h (by simp only [List.length_cons, List.length_nil]; omega)
      rcases L with _ | ⟨b3, L⟩
      · exact absurd h (by simp only [List.length_cons, List.length_nil]; omega)
      rcases L with _ | ⟨b2, L⟩
      · exact absurd h (by simp only [List.length_cons, List.length_nil]; omega)
      rcases L with _ | ⟨b1, L⟩
      · exact absurd h (by simp only [List.length_cons, List.length_nil]; omega)
      rcases L with _ | ⟨b0, L⟩
      · exact absurd h (by simp only [List.length_cons, List.length_nil]; omega)
      intro y hy
      rw [bitsToBytes] at hy
      rcases List.mem_cons.mp hy with h1 | h2
      · have hb7 : b7 < 2 := hbit b7 (by simp)
        have hb6 : b6 < 2 := hbit b6 (by simp)
        have hb5 : b5 < 2 := hbit b5 (by simp)
        have hb4 : b4 < 2 := hbit b4 (by simp)
        have hb3 : b3 < 2 := hbit b3 (by simp)
        have hb2 : b2 < 2 := hbit b2 (by simp)
        have hb1 : b1 < 2 := hbit b1 (by simp)
        have hb0 : b0 < 2 := hbit b0 (by simp)
        omega
      · exact ih L (by simp only [List.length_cons] at h; omega)
          (fun x hx => hbit x (by simp [hx])) y h2

theorem bytesBits_bitsToBytes :
    ∀ (q : Nat) (L : List Nat), L.length = 8 * q → (∀ x ∈ L, x < 2) →
    bytesBits (bitsToBytes L) = L := by
  intro q
  induction q with
  | zero =>
      intro L h _
      have hx : L = [] := List.length_eq_zero.mp (by omega)
      subst hx
      rfl
  | succ q ih =>
      intro L h hbit
      rcases L with _ | ⟨b7, L⟩
      · exact absurd h (by simp only [List.length_nil]; omega)
      rcases L with _ | ⟨b6, L⟩
      · exact absurd h (by simp only [List.length_cons, List.length_nil]; omega)
      rcases L with _ | ⟨b5, L⟩
      · exact absurd h (by simp only [List.length_cons, List.length_nil]; omega)
      rcases L with _ | ⟨b4, L⟩
      · exact absurd h (by simp only [List.length_cons, List.length_nil]; omega)
      rcases L with _ | ⟨b3, L⟩
      · exact absurd h (by simp only [List.length_cons, List.length_nil]; omega)
      rcases L with _ | ⟨b2, L⟩
      · exact absurd h (by simp only [List.length_cons, List.length_nil]; omega)
      rcases L with _ | ⟨b1, L⟩
      · exact absurd h (by simp only [List.length_cons, List.length_nil]; omega)
      rcases L with _ | ⟨b0, L⟩
      · exact absurd h (by simp only [List.length_cons, List.length_nil]; omega)
      have hb7 : b7 < 2 := hbit b7 (by simp)
      have hb6 : b6 < 2 := hbit b6 (by simp)
      have hb5 : b5 < 2 := hbit b5 (by simp)
      have hb4 : b4 < 2 := hbit b4 (by simp)
      have hb3 : b3 < 2 := hbit b3 (by simp)
      have hb2 : b2 < 2 := hbit b2 (by simp)
      have hb1 : b1 < 2 := hbit b1 (by simp)
      have hb0 : b0 < 2 := hbit b0 (by simp)
      rw [bitsToBytes, bytesBits_cons]
      rw [ih L (by simp only [List.length_cons] at h; omega)
        (fun x hx => hbit x (by simp [hx]))]
      show bitsOfLen 8
          (b7 * 128 + b6 * 64 + b5 * 32 + b4 * 16 + b3 * 8 + b2 * 4 + b1 * 2 + b0) ++ L
        = [b7, b6, b5, b4, b3, b2, b1, b0] ++ L
      refine congrArg (fun t => t ++ L) ?_
      show [(b7 * 128 + b6 * 64 + b5 * 32 + b4 * 16 + b3 * 8 + b2 * 4 + b1 * 2 + b0)
          / 2 ^ 7 % 2,
        (b7 * 128 + b6 * 64 + b5 * 32 + b4 * 16 + b3 * 8 + b2 * 4 + b1 * 2 + b0)
          / 2 ^ 6 % 2,
        (b7 * 128 + b6 * 64 + b5 * 32 + b4 * 16 + b3 * 8 + b2 * 4 + b1 * 2 + b0)
          / 2 ^ 5 % 2,
        (b7 * 128 + b6 * 64 + b5 * 32 + b4 * 16 + b3 * 8 + b2 * 4 + b1 * 2 + b0)
          / 2 ^ 4 % 2,
        (b7 * 128 + b6 * 64 + b5 * 32 + b4 * 16 + b3 * 8 + b2 * 4 + b1 * 2 + b0)
          / 2 ^ 3 % 2,
        (b7 * 128 + b6 * 64 + b5 * 32 + b4 * 16 + b3 * 8 + b2 * 4 + b1 * 2 + b0)
          / 2 ^ 2 % 2,
        (b7 * 128 + b6 * 64 + b5 * 32 + b4 * 16 + b3 * 8 + b2 * 4 + b1 * 2 + b0)
          / 2 ^ 1 % 2,
        (b7 * 128 + b6 * 64 + b5 * 32 + b4 * 16 + b3 * 8 + b2 * 4 + b1 * 2 + b0)
          / 2 ^ 0 % 2]
        = [b7, b6, b5, b4, b3, b2, b1, b0]
      simp only [List.cons.injEq, and_true]
      norm_num
      omega

theorem encBits_bits_lt (s : List Nat) : ∀ x ∈ encBits s, x < 2 := by
  intro x hx
  rw [encBits] at hx
  obtain ⟨l, hl, hxl⟩ := List.mem_join.mp hx
  obtain ⟨b, _, hb⟩ := List.mem_map.mp hl
  rw [← hb] at hxl
  exact bitsOfLen_lt_two _ _ x hxl

theorem padTo8_bits_lt (L : List Nat) (h : ∀ x ∈ L, x < 2) :
    ∀ x ∈ padTo8 L, x < 2 := by
  intro x hx
  rw [padTo8] at hx
  rcases List.mem_append.mp hx with h1 | h2
  · exact h x h1
  · rw [List.eq_of_mem_replicate h2]
    omega

/-- C2: Huffman codec round trip.  Encoding a byte string with
`qenc_huffman_enc` and decoding through `lsqpack_huff_decode` under any
partitioning into chunks (with room for one extra output byte, `final`
set only on the last call) emits exactly the original string: every call
before the last returns END_SRC, the final call returns OK, and the
decoder finishes in an accepting state. -/
theorem huffman_roundtrip (s : List Nat) (hs : ∀ x ∈ s, x < 256)
    (chunks : List (List Nat)) (hne : chunks ≠ [])
    (hjoin : chunks.join = qenc_huffman_enc s) :
    ((huffDecodeChunks chunks (s.length + 1) ⟨0, 0, true⟩).1.map
        (fun x => x.2)).join = s
    ∧ (huffDecodeChunks chunks (s.length + 1) ⟨0, 0, true⟩).1.length = chunks.length
    ∧ (∀ i, i + 1 < (huffDecodeChunks chunks (s.length + 1) ⟨0, 0, true⟩).1.length →
        ((huffDecodeChunks chunks (s.length + 1) ⟨0, 0, true⟩).1.getD i
          (HuffDecStatus.huff_dec_error, [])).1 = HuffDecStatus.huff_dec_end_src)
    ∧ ((huffDecodeChunks chunks (s.length + 1) ⟨0, 0, true⟩).1.getD
        ((huffDecodeChunks chunks (s.length + 1) ⟨0, 0, true⟩).1.length - 1)
        (HuffDecStatus.huff_dec_error, [])).1 = HuffDecStatus.huff_dec_ok
    ∧ (huffDecodeChunks chunks (s.length + 1) ⟨0, 0, true⟩).2.eos = true := by
  have henc := qenc_huffman_enc_spec s hs
  have hpadbits : ∀ x ∈ padTo8 (encBits s), x < 2 :=
    padTo8_bits_lt _ (encBits_bits_lt s)
  have hpadlen : (padTo8 (encBits s)).length = 8 * ((padTo8 (encBits s)).length / 8) := by
    have := padTo8_length_mod (encBits s)
    omega
  have hencbytes : ∀ x ∈ qenc_huffman_enc s, x < 256 := by
    rw [henc]
    exact bitsToBytes_lt _ _ hpadlen hpadbits
  have hchunkbytes : ∀ c ∈ chunks, ∀ x ∈ c, x < 256 := by
    intro c hc x hx
    refine hencbytes x ?_
    rw [← hjoin]
    exact List.mem_join.mpr ⟨c, hc, hx⟩
  have hbB : bytesBits chunks.join = padTo8 (encBits s) := by
    rw [hjoin, henc]
    exact bytesBits_bitsToBytes _ _ hpadlen hpadbits
  have hk8 : (8 - (encBits s).length % 8) % 8 < 8 := by omega
  have hdec : bitsDecode (bytesBits chunks.join) (huffStatePend.getD 0 (0, 0))
      = some (s, (2 ^ ((8 - (encBits s).length % 8) % 8) - 1,
          (8 - (encBits s).length % 8) % 8)) := by
    rw [hbB, show huffStatePend.getD 0 (0, 0) = (0, 0) from rfl, padTo8,
      encBits_decode codeRoundtrip s hs, (padDecode _ hk8).1]
    simp
  exact huffDecodeChunks_spec tableOk_eq_true chunks hne hchunkbytes
    (s.length + 1) ⟨0, 0, true⟩ 0 true s _
    (Or.inl ⟨rfl, rfl, rfl⟩) (by norm_num) (by decide) hdec
    (by omega) (padDecode _ hk8).2

theorem huffman_roundtrip_witness :
    (∀ x ∈ ([104, 101, 108, 108, 111] : List Nat), x < 256)
    ∧ (([[156, 180], [80, 127]] : List (List Nat)) ≠ [])
    ∧ ([[156, 180], [80, 127]] : List (List Nat)).join
        = qenc_huffman_enc [104, 101, 108, 108, 111]
    ∧ ((huffDecodeChunks [[156, 180], [80, 127]] 6 ⟨0, 0, true⟩).1.map
        (fun x => x.2)).join = [104, 101, 108, 108, 111] :=
  ⟨by decide, by decide, by decide,
    (huffman_roundtrip [104, 101, 108, 108, 111] (by decide)
      [[156, 180], [80, 127]] (by decide) (by decide)).1⟩

end LsQpack
